import Mathlib

set_option linter.unusedVariables false

/-!
# EduTrack backend: urgency score, report visibility, modification window,
middleware answers, registration, sessions, comments, pagination and query texts

A shallow embedding of the policy code of the EduTrack backend
(`routes/reports.js`, `routes/auth.js`, `routes/dashboard.js`,
`middleware/auth.js`) and theorems about it.
-/

namespace EduTrack

/-! ## JavaScript values -/

/-- The JavaScript values the policy code handles. Numbers are the integers
the handlers produce (`parseInt` results, INTEGER columns); `nan` is the
not-a-number value `parseInt` returns on a non-numeric text; `strs` is an array
of texts (the role lists of `requireRole`). -/
inductive JSVal where
  | undefined
  | null
  | nan
  | num (n : Int)
  | str (s : String)
  | bool (b : Bool)
  | strs (xs : List String)
  deriving DecidableEq, Repr

/-- A plain JavaScript object: its own properties, first binding wins. -/
abbrev JSObj := List (String × JSVal)

/-- Property read `o.k`: a property the object does not have reads as
`undefined`. -/
def JSObj.get (o : JSObj) (k : String) : JSVal :=
  match o.lookup k with
  | some v => v
  | none => JSVal.undefined

/-- Object spread with one overriding property, `{ ...o, k: v }`. -/
def JSObj.spreadWith (o : JSObj) (k : String) (v : JSVal) : JSObj :=
  (k, v) :: o.filter (fun kv => kv.1 != k)

/-- JavaScript truthiness, as tested by `if (v)` and `v || d`. -/
def JSVal.truthy : JSVal → Bool
  | JSVal.undefined => false
  | JSVal.null => false
  | JSVal.nan => false
  | JSVal.num n => n != 0
  | JSVal.str s => s != ""
  | JSVal.bool b => b
  | JSVal.strs _ => true

/-- Numeric conversion of a text; `none` is NaN. Texts are converted when they
are decimal integers (other numeric literal forms do not reach the policy
code, which receives `parseInt` results). -/
def textToNumber (s : String) : Option Int :=
  if s.trim = "" then some 0 else s.trim.toInt?

/-- Numeric conversion used by the relational operators; `none` is NaN. An
array converts through its text, the elements joined by commas. -/
def JSVal.toNumber : JSVal → Option Int
  | JSVal.undefined => none
  | JSVal.null => some 0
  | JSVal.nan => none
  | JSVal.num n => some n
  | JSVal.str s => textToNumber s
  | JSVal.bool b => some (if b then 1 else 0)
  | JSVal.strs xs => textToNumber (",".intercalate xs)

/-- The comparison `v > k` against a numeric literal; any comparison with NaN
is false. -/
def JSVal.gt (v : JSVal) (k : Int) : Bool :=
  match v.toNumber with
  | some n => decide (k < n)
  | none => false

/-- Lookup `table[key]` in an object literal with numeric entries: only a key
whose text names an own entry finds one (the keys the validators admit are
never names inherited from the object prototype; the texts of numbers,
booleans, null and undefined name no entry of the tables of this code). -/
def tableLookup (table : List (String × Int)) (key : JSVal) : Option Int :=
  match key with
  | JSVal.str s => table.lookup s
  | JSVal.strs xs => table.lookup (",".intercalate xs)
  | _ => none

/-- The expression `table[key] || d` for a numeric table: a missing entry, or an
entry equal to zero, gives the default. -/
def lookupOr (table : List (String × Int)) (key : JSVal) (d : Int) : Int :=
  match tableLookup table key with
  | some v => if v != 0 then v else d
  | none => d

/-! ## Urgency score (`routes/reports.js`) -/

/-- The table `priorityScores` of `calculateUrgencyScore`. -/
def priorityScores : List (String × Int) :=
  [("low", 10), ("medium", 30), ("high", 60), ("urgent", 90)]

/-- The table `severityScores` of `calculateUrgencyScore`. -/
def severityScores : List (String × Int) :=
  [("safety", 20), ("infrastructure", 15), ("sanitation", 15),
   ("furniture", 10), ("maintenance", 8), ("resources", 5)]

/-- The students-affected step of `calculateUrgencyScore`: nothing is added
when `report.studentsAffected` is falsy, otherwise the tiered bonus. -/
def studentsPoints (sa : JSVal) : Int :=
  if sa.truthy then
    if sa.gt 500 then 20
    else if sa.gt 200 then 15
    else if sa.gt 100 then 10
    else 5
  else 0

/-- The function `calculateUrgencyScore(report)` of `routes/reports.js`. -/
def calculateUrgencyScore (report : JSObj) : Int :=
  let score : Int := 0
  let score := score + lookupOr priorityScores (report.get "priority") 30
  let score := score + studentsPoints (report.get "studentsAffected")
  let score := score + lookupOr severityScores (report.get "issueType") 5
  min score 100

/-- The object literal `{ priority, studentsAffected, issueType }` that the
create handler passes to `calculateUrgencyScore`. -/
def reportData (priority : String) (studentsAffected : Int) (issueType : String) : JSObj :=
  [("priority", JSVal.str priority), ("studentsAffected", JSVal.num studentsAffected),
   ("issueType", JSVal.str issueType)]

/-- The priority values admitted by the validators. -/
def validPriorities : List String := ["low", "medium", "high", "urgent"]

/-- The issue types admitted by the validators. -/
def validIssueTypes : List String :=
  ["infrastructure", "furniture", "maintenance", "safety", "resources", "sanitation"]

/-! ### The score as the specification words it -/

/-- The base score in the words of the specification. -/
def specBase (p : String) : Int :=
  if p = "low" then 10 else if p = "medium" then 30 else if p = "high" then 60
  else if p = "urgent" then 90 else 0

/-- The students-affected bonus in the words of the specification:
over 500 gives 20, over 200 gives 15, over 100 gives 10, anything else 5. -/
def specBonus (n : Int) : Int :=
  if n > 500 then 20 else if n > 200 then 15 else if n > 100 then 10 else 5

/-- The severity bonus in the words of the specification. -/
def specSeverity (t : String) : Int :=
  if t = "safety" then 20 else if t = "infrastructure" then 15
  else if t = "sanitation" then 15 else if t = "furniture" then 10
  else if t = "maintenance" then 8 else if t = "resources" then 5 else 5

/-- The score in the words of the specification: the three parts summed and
capped at 100. -/
def specScore (p : String) (n : Int) (t : String) : Int :=
  min 100 (specBase p + specBonus n + specSeverity t)

/-- The bonus the code adds: as the specification words it, except that a count
of zero adds nothing. -/
def codeBonus (n : Int) : Int :=
  if n = 0 then 0 else specBonus n

/-! ## Database rows -/

/-- A UUID as the database driver hands it to the handlers: its canonical
text, which is never the empty text. -/
structure Uuid where
  text : String
  nonempty : text ≠ ""
  deriving DecidableEq

/-- A UUID as a JavaScript value. -/
def Uuid.toJS (u : Uuid) : JSVal := JSVal.str u.text

/-- A nullable UUID column as a JavaScript value. -/
def uuidOrNull : Option Uuid → JSVal
  | some u => u.toJS
  | none => JSVal.null

/-- A nullable text column as a JavaScript value. -/
def textOrNull : Option String → JSVal
  | some s => JSVal.str s
  | none => JSVal.null

/-- A row of table `reports` (`config/database.js`), with the columns the
policy code reads. `reporter_id` and `visibility` are nullable; `created_at`
is the creation instant in milliseconds since the epoch (rows are only ever
inserted with the column default `CURRENT_TIMESTAMP`). -/
structure Report where
  id : Uuid
  school_id : Uuid
  reporter_id : Option Uuid
  title : String
  description : String
  issue_type : String
  priority : String
  status : String
  students_affected : Int
  urgency_score : Int
  is_anonymous : Bool
  visibility : Option String
  created_at : Int

/-- The JavaScript object the driver builds for a row of `SELECT * FROM
reports`: one property per column, named as the column is. The columns not
listed here are carried likewise; none of them is read by the policy code. -/
def Report.toObj (r : Report) : JSObj :=
  [("id", r.id.toJS), ("school_id", r.school_id.toJS),
   ("reporter_id", uuidOrNull r.reporter_id), ("title", JSVal.str r.title),
   ("description", JSVal.str r.description), ("issue_type", JSVal.str r.issue_type),
   ("priority", JSVal.str r.priority), ("status", JSVal.str r.status),
   ("students_affected", JSVal.num r.students_affected),
   ("urgency_score", JSVal.num r.urgency_score),
   ("is_anonymous", JSVal.bool r.is_anonymous),
   ("visibility", textOrNull r.visibility)]

/-- The authenticated user attached to a request as `req.user`. -/
structure User where
  id : Uuid
  role : String
  schoolId : Option Uuid

/-! ## Report update (`PUT /api/reports/:id`) -/

/-- The fields the update handler reads from `req.body`; an absent field is
`undefined`. -/
structure UpdateBody where
  status : JSVal
  priority : JSVal
  resolutionNotes : JSVal
  resolutionCost : JSVal
  fundingSource : JSVal

/-- The dynamically built update: the SET items, their values, and the
counter of the next placeholder. -/
structure UpdateState where
  updateFields : List String
  updateValues : List JSVal
  paramCount : Nat
  deriving DecidableEq

/-- One step `updateFields.push(col = $n); updateValues.push(v)` with the
placeholder counter advanced. -/
def UpdateState.set (st : UpdateState) (col : String) (v : JSVal) : UpdateState :=
  { updateFields := st.updateFields ++ [col ++ " = $" ++ toString st.paramCount],
    updateValues := st.updateValues ++ [v],
    paramCount := st.paramCount + 1 }

/-- One step `updateFields.push(text)` that binds no value. -/
def UpdateState.setRaw (st : UpdateState) (text : String) : UpdateState :=
  { st with updateFields := st.updateFields ++ [text] }

/-- The recalculation of the update handler:
`calculateUrgencyScore({ ...report, priority })`. -/
def recalculateUrgencyScore (report : JSObj) (priority : JSVal) : Int :=
  calculateUrgencyScore (report.spreadWith "priority" priority)

/-- The SET items and values the update handler builds from the stored row
`report`, the caller and the request body, up to the test for "no fields". -/
def buildUpdate (report : JSObj) (user : User) (body : UpdateBody) : UpdateState :=
  let st : UpdateState := { updateFields := [], updateValues := [], paramCount := 1 }
  let st :=
    if body.status ≠ JSVal.undefined then
      let st := st.set "status" body.status
      if body.status = JSVal.str "resolved" then
        (st.setRaw "resolved_at = NOW()").set "resolved_by" user.id.toJS
      else st
    else st
  let st :=
    if body.priority ≠ JSVal.undefined then
      let st := st.set "priority" body.priority
      st.set "urgency_score" (JSVal.num (recalculateUrgencyScore report body.priority))
    else st
  let st :=
    if body.resolutionNotes ≠ JSVal.undefined then
      st.set "resolution_notes" body.resolutionNotes
    else st
  let st :=
    if body.resolutionCost ≠ JSVal.undefined then
      st.set "resolution_cost" body.resolutionCost
    else st
  let st :=
    if body.fundingSource ≠ JSVal.undefined then
      st.set "funding_source" body.fundingSource
    else st
  st

/-- The score the specification asks the update to write: the score of the
report as it stands after the update, that is of the new priority with the
stored students-affected count and the stored issue type. -/
def scoreOfUpdatedReport (r : Report) (priority : String) : Int :=
  calculateUrgencyScore (reportData priority r.students_affected r.issue_type)

/-! ## Report list (`GET /api/reports`): the WHERE clause -/

/-- The optional filters the list handler reads from `req.query`; `none` is an
absent parameter. -/
structure ListQuery where
  status : Option String
  priority : Option String
  issueType : Option String
  lga : Option String
  schoolId : Option String
  search : Option String

/-- The query with no optional filter. -/
def ListQuery.none : ListQuery :=
  { status := Option.none, priority := Option.none, issueType := Option.none,
    lga := Option.none, schoolId := Option.none, search := Option.none }

/-- A query parameter as a JavaScript value. -/
def textOrUndefined : Option String → JSVal
  | some s => JSVal.str s
  | Option.none => JSVal.undefined

/-- The columns the WHERE clause of the list mentions. -/
inductive Col where
  | visibility
  | school_id
  | status
  | priority
  | issue_type
  | lga
  | title
  | description
  | school_name
  deriving DecidableEq, Repr

/-- One comparison of the WHERE clause: a column against a text literal,
against the placeholder `$k`, or `ILIKE` the placeholder `$k`. -/
inductive Atom where
  | eqLit (c : Col) (lit : String)
  | eqParam (c : Col) (k : Nat)
  | ilikeParam (c : Col) (k : Nat)
  deriving DecidableEq, Repr

/-- One conjunct of the WHERE clause: the disjunction of its comparisons. -/
abbrev Conjunct := List Atom

/-- The SQL name of a column, with the alias of its table. -/
def Col.sql : Col → String
  | Col.visibility => "r.visibility"
  | Col.school_id => "r.school_id"
  | Col.status => "r.status"
  | Col.priority => "r.priority"
  | Col.issue_type => "r.issue_type"
  | Col.lga => "s.lga"
  | Col.title => "r.title"
  | Col.description => "r.description"
  | Col.school_name => "s.name"

/-- The SQL text of a comparison. -/
def Atom.sql : Atom → String
  | Atom.eqLit c lit => c.sql ++ " = \x27" ++ lit ++ "\x27"
  | Atom.eqParam c k => c.sql ++ " = $" ++ toString k
  | Atom.ilikeParam c k => c.sql ++ " ILIKE $" ++ toString k

/-- The SQL text of a conjunct: a single comparison stands bare, several are
joined by OR inside parentheses. -/
def Conjunct.sql (c : Conjunct) : String :=
  match c with
  | [a] => a.sql
  | as => "(" ++ " OR ".intercalate (as.map Atom.sql) ++ ")"

/-- The state of the clause under construction: the conjuncts appended to
`1 = 1`, the array `queryParams`, and the counter `paramCount`. -/
structure WhereState where
  conds : List Conjunct
  queryParams : List JSVal
  paramCount : Nat
  deriving DecidableEq

/-- The text `whereClause`: `1 = 1` followed by each conjunct behind AND. -/
def WhereState.whereClause (st : WhereState) : String :=
  st.conds.foldl (fun text c => text ++ " AND " ++ c.sql) "1 = 1"

/-- Append a conjunct that binds no parameter. -/
def WhereState.addLit (st : WhereState) (c : Conjunct) : WhereState :=
  { st with conds := st.conds ++ [c] }

/-- Append a conjunct that uses the placeholder numbered `paramCount`, push
its value and advance the counter. -/
def WhereState.addParam (st : WhereState) (mk : Nat → Conjunct) (v : JSVal) : WhereState :=
  { conds := st.conds ++ [mk st.paramCount],
    queryParams := st.queryParams ++ [v],
    paramCount := st.paramCount + 1 }

/-- One optional filter `if (x) ...`: when the query value is truthy the
conjunct is appended and `val x` is pushed. -/
def WhereState.filter (st : WhereState) (x : Option String) (mk : Nat → Conjunct)
    (val : String → String) : WhereState :=
  match x with
  | some s => if (JSVal.str s).truthy then st.addParam mk (JSVal.str (val s)) else st
  | Option.none => st

/-- The role-based part of the clause: the visibility conditions. -/
def visibilityFilters (user : Option User) : WhereState :=
  let st : WhereState := { conds := [], queryParams := [], paramCount := 1 }
  let st :=
    match user with
    | Option.none =>
      st.addLit [Atom.eqLit Col.visibility "public", Atom.eqLit Col.visibility "government"]
    | some u =>
      if u.role = "teacher" then
        st.addLit [Atom.eqLit Col.visibility "public", Atom.eqLit Col.visibility "government"]
      else st
  match user with
  | Option.none => st
  | some u =>
    if u.role = "teacher" ∧ (uuidOrNull u.schoolId).truthy = true then
      st.addParam (fun n => [Atom.eqParam Col.school_id n, Atom.eqLit Col.visibility "public"])
        (uuidOrNull u.schoolId)
    else st

/-- The optional filters, appended in the order of the handler. -/
def optionalFilters (st : WhereState) (q : ListQuery) : WhereState :=
  let st := st.filter q.status (fun n => [Atom.eqParam Col.status n]) id
  let st := st.filter q.priority (fun n => [Atom.eqParam Col.priority n]) id
  let st := st.filter q.issueType (fun n => [Atom.eqParam Col.issue_type n]) id
  let st := st.filter q.lga (fun n => [Atom.ilikeParam Col.lga n]) (fun s => "%" ++ s ++ "%")
  let st := st.filter q.schoolId (fun n => [Atom.eqParam Col.school_id n]) id
  let st := st.filter q.search
    (fun n => [Atom.ilikeParam Col.title n, Atom.ilikeParam Col.description n,
      Atom.ilikeParam Col.school_name n])
    (fun s => "%" ++ s ++ "%")
  st

/-- The WHERE clause the list handler builds for a caller and a query. -/
def buildWhere (user : Option User) (q : ListQuery) : WhereState :=
  optionalFilters (visibilityFilters user) q

/-! ### Evaluation of the clause on a row -/

/-- A row of `reports r JOIN schools s ON r.school_id = s.id`, with the columns
of the school the clause mentions. -/
structure ListRow where
  r : Report
  s_lga : String
  s_name : String

/-- The value of a column in a row; `none` is SQL NULL. -/
def Col.value (row : ListRow) : Col → Option String
  | Col.visibility => row.r.visibility
  | Col.school_id => some row.r.school_id.text
  | Col.status => some row.r.status
  | Col.priority => some row.r.priority
  | Col.issue_type => some row.r.issue_type
  | Col.lga => some row.s_lga
  | Col.title => some row.r.title
  | Col.description => some row.r.description
  | Col.school_name => some row.s_name

/-- The text bound to placeholder `$k`; `none` when nothing or no text is
bound (SQL NULL). -/
def paramText (params : List JSVal) (k : Nat) : Option String :=
  if k = 0 then Option.none
  else
    match params[k - 1]? with
    | some (JSVal.str s) => some s
    | _ => Option.none

/-- SQL disjunction over the three truth values; `none` is unknown. -/
def or3 : Option Bool → Option Bool → Option Bool
  | some true, _ => some true
  | _, some true => some true
  | some false, some false => some false
  | _, _ => Option.none

/-- SQL conjunction over the three truth values; `none` is unknown. -/
def and3 : Option Bool → Option Bool → Option Bool
  | some false, _ => some false
  | _, some false => some false
  | some true, some true => some true
  | _, _ => Option.none

/-- The truth value of a comparison on a row. The matching of `ILIKE` belongs to
the database and is a parameter: `ilike v p` tells whether value `v` matches
pattern `p`. -/
def Atom.eval (ilike : String → String → Bool) (params : List JSVal) (row : ListRow) :
    Atom → Option Bool
  | Atom.eqLit c lit => (c.value row).map (fun v => v == lit)
  | Atom.eqParam c k =>
    match paramText params k with
    | some p => (c.value row).map (fun v => v == p)
    | Option.none => Option.none
  | Atom.ilikeParam c k =>
    match paramText params k with
    | some p => (c.value row).map (fun v => ilike v p)
    | Option.none => Option.none

/-- The truth value of a conjunct: the disjunction of its comparisons. -/
def Conjunct.eval (ilike : String → String → Bool) (params : List JSVal) (row : ListRow)
    (c : Conjunct) : Option Bool :=
  c.foldl (fun acc a => or3 acc (a.eval ilike params row)) (some false)

/-- The truth value of the whole clause `1 = 1 AND c1 AND c2 ...` on a row. -/
def WhereState.eval (ilike : String → String → Bool) (st : WhereState) (row : ListRow) :
    Option Bool :=
  st.conds.foldl (fun acc c => and3 acc (c.eval ilike st.queryParams row)) (some true)

/-- A row is returned exactly when the clause evaluates to true on it. -/
def WhereState.admits (ilike : String → String → Bool) (st : WhereState) (row : ListRow) :
    Bool :=
  st.eval ilike row == some true

/-! ## Modification window (`canModifyReport`, `middleware/auth.js`) -/

/-- What a middleware does with a request: it calls `next()`, or it answers
with a status and a JSON body and does not call `next()`. -/
inductive Outcome where
  | next
  | respond (status : Nat) (body : JSObj)
  deriving DecidableEq, Repr

/-- The result of `await db.query(...)`: the rows, or a thrown error. -/
inductive QueryResult (α : Type) where
  | rows (rs : List α)
  | thrown

/-- The database as the middleware sees it: the rows of table `reports`, and
whether a query succeeds at all. -/
structure Database where
  reports : List Report
  available : Bool

/-- The query `SELECT reporter_id, status, created_at FROM reports WHERE
id = $1`. -/
def Database.reportById (db : Database) (reportId : String) : QueryResult Report :=
  if db.available then QueryResult.rows (db.reports.filter (fun r => r.id.text == reportId))
  else QueryResult.thrown

/-- The route parameters `req.params.id` and `req.params.reportId`. -/
structure Params where
  id : Option String
  reportId : Option String

/-- The expression `req.params.id || req.params.reportId`. -/
def Params.pick (p : Params) : JSVal :=
  if (textOrUndefined p.id).truthy then textOrUndefined p.id else textOrUndefined p.reportId

/-- The body `{ success: false, message }` of the refusals of `canModifyReport`. -/
def failure (message : String) : JSObj :=
  [("success", JSVal.bool false), ("message", JSVal.str message)]

/-- The elapsed time `(now - createdAt) / (1000 * 60 * 60)` in hours, both
instants in milliseconds since the epoch. -/
def hoursDiff (now createdAt : Int) : ℚ :=
  ((now - createdAt : Int) : ℚ) / (1000 * 60 * 60)

/-- The decision of `canModifyReport` once the row is read and the caller is
known. -/
def decideModify (user : User) (report : Report) (now : Int) : Outcome :=
  if user.role = "admin" then Outcome.next
  else if user.role = "government" then Outcome.next
  else if report.reporter_id = some user.id then
    if report.status ≠ "reported" then
      Outcome.respond 403 (failure "Cannot modify report that has been processed")
    else if hoursDiff now report.created_at > 24 then
      Outcome.respond 403 (failure "Cannot modify report after 24 hours")
    else Outcome.next
  else Outcome.respond 403 (failure "Permission denied")

/-- The middleware `canModifyReport(req, res, next)`; `now` is the instant
`new Date()` reads. A thrown error (a failed query, or the read of
`req.user.role` when `req.user` is null) is caught and answered 500. -/
def canModifyReport (db : Database) (params : Params) (user : Option User) (now : Int) :
    Outcome :=
  match params.pick with
  | JSVal.str reportId =>
    match db.reportById reportId with
    | QueryResult.thrown => Outcome.respond 500 (failure "Authorization check failed")
    | QueryResult.rows [] => Outcome.respond 404 (failure "Report not found")
    | QueryResult.rows (report :: _) =>
      match user with
      | Option.none => Outcome.respond 500 (failure "Authorization check failed")
      | some u => decideModify u report now
  | _ => Outcome.respond 400 (failure "Report ID required")

/-- The length of the modification window in milliseconds: 24 hours. -/
def windowMs : Int := 86400000

/-- The CHECK constraint of column `reports.urgency_score`
(`config/database.js`): `urgency_score BETWEEN 0 AND 100`. -/
def urgencyScoreCheck (s : Int) : Prop := 0 ≤ s ∧ s ≤ 100

/-! ## Sample data -/

/-- A sample school id. -/
def schoolA : Uuid := ⟨"5f0c1c0e-8a51-4c55-9d0a-0a6f3b9d1a01", by decide⟩

/-- Another sample school id. -/
def schoolB : Uuid := ⟨"5f0c1c0e-8a51-4c55-9d0a-0a6f3b9d1a02", by decide⟩

/-- A sample user id. -/
def userA : Uuid := ⟨"7b1de6f2-3c44-4e0b-8f57-2d9b6a4c3e11", by decide⟩

/-- A sample report id. -/
def reportA : Uuid := ⟨"c2a4b6d8-1e3f-4a5b-9c7d-0e1f2a3b4c5d", by decide⟩

/-- A sample stored report: urgent, 600 students affected, a safety issue of
school A, reported by user A at instant 0, with the given visibility. -/
def sampleReport (visibility : Option String) : Report :=
  { id := reportA, school_id := schoolA, reporter_id := some userA,
    title := "Collapsed classroom roof",
    description := "The roof of block C collapsed during the storm",
    issue_type := "safety", priority := "urgent", status := "reported",
    students_affected := 600, urgency_score := 100, is_anonymous := false,
    visibility := visibility, created_at := 0 }

/-- A sample teacher of school A. -/
def teacherA : User := { id := userA, role := "teacher", schoolId := some schoolA }

/-- A sample government user. -/
def officerA : User := { id := userA, role := "government", schoolId := Option.none }

/-- A request body that sets only the priority. -/
def priorityOnly (p : String) : UpdateBody :=
  { status := JSVal.undefined, priority := JSVal.str p, resolutionNotes := JSVal.undefined,
    resolutionCost := JSVal.undefined, fundingSource := JSVal.undefined }

/-- A sample query with every optional filter supplied. -/
def allFilters : ListQuery :=
  { status := some "reported", priority := some "high", issueType := some "safety",
    lga := some "Dala", schoolId := some schoolA.text, search := some "roof" }

/-- The clause `st2` extends `st1`: it has the conjuncts and parameters of `st1`
in front. -/
def WhereState.Extends (st1 st2 : WhereState) : Prop :=
  ∃ cs ps, st2.conds = st1.conds ++ cs ∧ st2.queryParams = st1.queryParams ++ ps


/-! ## Authentication and authorization middleware (`middleware/auth.js`) -/

/-- The body `{ success: false, message, code }` of a refusal that carries a
machine-readable code. -/
def failureCode (message code : String) : JSObj :=
  [("success", JSVal.bool false), ("message", JSVal.str message), ("code", JSVal.str code)]

/-- A thrown JavaScript error, with the two properties the handlers read. -/
structure JsError where
  name : String
  message : String
  deriving DecidableEq, Repr

/-- A row of table `users` (`config/database.js`), with the columns the
handlers read or write. -/
structure UserRow where
  id : Uuid
  username : String
  email : String
  password_hash : String
  full_name : String
  role : String
  phone : Option String
  lga : Option String
  school_id : Option Uuid
  is_active : Bool
  deriving DecidableEq

/-- The object `req.user` the authentication middleware builds from a row. -/
def UserRow.toUser (r : UserRow) : User :=
  { id := r.id, role := r.role, schoolId := r.school_id }

/-- The pieces of a text between its blanks, given the characters still to read
and the piece under way, last character first. -/
def splitBlankAux : List Char → List Char → List String
  | [], piece => [String.mk piece.reverse]
  | c :: cs, piece =>
    if c = ' ' then String.mk piece.reverse :: splitBlankAux cs []
    else splitBlankAux cs (c :: piece)

/-- The method `split` with a single blank as separator. -/
def splitBlank (s : String) : List String := splitBlankAux s.toList []

/-- The expression `authHeader && authHeader.split(blank)[1]`: the second
word of the Authorization header, if any. -/
def bearerToken (authHeader : Option String) : JSVal :=
  match authHeader with
  | Option.none => JSVal.undefined
  | some h =>
    if (JSVal.str h).truthy then
      match (splitBlank h)[1]? with
      | some t => JSVal.str t
      | Option.none => JSVal.undefined
    else JSVal.str h

/-- The middleware `authMiddleware`. The token check `jwt.verify` belongs to a
library and is a parameter: it gives the `id` of the decoded payload or throws.
`users` answers the user query (all rows with the given id), or throws. The
result is the outcome and the `req.user` it leaves. -/
def authMiddleware (verify : String → Except JsError String)
    (users : String → QueryResult UserRow) (authHeader : Option String) :
    Outcome × Option User :=
  match bearerToken authHeader with
  | JSVal.str token =>
    if token = "" then
      (Outcome.respond 401 (failureCode "Access token required" "NO_TOKEN"), Option.none)
    else
      match verify token with
      | Except.error e =>
        if e.name = "JsonWebTokenError" then
          (Outcome.respond 401 (failureCode "Invalid token" "INVALID_TOKEN"), Option.none)
        else if e.name = "TokenExpiredError" then
          (Outcome.respond 401 (failureCode "Token expired" "TOKEN_EXPIRED"), Option.none)
        else
          (Outcome.respond 500 (failureCode "Authentication failed" "AUTH_ERROR"), Option.none)
      | Except.ok id =>
        match users id with
        | QueryResult.thrown =>
          (Outcome.respond 500 (failureCode "Authentication failed" "AUTH_ERROR"), Option.none)
        | QueryResult.rows [] =>
          (Outcome.respond 401 (failureCode "User not found" "USER_NOT_FOUND"), Option.none)
        | QueryResult.rows (user :: _) =>
          if user.is_active then (Outcome.next, some user.toUser)
          else
            (Outcome.respond 403 (failureCode "Account deactivated" "ACCOUNT_DEACTIVATED"),
              Option.none)
  | _ => (Outcome.respond 401 (failureCode "Access token required" "NO_TOKEN"), Option.none)

/-- The middleware `optionalAuth`: it always calls `next()`; the result is the
`req.user` it leaves, null unless the token is valid and names an active
user. -/
def optionalAuth (verify : String → Except JsError String)
    (users : String → QueryResult UserRow) (authHeader : Option String) : Option User :=
  match bearerToken authHeader with
  | JSVal.str token =>
    if token = "" then Option.none
    else
      match verify token with
      | Except.error _ => Option.none
      | Except.ok id =>
        match users id with
        | QueryResult.thrown => Option.none
        | QueryResult.rows rs =>
          match rs.filter (fun r => r.is_active) with
          | [] => Option.none
          | user :: _ => some user.toUser
  | _ => Option.none

/-- The argument of `requireRole`: an array of roles, or a single role. -/
inductive Roles where
  | many (rs : List String)
  | one (r : String)

/-- The expression `Array.isArray(roles) ? roles : [roles]`. -/
def Roles.allowed : Roles → List String
  | Roles.many rs => rs
  | Roles.one r => [r]

/-- The middleware returned by `requireRole(roles)`. -/
def requireRole (roles : Roles) (user : Option User) : Outcome :=
  match user with
  | Option.none =>
    Outcome.respond 401 (failureCode "Authentication required" "AUTH_REQUIRED")
  | some u =>
    if u.role ∈ roles.allowed then Outcome.next
    else
      Outcome.respond 403
        [("success", JSVal.bool false), ("message", JSVal.str "Insufficient permissions"),
         ("code", JSVal.str "INSUFFICIENT_PERMISSIONS"),
         ("required", JSVal.strs roles.allowed), ("current", JSVal.str u.role)]

/-- The middleware `requireAdmin`. -/
def requireAdmin : Option User → Outcome := requireRole (Roles.many ["admin"])

/-- The middleware `requireGovernment`. -/
def requireGovernment : Option User → Outcome :=
  requireRole (Roles.many ["admin", "government"])

/-- The middleware `requireTeacherOrAbove`. -/
def requireTeacherOrAbove : Option User → Outcome :=
  requireRole (Roles.many ["teacher", "admin", "government"])

/-- The middleware `requireSchoolAccess`; the two arguments are
`req.params.schoolId` and `req.body.schoolId`. The read of `req.user.role`
throws when `req.user` is null, and the catch answers 500. -/
def requireSchoolAccess (paramSchoolId bodySchoolId : Option String) (user : Option User) :
    Outcome :=
  let schoolId :=
    if (textOrUndefined paramSchoolId).truthy then textOrUndefined paramSchoolId
    else textOrUndefined bodySchoolId
  if schoolId.truthy then
    match user with
    | Option.none =>
      Outcome.respond 500 (failureCode "Authorization failed" "AUTHORIZATION_ERROR")
    | some u =>
      if u.role ∈ ["admin", "government"] then Outcome.next
      else if u.role = "teacher" ∧ uuidOrNull u.schoolId ≠ schoolId then
        Outcome.respond 403 (failureCode "Access denied to this school" "SCHOOL_ACCESS_DENIED")
      else Outcome.next
  else Outcome.respond 400 (failureCode "School ID required" "SCHOOL_ID_REQUIRED")

/-- The decision of `requireReportAccess` once the row is read and the caller
is known. -/
def decideReportAccess (user : User) (report : Report) : Outcome :=
  if user.role ∈ ["admin", "government"] then Outcome.next
  else if report.is_anonymous = false ∧ report.reporter_id = some user.id then Outcome.next
  else if user.role = "teacher" ∧ user.schoolId = some report.school_id then Outcome.next
  else Outcome.respond 403 (failureCode "Access denied to this report" "REPORT_ACCESS_DENIED")

/-- The middleware `requireReportAccess`. After the row is found the first
statement reads `req.user.role`; when `req.user` is null that read throws a
TypeError, which the catch answers with 500. -/
def requireReportAccess (db : Database) (params : Params) (user : Option User) : Outcome :=
  match params.pick with
  | JSVal.str reportId =>
    match db.reportById reportId with
    | QueryResult.thrown =>
      Outcome.respond 500 (failureCode "Authorization failed" "AUTHORIZATION_ERROR")
    | QueryResult.rows [] =>
      Outcome.respond 404 (failureCode "Report not found" "REPORT_NOT_FOUND")
    | QueryResult.rows (report :: _) =>
      match user with
      | Option.none =>
        Outcome.respond 500 (failureCode "Authorization failed" "AUTHORIZATION_ERROR")
      | some u => decideReportAccess u report
  | _ => Outcome.respond 400 (failureCode "Report ID required" "REPORT_ID_REQUIRED")

/-- The middleware `requireApiKey`; the arguments are the header `x-api-key`,
the query parameter `api_key` and the environment variable `VALID_API_KEYS`. -/
def requireApiKey (headerKey queryKey validKeys : Option String) : Outcome :=
  let apiKey :=
    if (textOrUndefined headerKey).truthy then textOrUndefined headerKey
    else textOrUndefined queryKey
  match apiKey with
  | JSVal.str k =>
    if k = "" then Outcome.respond 401 (failureCode "API key required" "API_KEY_REQUIRED")
    else
      let validApiKeys : List String :=
        match validKeys with
        | some v => if v = "" then [] else v.splitOn ","
        | Option.none => []
      if k ∈ validApiKeys then Outcome.next
      else Outcome.respond 401 (failureCode "Invalid API key" "INVALID_API_KEY")
  | _ => Outcome.respond 401 (failureCode "API key required" "API_KEY_REQUIRED")

/-- A response carries a machine-readable code when its body has a property
`code` that is a non-empty text. -/
def hasCode (body : JSObj) : Bool :=
  match body.get "code" with
  | JSVal.str c => c != ""
  | _ => false

/-- An outcome is an authentication or authorization refusal when it answers
401 or 403. -/
def Outcome.isAuthRefusal : Outcome → Bool
  | Outcome.respond status _ => status == 401 || status == 403
  | Outcome.next => false

/-- The property of the specification for one outcome: a 401 or 403 answer
carries a machine-readable code. -/
def Outcome.refusalHasCode : Outcome → Bool
  | Outcome.respond status body => if status == 401 || status == 403 then hasCode body else true
  | Outcome.next => true

/-! ## Registration (`POST /api/auth/register`, `routes/auth.js`) -/

/-- A row of table `sessions`, with the columns the handlers write. -/
structure SessionRow where
  user_id : Uuid
  token_hash : String
  is_active : Bool
  deriving DecidableEq

/-- The tables the authentication routes read and write. Every statement of
the handlers goes through `db.query`, that is through the pool, outside any
transaction: the effect of a statement that succeeds is kept whatever the
later statements do. -/
structure AuthStore where
  users : List UserRow
  sessions : List SessionRow
  schools : List Uuid
  deriving DecidableEq

/-- The fields of `req.body` the registration reads, after the validators and
sanitizers have run; an absent optional field is `none`. -/
structure RegisterBody where
  username : String
  email : String
  password : String
  fullName : String
  role : Option String
  phone : Option String
  lga : Option String
  schoolId : Option String

/-- What the registration takes from outside the handler: the password hash,
the id the database generates for the new row, the two signed tokens and the
digest of the refresh token; and, for each statement, the error it throws if
it fails. -/
structure RegisterEnv where
  hashPassword : String → String
  newId : Uuid
  accessToken : String
  refreshToken : String
  sha256 : String → String
  failLookup : Option JsError
  failSchool : Option JsError
  failInsertUser : Option JsError
  failInsertSession : Option JsError

/-- The answer of the registration handler. -/
inductive RegisterReply where
  | validationFailed (errors : List String)
  | conflict
  | invalidSchool
  | created (user : UserRow) (accessToken refreshToken : String)
  | failed (body : JSObj)
  deriving DecidableEq

/-- The HTTP status of an answer of the registration handler. -/
def RegisterReply.status : RegisterReply → Nat
  | RegisterReply.validationFailed _ => 400
  | RegisterReply.conflict => 409
  | RegisterReply.invalidSchool => 400
  | RegisterReply.created _ _ _ => 201
  | RegisterReply.failed _ => 500

/-- The body of the 500 answer of a catch block of the authentication routes:
the `error` property is the message of the caught error in development mode and
a fixed text otherwise. -/
def catchBody (message : String) (nodeEnv : Option String) (error : JsError) : JSObj :=
  [("success", JSVal.bool false), ("message", JSVal.str message),
   ("error", if nodeEnv = some "development" then JSVal.str error.message
             else JSVal.str "Internal server error")]

/-- The 500 answer of the catch block of the registration handler. -/
def registerCatch (nodeEnv : Option String) (error : JsError) : Outcome :=
  Outcome.respond 500 (catchBody "Registration failed" nodeEnv error)

/-- The 500 answer of the catch block of the login handler. -/
def loginCatch (nodeEnv : Option String) (error : JsError) : Outcome :=
  Outcome.respond 500 (catchBody "Login failed" nodeEnv error)

/-- The query `SELECT id FROM users WHERE username = $1 OR email = $2`. -/
def AuthStore.existing (st : AuthStore) (username email : String) : List UserRow :=
  st.users.filter (fun u => u.username == username || u.email == email)

/-- The row the INSERT of the registration adds: the defaults of the table for
the columns it does not name. -/
def newUserRow (env : RegisterEnv) (body : RegisterBody) : UserRow :=
  { id := env.newId, username := body.username, email := body.email,
    password_hash := env.hashPassword body.password, full_name := body.fullName,
    role := body.role.getD "teacher", phone := body.phone, lga := body.lga,
    school_id :=
      match body.schoolId with
      | some sid => if h : sid ≠ "" then some ⟨sid, h⟩ else Option.none
      | Option.none => Option.none,
    is_active := true }

/-- The handler of `POST /api/auth/register`: the store it leaves and its
answer. `errors` is the result of the validators; `nodeEnv` is the environment
variable `NODE_ENV`. -/
def register (nodeEnv : Option String) (env : RegisterEnv) (errors : List String)
    (body : RegisterBody) (st : AuthStore) : AuthStore × RegisterReply :=
  if errors ≠ [] then (st, RegisterReply.validationFailed errors)
  else
    match env.failLookup with
    | some e => (st, RegisterReply.failed (catchBody "Registration failed" nodeEnv e))
    | Option.none =>
      if (st.existing body.username body.email).length > 0 then (st, RegisterReply.conflict)
      else
        let schoolCheck : Except JsError Bool :=
          if (textOrUndefined body.schoolId).truthy then
            match env.failSchool with
            | some e => Except.error e
            | Option.none =>
              Except.ok (decide (∃ sc ∈ st.schools, some sc.text = body.schoolId))
          else Except.ok true
        match schoolCheck with
        | Except.error e =>
          (st, RegisterReply.failed (catchBody "Registration failed" nodeEnv e))
        | Except.ok false => (st, RegisterReply.invalidSchool)
        | Except.ok true =>
          match env.failInsertUser with
          | some e => (st, RegisterReply.failed (catchBody "Registration failed" nodeEnv e))
          | Option.none =>
            let user := newUserRow env body
            let st1 : AuthStore := { st with users := st.users ++ [user] }
            match env.failInsertSession with
            | some e =>
              (st1, RegisterReply.failed (catchBody "Registration failed" nodeEnv e))
            | Option.none =>
              let session : SessionRow :=
                { user_id := user.id, token_hash := env.sha256 env.refreshToken,
                  is_active := true }
              ({ st1 with sessions := st1.sessions ++ [session] },
                RegisterReply.created user env.accessToken env.refreshToken)

/-! ## Query texts built without placeholders (`GET /api/reports/export`,
`PUT /api/auth/profile`) -/

/-- A query under construction: its text, the parameter list and the counter
`paramCount`. -/
structure TextQuery where
  text : String
  params : List JSVal
  paramCount : Nat
  deriving DecidableEq

/-- One filter of the export, `if (x) ...`: the template of the handler
interpolates the counter alone, so the text gains the condition followed by the
bare number; the value is pushed and the counter advanced. -/
def TextQuery.addIf (st : TextQuery) (x : Option String) (condition : String) : TextQuery :=
  match x with
  | some v =>
    if (JSVal.str v).truthy then
      { text := st.text ++ condition ++ toString st.paramCount,
        params := st.params ++ [JSVal.str v],
        paramCount := st.paramCount + 1 }
    else st
  | Option.none => st

/-- The filters the export reads from `req.query`. -/
structure ExportQuery where
  status : Option String
  lga : Option String
  dateFrom : Option String
  dateTo : Option String

/-- The WHERE clause the export handler builds. -/
def exportWhere (q : ExportQuery) : TextQuery :=
  let st : TextQuery := { text := "1 = 1", params := [], paramCount := 1 }
  let st := st.addIf q.status " AND r.status = "
  let st := st.addIf q.lga " AND s.lga = "
  let st := st.addIf q.dateFrom " AND r.created_at >= "
  let st := st.addIf q.dateTo " AND r.created_at <= "
  st

/-- The fields the profile update reads from `req.body`; an absent field is
`undefined`. -/
structure ProfileBody where
  fullName : JSVal
  phone : JSVal
  lga : JSVal

/-- One step of the profile update: the SET item is the column followed by the
bare counter, as the template of the handler interpolates it. -/
def UpdateState.setBare (st : UpdateState) (col : String) (v : JSVal) : UpdateState :=
  { updateFields := st.updateFields ++ [col ++ " = " ++ toString st.paramCount],
    updateValues := st.updateValues ++ [v],
    paramCount := st.paramCount + 1 }

/-- The SET items and values of the profile update, up to the test for "no
fields". -/
def profileFields (body : ProfileBody) : UpdateState :=
  let st : UpdateState := { updateFields := [], updateValues := [], paramCount := 1 }
  let st := if body.fullName ≠ JSVal.undefined then st.setBare "full_name" body.fullName else st
  let st := if body.phone ≠ JSVal.undefined then st.setBare "phone" body.phone else st
  let st := if body.lga ≠ JSVal.undefined then st.setBare "lga" body.lga else st
  st

/-- The statement and the parameter list the profile update passes to
`db.query`, or `none` when no field is supplied (answer 400). Line breaks and
indentation of the template are written as single blanks. -/
def profileUpdate (body : ProfileBody) (userId : Uuid) : Option (String × List JSVal) :=
  let st := profileFields body
  if st.updateFields.length = 0 then Option.none
  else
    some ("UPDATE users SET " ++ ", ".intercalate st.updateFields
        ++ ", updated_at = NOW() WHERE id = " ++ toString st.paramCount
        ++ " RETURNING id, username, email, full_name, role, phone, lga, updated_at",
      st.updateValues ++ [userId.toJS])

/-- The placeholder `$k` occurs in a text. -/
def mentionsPlaceholder (text : String) (k : Nat) : Prop :=
  ("$" ++ toString k).toList <:+: text.toList

/-- The property of the specification for a built query: every value of the
parameter list is referenced in the text by the placeholder of its 1-based
position. -/
def Parameterized (text : String) (params : List JSVal) : Prop :=
  ∀ k, 1 ≤ k → k ≤ params.length → mentionsPlaceholder text k

/-! ## Comments of the report detail (`GET /api/reports/:id`) -/

/-- A row of the comments query of the detail handler; `is_internal` is a
nullable boolean column. -/
structure Comment where
  id : Uuid
  comment_text : String
  is_internal : Option Bool
  author_role : String
  deriving DecidableEq

/-- The expression `req.user && ![admin, government].includes(req.user.role)`
of the filter, as a truth value: false when `req.user` is null. -/
def restrictedCaller (user : Option User) : Bool :=
  match user with
  | some u => !(decide (u.role ∈ ["admin", "government"]))
  | Option.none => false

/-- The filter of the detail handler: a comment is dropped when it is internal,
`req.user` is not null and the role of the user is neither admin nor
government. -/
def filterComments (user : Option User) (comments : List Comment) : List Comment :=
  comments.filter (fun comment =>
    if comment.is_internal == some true && restrictedCaller user then false else true)

/-! ## Recent activity (`GET /api/dashboard/recent`, `routes/dashboard.js`) -/

/-- The number a list of decimal digits writes. -/
def digitsValue (ds : List Char) : Nat :=
  ds.foldl (fun acc c => 10 * acc + (c.toNat - 48)) 0

/-- The validator `isInt` with bounds on a text: an optional sign, then `0` or
digits with no leading zero, and the value within the bounds. -/
def isIntIn (lo hi : Int) (s : String) : Bool :=
  let cs := s.toList
  let negative := cs.head? == some '-'
  let digits := if negative || cs.head? == some '+' then cs.drop 1 else cs
  let wellFormed := !digits.isEmpty && digits.all Char.isDigit
    && (digits == ['0'] || digits.head? != some '0')
  let v : Int := if negative then -(digitsValue digits : Int) else (digitsValue digits : Int)
  wellFormed && decide (lo ≤ v) && decide (v ≤ hi)

/-- The errors the validators of the route collect: `limit`, when present, must
be an integer in 1..100, and `type`, when present, one of the four kinds. -/
def recentErrors (limit type : Option String) : List String :=
  (match limit with
    | some l => if isIntIn 1 100 l then [] else ["limit"]
    | Option.none => [])
  ++ (match type with
    | some t => if t ∈ ["reports", "resolutions", "comments", "all"] then [] else ["type"]
    | Option.none => [])

/-- A row of the activity feed. -/
structure Activity where
  activity_type : String
  item_id : String
  activity_time : Int
  deriving DecidableEq

/-- The three queries of the feed, with the parameters bound to them: the
limit, and for comments the flag `hasGovernmentAccess`. -/
inductive RecentQuery where
  | reports (limit : JSVal)
  | resolutions (limit : JSVal)
  | comments (limit : JSVal) (hasGovernmentAccess : JSVal)
  deriving DecidableEq

/-- The answer of the feed handler: 200 with the activities and the type, or the
500 of its catch block. -/
inductive RecentReply where
  | ok (activities : List Activity) (type : String)
  | failed
  deriving DecidableEq

/-- The HTTP status of an answer of the feed handler. -/
def RecentReply.status : RecentReply → Nat
  | RecentReply.ok _ _ => 200
  | RecentReply.failed => 500

/-- The expression `req.user && [admin, government].includes(req.user.role)`. -/
def hasGovernmentAccess (user : Option User) : JSVal :=
  match user with
  | Option.none => JSVal.null
  | some u => JSVal.bool (decide (u.role ∈ ["admin", "government"]))

/-- The array method `slice(0, limit)`: the limit is converted to an integer,
NaN counts as 0 and a negative limit counts from the end. -/
def sliceTo {α : Type} (xs : List α) (limit : JSVal) : List α :=
  match limit.toNumber with
  | Option.none => []
  | some n => if n < 0 then xs.take (xs.length - n.natAbs) else xs.take n.toNat

/-- The sort of the feed: by activity time, latest first; the sort of arrays
is stable. -/
def sortByTimeDesc (xs : List Activity) : List Activity :=
  xs.insertionSort (fun a b => a.activity_time ≥ b.activity_time)

/-- One category of the feed: when the type selects it the query is run and its
rows are appended; a thrown error ends the handler in its catch block. -/
def recentStep (db : RecentQuery → QueryResult Activity) (selected : Bool) (q : RecentQuery)
    (acc : Except (List RecentQuery) (List RecentQuery × List Activity)) :
    Except (List RecentQuery) (List RecentQuery × List Activity) :=
  match acc with
  | Except.error qs => Except.error qs
  | Except.ok (qs, activities) =>
    if selected then
      match db q with
      | QueryResult.thrown => Except.error (qs ++ [q])
      | QueryResult.rows rs => Except.ok (qs ++ [q], activities ++ rs)
    else Except.ok (qs, activities)

/-- The limit the feed handler works with, `const { limit = 20 } = req.query`:
the query parameter, or 20. -/
def recentLimit (limitParam : Option String) : JSVal :=
  match limitParam with
  | some l => JSVal.str l
  | Option.none => JSVal.num 20

/-- The handler of `GET /api/dashboard/recent`: the queries it runs, in order,
and its answer. The route declares validators for `limit` and `type`, but the
handler never reads their result: `errors` has no effect. -/
def recent (db : RecentQuery → QueryResult Activity) (errors : List String)
    (user : Option User) (limitParam typeParam : Option String) :
    List RecentQuery × RecentReply :=
  let limit : JSVal := recentLimit limitParam
  let type : String := typeParam.getD "all"
  let acc : Except (List RecentQuery) (List RecentQuery × List Activity) := Except.ok ([], [])
  let acc := recentStep db (type = "reports" ∨ type = "all") (RecentQuery.reports limit) acc
  let acc := recentStep db (type = "resolutions" ∨ type = "all")
    (RecentQuery.resolutions limit) acc
  let acc := recentStep db (type = "comments" ∨ type = "all")
    (RecentQuery.comments limit (hasGovernmentAccess user)) acc
  match acc with
  | Except.error qs => (qs, RecentReply.failed)
  | Except.ok (qs, activities) =>
    (qs, RecentReply.ok (sliceTo (sortByTimeDesc activities) limit) type)

/-! ## Sample data for the middleware and the authentication routes -/

/-- Another sample user id. -/
def userB : Uuid := ⟨"9d3e5f70-2b4c-4d6e-8f90-a1b2c3d4e5f6", by decide⟩

/-- A sample teacher of school B, who reported nothing. -/
def teacherB : User := { id := userB, role := "teacher", schoolId := some schoolB }

/-- A database that holds the sample report and answers its queries. -/
def sampleDb : Database := { reports := [sampleReport (some "public")], available := true }

/-- The route parameters naming the sample report. -/
def sampleParams : Params := { id := some reportA.text, reportId := Option.none }

/-- A sample thrown error. -/
def sampleError : JsError :=
  { name := "error", message := "connection terminated unexpectedly" }

/-- Another sample thrown error, with another message. -/
def otherError : JsError :=
  { name := "error", message := "relation sessions does not exist" }

/-- A stored user, Ada. -/
def adaRow : UserRow :=
  { id := userA, username := "ada_obi", email := "ada@example.org",
    password_hash := "hash-1", full_name := "Ada Obi", role := "teacher",
    phone := Option.none, lga := Option.none, school_id := some schoolA, is_active := true }

/-- A store with one user and no session. -/
def sampleStore : AuthStore := { users := [adaRow], sessions := [], schools := [schoolA] }

/-- A registration body for a new user, Bello. -/
def belloBody : RegisterBody :=
  { username := "bello_k", email := "bello@example.org", password := "Passw0rd!",
    fullName := "Bello Kabir", role := Option.none, phone := Option.none,
    lga := Option.none, schoolId := Option.none }

/-- An environment in which every statement succeeds. -/
def workingEnv : RegisterEnv :=
  { hashPassword := fun p => "hashed:" ++ p, newId := userB, accessToken := "access-1",
    refreshToken := "refresh-1", sha256 := fun t => "digest:" ++ t,
    failLookup := Option.none, failSchool := Option.none, failInsertUser := Option.none,
    failInsertSession := Option.none }

/-- An environment in which the session insert fails and everything else
succeeds. -/
def sessionFailsEnv : RegisterEnv := { workingEnv with failInsertSession := some sampleError }

/-- A sample internal comment. -/
def internalComment : Comment :=
  { id := reportA, comment_text := "Contractor shortlisted, budget not yet approved",
    is_internal := some true, author_role := "government" }

/-- A sample public comment. -/
def publicComment : Comment :=
  { id := userB, comment_text := "The roof is still leaking", is_internal := some false,
    author_role := "teacher" }

/-- A feed database that answers every query with one row of its category. -/
def feedDb : RecentQuery → QueryResult Activity
  | RecentQuery.reports _ =>
    QueryResult.rows [{ activity_type := "report", item_id := "r1", activity_time := 300 }]
  | RecentQuery.resolutions _ =>
    QueryResult.rows [{ activity_type := "resolution", item_id := "r2", activity_time := 500 }]
  | RecentQuery.comments _ _ =>
    QueryResult.rows [{ activity_type := "comment", item_id := "c1", activity_time := 400 }]

/-- The school check of the registration passes: no school is named, or the
school query is answered and finds the school. -/
def schoolAccepted (env : RegisterEnv) (body : RegisterBody) (st : AuthStore) : Prop :=
  (textOrUndefined body.schoolId).truthy = false
    ∨ (env.failSchool = Option.none ∧ ∃ sc ∈ st.schools, some sc.text = body.schoolId)

/-- An export query filtered by status alone. -/
def statusOnly : ExportQuery :=
  { status := some "reported", lga := Option.none, dateFrom := Option.none,
    dateTo := Option.none }

/-- A profile update of the full name alone. -/
def nameOnly : ProfileBody :=
  { fullName := JSVal.str "Ada Obi", phone := JSVal.undefined, lga := JSVal.undefined }

/-! ## Comments of a report (`POST /api/reports/:id/comments`) -/

/-- The operator `a && b`: the left operand when it is falsy, the right one
otherwise. -/
def jsAnd (a b : JSVal) : JSVal := if a.truthy then b else a

/-- The text a value is validated as. -/
def JSVal.text : JSVal → String
  | JSVal.undefined => "undefined"
  | JSVal.null => "null"
  | JSVal.nan => "NaN"
  | JSVal.num n => toString n
  | JSVal.str s => s
  | JSVal.bool b => if b then "true" else "false"
  | JSVal.strs xs => ",".intercalate xs

/-- The validator `isBoolean` of the comment and report routes, with its
default options: the text of the value is one of `true`, `false`, `1`, `0`. -/
def passesIsBoolean (v : JSVal) : Bool :=
  decide (v.text ∈ ["true", "false", "1", "0"])

/-- The destructuring default `const { x = d } = req.body`: the default stands
for an absent field only. -/
def orDefault (v d : JSVal) : JSVal := if v = JSVal.undefined then d else v

/-- The expression `[admin, government].includes(req.user.role)` of the comment
handler. -/
def canMakeInternal (user : User) : Bool := decide (user.role ∈ ["admin", "government"])

/-- The value `finalIsInternal` the comment handler passes to the INSERT as
`is_internal`: `isInternal && canMakeInternal`, where `isInternal` is the field
of the body, false when absent. -/
def finalIsInternal (user : User) (isInternalField : JSVal) : JSVal :=
  jsAnd (orDefault isInternalField (JSVal.bool false)) (JSVal.bool (canMakeInternal user))

/-- The parameter list of the INSERT of the comment handler: report id, user
id, text, type (default `comment`) and the internal flag. -/
def commentInsertParams (reportId : String) (user : User) (commentText commentType
    isInternalField : JSVal) : List JSVal :=
  [JSVal.str reportId, user.id.toJS, commentText,
   orDefault commentType (JSVal.str "comment"), finalIsInternal user isInternalField]

/-! ## Report creation (`POST /api/reports`) -/

/-- The fields of `req.body` the creation reads, after validation: an absent
optional field is `none` (or `undefined` for the anonymous flag, which reaches
the handler as a boolean or as one of the texts the validator admits). -/
structure CreateBody where
  schoolId : Uuid
  title : String
  description : String
  issueType : String
  priority : Option String
  studentsAffected : Option Int
  isAnonymous : JSVal
  visibility : Option String

/-- The boolean the database stores for a flag parameter: the boolean itself,
or what the text or number denotes. -/
def storedFlag : JSVal → Bool
  | JSVal.bool b => b
  | JSVal.str s => decide (s = "true" ∨ s = "1")
  | JSVal.num n => decide (n ≠ 0)
  | _ => false

/-- The row the INSERT of the creation handler adds for a caller and a body:
`reporter_id` is `isAnonymous ? null : req.user.id`, the score is computed from
priority, students affected and issue type, and id, status and creation
instant are the defaults of the table (`newId` and `now` stand for the
generated id and the clock of the database). -/
def insertedReport (newId : Uuid) (now : Int) (user : User) (body : CreateBody) : Report :=
  let priority := body.priority.getD "medium"
  let studentsAffected := body.studentsAffected.getD 0
  let isAnonymous := orDefault body.isAnonymous (JSVal.bool false)
  { id := newId, school_id := body.schoolId,
    reporter_id := if isAnonymous.truthy then Option.none else some user.id,
    title := body.title, description := body.description, issue_type := body.issueType,
    priority := priority, status := "reported", students_affected := studentsAffected,
    urgency_score := calculateUrgencyScore (reportData priority studentsAffected body.issueType),
    is_anonymous := storedFlag isAnonymous,
    visibility := some (body.visibility.getD "public"),
    created_at := now }

/-! ## Placeholders of the list and update queries -/

/-- The decimal digits a text starts with. -/
def leadingDigits : List Char → List Char
  | [] => []
  | c :: cs => if c.isDigit then c :: leadingDigits cs else []

/-- The numbers of the placeholders that occur in a text, in the order of the
text: a placeholder is a dollar sign followed by decimal digits. -/
def scanPlaceholders : List Char → List Nat
  | [] => []
  | c :: cs =>
    if c = '$' then
      match leadingDigits cs with
      | [] => scanPlaceholders cs
      | d :: ds => digitsValue (d :: ds) :: scanPlaceholders cs
    else scanPlaceholders cs

/-- The numbers of the placeholders that occur in a query text, in the order of
the text. -/
def placeholdersIn (text : String) : List Nat := scanPlaceholders text.toList

/-- Whether a text starts with a decimal digit. -/
def startsWithDigit : List Char → Bool
  | [] => false
  | c :: _ => c.isDigit

/-- The clause `text` holds `condition` as one of its conjuncts: the condition
stands behind an AND and is followed by the end of the clause or by the next
AND. -/
def HasCondition (text condition : String) : Prop :=
  ∃ before after, text = before ++ " AND " ++ condition ++ after
    ∧ (after = "" ∨ ∃ rest, after = " AND " ++ rest)

/-- The value `v` is guarded in a clause by the condition `condition`: for some
`k` the clause holds `condition k`, the condition written with the placeholder
`$k`, and `v` is the `k`-th element of the parameter list. -/
def GuardedBy (text : String) (params : List JSVal) (condition : Nat → String) (v : JSVal) :
    Prop :=
  ∃ k, 1 ≤ k ∧ k ≤ params.length ∧ params[k - 1]? = some v ∧ HasCondition text (condition k)

/-- The condition built by `mk` is guarded by a placeholder whose value is `v`:
for some `k`, the conjunct `mk k` is in the clause and `v` is the `k`-th element
of `queryParams`. -/
def WhereState.Guards (st : WhereState) (mk : Nat → Conjunct) (v : JSVal) : Prop :=
  ∃ k, 1 ≤ k ∧ k ≤ st.queryParams.length ∧ mk k ∈ st.conds ∧ st.queryParams[k - 1]? = some v

/-- The clause is numbered in the order of its parameters: the counter is one
more than the number of parameters, and the placeholders that occur in the text
of the clause are `$1` to `$n`, `n` the number of parameters. -/
def WhereState.Numbered (st : WhereState) : Prop :=
  st.paramCount = st.queryParams.length + 1
    ∧ ∀ k, k ∈ placeholdersIn st.whereClause ↔ 1 ≤ k ∧ k ≤ st.queryParams.length

/-- The text of the conjunct that `mk` builds with the number `n` uses the
placeholder `$n` and no other. -/
def UsesOnly (mk : Nat → Conjunct) : Prop :=
  ∀ n k, k ∈ placeholdersIn (Conjunct.sql (mk n)) ↔ k = n

/-- The end of the reports query of the list handler and the parameter list it
is run with: `LIMIT` and `OFFSET` take the next two placeholders and
`queryParams.push(limit, offset)` binds them. -/
def listQueryTail (st : WhereState) (limit offset : JSVal) : String × List JSVal :=
  (" LIMIT $" ++ toString st.paramCount ++ " OFFSET $" ++ toString (st.paramCount + 1),
    st.queryParams ++ [limit, offset])

/-- The SET items of a built update are numbered in the order of its values:
the counter is one more than the number of values, the placeholders that occur
in the items, taken in order, are `$1`, `$2`, ... up to the number of values, and
no item starts with a digit. -/
def UpdateState.Numbered (st : UpdateState) : Prop :=
  st.paramCount = st.updateValues.length + 1
    ∧ st.updateFields.flatMap placeholdersIn = List.range' 1 st.updateValues.length
    ∧ ∀ f ∈ st.updateFields, startsWithDigit f.toList = false

/-- The column `col` is set to the value `v`: for some `k` the SET items hold
`col = $k` and `v` is the `k`-th element of `updateValues`. -/
def UpdateState.Binds (st : UpdateState) (col : String) (v : JSVal) : Prop :=
  ∃ k, 1 ≤ k ∧ k ≤ st.updateValues.length
    ∧ (col ++ " = $" ++ toString k) ∈ st.updateFields ∧ st.updateValues[k - 1]? = some v

/-- The second state continues the first: its items and values start with
those of the first. -/
def UpdateState.Extends (st1 st2 : UpdateState) : Prop :=
  ∃ fs vs, st2.updateFields = st1.updateFields ++ fs
    ∧ st2.updateValues = st1.updateValues ++ vs

/-- The statement and the parameter list the report update passes to
`db.query`, or `none` when no field is supplied (answer 400). Line breaks and
indentation of the template are written as single blanks. -/
def updateQuery (report : JSObj) (user : User) (body : UpdateBody) (id : String) :
    Option (String × List JSVal) :=
  let st := buildUpdate report user body
  if st.updateFields.length = 0 then Option.none
  else
    some ("UPDATE reports SET " ++ ", ".intercalate (st.updateFields ++ ["updated_at = NOW()"])
        ++ " WHERE id = $" ++ toString st.paramCount ++ " RETURNING *",
      st.updateValues ++ [JSVal.str id])

/-! ## Pagination of the list (`GET /api/reports`) -/

/-- A JavaScript number as the pagination arithmetic meets it: a double whose
value is a non-negative integer, Infinity, or NaN. -/
inductive JSNumber where
  | finite (n : Nat)
  | infinity
  | nan
  deriving DecidableEq, Repr

/-- The integer nearest to `x / d`, a tie going to the even one. -/
def roundHalfEven (x d : Nat) : Nat :=
  let f := x / d
  let r := x % d
  if 2 * r < d then f else if d < 2 * r then f + 1 else if f % 2 = 0 then f else f + 1

/-- The least `k` from `k` on, within the fuel, with `2^52 * b ≤ a * 2^k`: the
number of binary places of the double nearest to `a / b`, at most the 1074
places of the subnormal doubles. -/
def scaleUp (a b : Nat) : Nat → Nat → Nat
  | 0, k => k
  | fuel + 1, k => if 2 ^ 52 * b ≤ a * 2 ^ k then k else scaleUp a b fuel (k + 1)

/-- The least `j` from `j` on, within the fuel, with `a < 2^53 * b * 2^j`: the
number of low bits that the double nearest to a quotient `a / b` of at least
2^53 lacks. -/
def scaleDown (a b : Nat) : Nat → Nat → Nat
  | 0, j => j
  | fuel + 1, j => if a < 2 ^ 53 * b * 2 ^ j then j else scaleDown a b fuel (j + 1)

/-- The double nearest to a non-negative integer, as the conversion of a
decimal text to a number gives it: integers below 2^53 are doubles; a larger one
is rounded to 53 significant bits, a tie going to the even significand, and the
result is Infinity when the rounded value reaches 2^1024, that is when more
than 971 low bits are dropped, or 971 and the significand rounds up to 2^53.
The language leaves the rounding of a text of more than 20 significant digits
to the implementation; the model rounds it exactly, as it does a shorter
text. -/
def toDouble (n : Nat) : JSNumber :=
  if n < 2 ^ 53 then JSNumber.finite n
  else
    let e := scaleDown n 1 1024 1
    let m := roundHalfEven n (2 ^ e)
    if e ≤ 970 ∨ (e = 971 ∧ m < 2 ^ 53) then JSNumber.finite (m * 2 ^ e)
    else JSNumber.infinity

/-- The difference `x - 1` for a number `x` that is at least 1. -/
def JSNumber.minusOne : JSNumber → JSNumber
  | JSNumber.finite n => toDouble (n - 1)
  | JSNumber.infinity => JSNumber.infinity
  | JSNumber.nan => JSNumber.nan

/-- The product `x * b` for an integer `b` below 2^53. -/
def JSNumber.times (x : JSNumber) (b : Nat) : JSNumber :=
  match x with
  | JSNumber.finite a => toDouble (a * b)
  | JSNumber.infinity => if b = 0 then JSNumber.nan else JSNumber.infinity
  | JSNumber.nan => JSNumber.nan

/-- The value of `Math.ceil(a / b)` for doubles `a` and `b` of integer value with
`b` at least 1: the quotient is rounded to the nearest double (53 significant
bits, a tie going to the even significand), then rounded up to an integer. -/
def ceilOfQuotient (a b : Nat) : Nat :=
  if a = 0 then 0
  else if a < 2 ^ 53 * b then
    let k := scaleUp a b 1074 0
    let m := roundHalfEven (a * 2 ^ k) b
    (m + 2 ^ k - 1) / 2 ^ k
  else
    let j := scaleDown a b 1024 1
    roundHalfEven a (b * 2 ^ j) * 2 ^ j

/-- The expression `Math.ceil(x / b)` for an integer `b` below 2^53. -/
def JSNumber.ceilDiv (x : JSNumber) (b : Nat) : JSNumber :=
  match x with
  | JSNumber.finite a =>
    if b = 0 then (if a = 0 then JSNumber.nan else JSNumber.infinity)
    else JSNumber.finite (ceilOfQuotient a b)
  | JSNumber.infinity => JSNumber.infinity
  | JSNumber.nan => JSNumber.nan

/-- The comparison `x < y`; a comparison with NaN is false. -/
def JSNumber.lt : JSNumber → JSNumber → Bool
  | JSNumber.finite a, JSNumber.finite b => decide (a < b)
  | JSNumber.finite _, JSNumber.infinity => true
  | _, _ => false

/-- The pagination figures of the list handler. -/
structure Pagination where
  offset : JSNumber
  totalPages : JSNumber
  hasNextPage : Bool
  hasPrevPage : Bool
  deriving DecidableEq

/-- The pagination figures of the list handler for the integers `page` and
`limit` that the query writes (or the defaults 1 and 20) and the integer
`totalReports` that the count statement returns as a text; `none` is the answer
400 of the validators, which admit a page of at least 1 and a limit from 1 to
100. The query values are texts, which the arithmetic and the comparisons
convert to numbers; `parseInt` converts the count. Then
`offset = (page - 1) * limit`, `totalPages = Math.ceil(totalReports / limit)`,
`hasNextPage = page < totalPages` and `hasPrevPage = page > 1`, all in double
arithmetic. -/
def paginate (page limit totalReports : Nat) : Option Pagination :=
  if page < 1 ∨ limit < 1 ∨ 100 < limit then Option.none
  else
    let offset := ((toDouble page).minusOne).times limit
    let totalPages := (toDouble totalReports).ceilDiv limit
    some { offset := offset, totalPages := totalPages,
           hasNextPage := (toDouble page).lt totalPages,
           hasPrevPage := (JSNumber.finite 1).lt (toDouble page) }

/-- The largest integer up to which every integer is a double,
`Number.MAX_SAFE_INTEGER`, 2^53 - 1. -/
def maxSafeInteger : Nat := 9007199254740991

/-! ## Sessions (`POST /api/auth/login`, `/refresh`, `/logout`,
`/change-password`) -/

/-- What the session handlers take from outside: `generateTokens` (the access
and the refresh token signed for a user), the digest `sha256`, the password
comparison, the password hash, and the check of a refresh token (the `id` of its
payload, or a thrown error). -/
structure SessionEnv where
  accessTokenOf : UserRow → String
  refreshTokenOf : UserRow → String
  sha256 : String → String
  comparePassword : String → String → Bool
  hashPassword : String → String
  verifyRefresh : String → Except JsError String

/-- The answer of a session handler: its status and, for a login, the two
tokens issued. -/
structure SessionReply where
  status : Nat
  accessToken : Option String
  refreshToken : Option String
  deriving DecidableEq

/-- An answer with a status and no token. -/
def SessionReply.plain (status : Nat) : SessionReply :=
  { status := status, accessToken := Option.none, refreshToken := Option.none }

/-- The errors the statements of the login throw, if they fail. -/
structure LoginFaults where
  failSelect : Option JsError
  failInsertSession : Option JsError
  failUpdateLogin : Option JsError

/-- The handler of `POST /api/auth/login`: the store it leaves and its answer.
The session it stores carries the digest of the refresh token; its expiry (7
or 30 days) is judged by the database when the session is read. The last
statement updates `last_login`, a column no handler reads. -/
def login (env : SessionEnv) (faults : LoginFaults) (errors : List String)
    (username password : String) (st : AuthStore) : AuthStore × SessionReply :=
  if errors ≠ [] then (st, SessionReply.plain 400)
  else
    match faults.failSelect with
    | some _ => (st, SessionReply.plain 500)
    | Option.none =>
      match st.users.filter (fun u => u.username == username || u.email == username) with
      | [] => (st, SessionReply.plain 401)
      | user :: _ =>
        if user.is_active = false then (st, SessionReply.plain 403)
        else if env.comparePassword password user.password_hash = false then
          (st, SessionReply.plain 401)
        else
          let accessToken := env.accessTokenOf user
          let refreshToken := env.refreshTokenOf user
          match faults.failInsertSession with
          | some _ => (st, SessionReply.plain 500)
          | Option.none =>
            let session : SessionRow :=
              { user_id := user.id, token_hash := env.sha256 refreshToken, is_active := true }
            let st1 : AuthStore := { st with sessions := st.sessions ++ [session] }
            match faults.failUpdateLogin with
            | some _ => (st1, SessionReply.plain 500)
            | Option.none =>
              (st1, { status := 200, accessToken := some accessToken,
                      refreshToken := some refreshToken })

/-- The handler of `POST /api/auth/refresh`: its status. `live` tells whether a
session has not expired (`expires_at > NOW()`); a thrown error, of the token
check or of the query, is answered 401 by the catch block. -/
def refresh (env : SessionEnv) (fail : Option JsError) (live : SessionRow → Bool)
    (refreshToken : JSVal) (st : AuthStore) : Nat :=
  match refreshToken with
  | JSVal.str token =>
    if token = "" then 401
    else
      match env.verifyRefresh token with
      | Except.error _ => 401
      | Except.ok _ =>
        match fail with
        | some _ => 401
        | Option.none =>
          let tokenHash := env.sha256 token
          let rows := st.sessions.filter (fun s =>
            s.token_hash == tokenHash && s.is_active && live s
              && st.users.any (fun u => u.id == s.user_id))
          if rows.length = 0 then 401 else 200
  | _ => 401

/-- The statement `UPDATE sessions SET is_active = false WHERE user_id = $1`. -/
def deactivateAll (userId : Uuid) (sessions : List SessionRow) : List SessionRow :=
  sessions.map (fun s => if s.user_id = userId then { s with is_active := false } else s)

/-- The statement `UPDATE sessions SET is_active = false WHERE user_id = $1 AND
token_hash != $2`. -/
def deactivateOthers (userId : Uuid) (tokenHash : String) (sessions : List SessionRow) :
    List SessionRow :=
  sessions.map (fun s =>
    if s.user_id = userId ∧ s.token_hash ≠ tokenHash then { s with is_active := false } else s)

/-- The handler of `POST /api/auth/logout`, behind `authMiddleware`: the store
it leaves and its status. -/
def logout (fail : Option JsError) (authHeader : Option String) (user : User)
    (st : AuthStore) : AuthStore × Nat :=
  if (bearerToken authHeader).truthy then
    match fail with
    | some _ => (st, 500)
    | Option.none => ({ st with sessions := deactivateAll user.id st.sessions }, 200)
  else (st, 200)

/-- The errors the statements of the password change throw, if they fail. -/
structure ChangeFaults where
  failSelect : Option JsError
  failUpdateUser : Option JsError
  failUpdateSessions : Option JsError

/-- The handler of `POST /api/auth/change-password`, behind `authMiddleware`:
the store it leaves and its status. The token of the Authorization header is
the access token; its digest is compared with the stored digests. -/
def changePassword (env : SessionEnv) (faults : ChangeFaults) (errors : List String)
    (authHeader : Option String) (user : User) (currentPassword newPassword : String)
    (st : AuthStore) : AuthStore × Nat :=
  if errors ≠ [] then (st, 400)
  else
    match faults.failSelect with
    | some _ => (st, 500)
    | Option.none =>
      match st.users.filter (fun u => u.id == user.id) with
      | [] => (st, 500)
      | row :: _ =>
        if env.comparePassword currentPassword row.password_hash = false then (st, 400)
        else
          match faults.failUpdateUser with
          | some _ => (st, 500)
          | Option.none =>
            let st1 : AuthStore :=
              { st with users := st.users.map (fun u =>
                  if u.id = user.id then
                    { u with password_hash := env.hashPassword newPassword }
                  else u) }
            match bearerToken authHeader with
            | JSVal.str currentToken =>
              if currentToken = "" then (st1, 200)
              else
                match faults.failUpdateSessions with
                | some _ => (st1, 500)
                | Option.none =>
                  ({ st1 with sessions :=
                      deactivateOthers user.id (env.sha256 currentToken) st1.sessions }, 200)
            | _ => (st1, 200)

/-! ## Sample data for sessions, comments and creation -/

/-- A session environment with transparent stand-ins for the library
functions: tokens name the user, the digest and the hash prefix their input. -/
def sampleSessionEnv : SessionEnv :=
  { accessTokenOf := fun u => "access:" ++ u.username,
    refreshTokenOf := fun u => "refresh:" ++ u.username,
    sha256 := fun t => "digest:" ++ t,
    comparePassword := fun p h => h == "hash-" ++ p,
    hashPassword := fun p => "hash-" ++ p,
    verifyRefresh := fun _ => Except.ok userA.text }

/-- No statement of the login fails. -/
def noLoginFaults : LoginFaults :=
  { failSelect := Option.none, failInsertSession := Option.none,
    failUpdateLogin := Option.none }

/-- No statement of the password change fails. -/
def noChangeFaults : ChangeFaults :=
  { failSelect := Option.none, failUpdateUser := Option.none,
    failUpdateSessions := Option.none }

/-- The user object of Ada. -/
def adaUser : User := adaRow.toUser

/-- The store after Ada has logged in on the sample store. -/
def storeAfterLogin : AuthStore :=
  (login sampleSessionEnv noLoginFaults [] "ada_obi" "1" sampleStore).1

/-- A stored user, Bello. -/
def belloRow : UserRow :=
  { adaRow with id := userB, username := "bello_k", email := "bello@example.org" }

/-- A store with two sessions of Ada and one of user B. -/
def threeSessions : AuthStore :=
  { users := [adaRow, belloRow],
    sessions := [{ user_id := userA, token_hash := "digest:refresh:ada_obi", is_active := true },
                 { user_id := userB, token_hash := "digest:refresh:bello_k", is_active := true },
                 { user_id := userA, token_hash := "digest:refresh:ada_obi-2", is_active := true }],
    schools := [schoolA] }

/-- A creation body that asks for anonymity. -/
def anonymousBody : CreateBody :=
  { schoolId := schoolA, title := "Broken desks in class 4",
    description := "Half of the desks in class 4 are broken", issueType := "furniture",
    priority := Option.none, studentsAffected := some 40, isAnonymous := JSVal.bool true,
    visibility := Option.none }

/-! ## Activity times of the feed -/

/-- A list of instants sorted latest first. -/
def sortDesc (l : List Int) : List Int := l.insertionSort (fun a b => a ≥ b)

/-- The activity times of a list of rows. -/
def timesOf (xs : List Activity) : List Int := xs.map (fun a => a.activity_time)

/-- A feed database whose three categories hold the given rows and whose
queries return the 20 latest rows of their category, latest first. -/
def topTwentyDb (reports resolutions comments : List Activity) :
    RecentQuery → QueryResult Activity
  | RecentQuery.reports _ => QueryResult.rows ((sortByTimeDesc reports).take 20)
  | RecentQuery.resolutions _ => QueryResult.rows ((sortByTimeDesc resolutions).take 20)
  | RecentQuery.comments _ _ => QueryResult.rows ((sortByTimeDesc comments).take 20)

/-- Sample rows of the three categories. -/
def sampleReportsFeed : List Activity :=
  [{ activity_type := "report", item_id := "r1", activity_time := 300 },
   { activity_type := "report", item_id := "r2", activity_time := 700 }]

/-- Sample resolutions of the feed. -/
def sampleResolutionsFeed : List Activity :=
  [{ activity_type := "resolution", item_id := "r1", activity_time := 500 }]

/-- Sample comments of the feed. -/
def sampleCommentsFeed : List Activity :=
  [{ activity_type := "comment", item_id := "c1", activity_time := 400 },
   { activity_type := "comment", item_id := "c2", activity_time := 700 }]

/-- A request body of the update that sets status, priority and funding
source. -/
def threeFields : UpdateBody :=
  { status := JSVal.str "resolved", priority := JSVal.str "high",
    resolutionNotes := JSVal.undefined, resolutionCost := JSVal.undefined,
    fundingSource := JSVal.str "State budget" }

/-! ## Report detail (`GET /api/reports/:id`): the route -/

/-- The middleware `validateUUID()` on the route parameter `id`; `uuidRegex` is
the test of the regular expression. A parameter that is present and fails the
test is answered with 400. -/
def validateUUID (uuidRegex : String → Bool) (param : Option String) : Outcome :=
  match param with
  | some uuid =>
    if (JSVal.str uuid).truthy && !uuidRegex uuid then
      Outcome.respond 400 (failureCode "Invalid id format" "INVALID_UUID")
    else Outcome.next
  | Option.none => Outcome.next

/-- A row of the resources query of the detail handler. -/
structure Resource where
  id : Uuid
  resource_type : String
  status : String
  deriving DecidableEq

/-- The three statements of the detail handler, each answering for a report
id: the report row, its comments in the order of creation, its resources. -/
structure DetailQueries where
  report : String → QueryResult Report
  comments : String → QueryResult Comment
  resources : String → QueryResult Resource

/-- What the detail endpoint answers: the detail (status 200) with the report,
the comments and the resources, or another answer with its status and body. -/
inductive DetailReply where
  | detail (report : Report) (comments : List Comment) (resources : List Resource)
  | answered (status : Nat) (body : JSObj)

/-- The handler of `GET /api/reports/:id`, run once the middleware has called
`next()`: a thrown query is answered by the catch with 500. -/
def detailHandler (q : DetailQueries) (id : String) (user : Option User) : DetailReply :=
  match q.report id with
  | QueryResult.thrown => DetailReply.answered 500 (failure "Failed to fetch report details")
  | QueryResult.rows [] => DetailReply.answered 404 (failure "Report not found")
  | QueryResult.rows (report :: _) =>
    match q.comments id with
    | QueryResult.thrown => DetailReply.answered 500 (failure "Failed to fetch report details")
    | QueryResult.rows rows =>
      let comments := filterComments user rows
      match q.resources id with
      | QueryResult.thrown =>
        DetailReply.answered 500 (failure "Failed to fetch report details")
      | QueryResult.rows resources => DetailReply.detail report comments resources

/-- The route `GET /api/reports/:id`: `validateUUID()`, `optionalAuth` (which
always calls `next()` and leaves `user` in `req.user`), `requireReportAccess`,
then the handler. A middleware that answers ends the request. -/
def reportDetail (uuidRegex : String → Bool) (db : Database) (q : DetailQueries)
    (id : String) (user : Option User) : DetailReply :=
  match validateUUID uuidRegex (some id) with
  | Outcome.respond status body => DetailReply.answered status body
  | Outcome.next =>
    match requireReportAccess db { id := some id, reportId := Option.none } user with
    | Outcome.respond status body => DetailReply.answered status body
    | Outcome.next => detailHandler q id user

/-- Sample statements of the detail handler: the sample report with one public
and one internal comment and no resources. -/
def sampleQueries : DetailQueries :=
  { report := fun _ => QueryResult.rows [sampleReport (some "public")],
    comments := fun _ => QueryResult.rows [publicComment, internalComment],
    resources := fun _ => QueryResult.rows [] }

/-! ## Theorems: urgency score -/

theorem get_priority (p t : String) (n : Int) :
    (reportData p n t).get "priority" = JSVal.str p := by
  simp [reportData, JSObj.get, List.lookup]

theorem get_studentsAffected (p t : String) (n : Int) :
    (reportData p n t).get "studentsAffected" = JSVal.num n := by
  simp [reportData, JSObj.get, List.lookup]

theorem get_issueType (p t : String) (n : Int) :
    (reportData p n t).get "issueType" = JSVal.str t := by
  simp [reportData, JSObj.get, List.lookup]

theorem lookupOr_priority (p : String) (hp : p ∈ validPriorities) :
    lookupOr priorityScores (JSVal.str p) 30 = specBase p := by
  simp only [validPriorities, List.mem_cons, List.mem_singleton, List.not_mem_nil,
    or_false] at hp
  rcases hp with h | h | h | h <;> subst h <;> decide

theorem lookupOr_severity (t : String) (ht : t ∈ validIssueTypes) :
    lookupOr severityScores (JSVal.str t) 5 = specSeverity t := by
  simp only [validIssueTypes, List.mem_cons, List.mem_singleton, List.not_mem_nil,
    or_false] at ht
  rcases ht with h | h | h | h | h | h <;> subst h <;> decide

theorem studentsPoints_num (n : Int) : studentsPoints (JSVal.num n) = codeBonus n := by
  unfold studentsPoints codeBonus specBonus JSVal.truthy JSVal.gt JSVal.toNumber
  by_cases h0 : n = 0
  · simp [h0]
  · simp [h0]

/-- The score of a validated triple, in closed form: base, the bonus the code
adds, severity, capped at 100. -/
theorem score_valid (p t : String) (n : Int) (hp : p ∈ validPriorities)
    (ht : t ∈ validIssueTypes) :
    calculateUrgencyScore (reportData p n t)
      = min (specBase p + codeBonus n + specSeverity t) 100 := by
  unfold calculateUrgencyScore
  simp only [get_priority, get_studentsAffected, get_issueType, lookupOr_priority p hp,
    lookupOr_severity t ht, studentsPoints_num, zero_add]

theorem specBase_bounds (p : String) : 0 ≤ specBase p ∧ specBase p ≤ 90 := by
  unfold specBase; split_ifs <;> omega

theorem specSeverity_bounds (t : String) : 5 ≤ specSeverity t ∧ specSeverity t ≤ 20 := by
  unfold specSeverity; split_ifs <;> omega

theorem codeBonus_bounds (n : Int) : 0 ≤ codeBonus n ∧ codeBonus n ≤ 20 := by
  unfold codeBonus specBonus; split_ifs <;> omega

/-- C1, as the code has it: for every valid priority, issue type and count
0 <= n <= 10000 the score is min(100, base + bonus + severity) where the bonus
is nothing for a count of zero and the tiered bonus for every other count. -/
theorem urgency_score_formula_with_zero (p t : String) (n : Int)
    (hp : p ∈ validPriorities) (ht : t ∈ validIssueTypes) (h0 : 0 ≤ n) (hmax : n ≤ 10000) :
    calculateUrgencyScore (reportData p n t)
      = min 100 (specBase p + (if n = 0 then 0 else specBonus n) + specSeverity t) := by
  have h := score_valid p t n hp ht
  rw [h, min_comm]
  rfl

/-- The amended C1 at priority low, no students affected, issue type resources. -/
theorem urgency_score_formula_with_zero_witness :
    calculateUrgencyScore (reportData "low" 0 "resources")
      = min 100 (specBase "low" + (if (0 : Int) = 0 then 0 else specBonus 0)
          + specSeverity "resources") :=
  urgency_score_formula_with_zero "low" "resources" 0 (by decide) (by decide) (by decide)
    (by decide)

/-- C1 as stated fails: with priority low, no students affected and issue type
resources the code returns 15, the stated formula gives 20. -/
theorem urgency_score_zero_students_counterexample :
    ¬ (∀ (p t : String) (n : Int), p ∈ validPriorities → t ∈ validIssueTypes →
        0 ≤ n → n ≤ 10000 →
        calculateUrgencyScore (reportData p n t) = specScore p n t) := by
  intro h
  have h1 := h "low" "resources" 0 (by decide) (by decide) (by decide) (by decide)
  revert h1
  decide

/-- C2: for every valid priority, issue type and count 1 <= n <= 10000 the
score is min(100, base + tier bonus + severity) with the tables of the
specification, and urgent with 600 students and issue type safety scores
exactly 100. -/
theorem urgency_score_formula_positive (p t : String) (n : Int)
    (hp : p ∈ validPriorities) (ht : t ∈ validIssueTypes) (h1 : 1 ≤ n) (hmax : n ≤ 10000) :
    calculateUrgencyScore (reportData p n t) = specScore p n t
      ∧ calculateUrgencyScore (reportData "urgent" 600 "safety") = min 100 (90 + 20 + 20)
      ∧ calculateUrgencyScore (reportData "urgent" 600 "safety") = 100 := by
  refine ⟨?_, by decide, by decide⟩
  have h := score_valid p t n hp ht
  have hn : n ≠ 0 := by omega
  rw [h, min_comm]
  simp [specScore, codeBonus, hn]

/-- C2 at priority urgent, 600 students affected, issue type safety. -/
theorem urgency_score_formula_positive_witness :
    calculateUrgencyScore (reportData "urgent" 600 "safety") = specScore "urgent" 600 "safety"
      ∧ calculateUrgencyScore (reportData "urgent" 600 "safety") = min 100 (90 + 20 + 20)
      ∧ calculateUrgencyScore (reportData "urgent" 600 "safety") = 100 :=
  urgency_score_formula_positive "urgent" "safety" 600 (by decide) (by decide) (by decide)
    (by decide)

/-- C3: for every valid priority, issue type and count 0 <= n <= 10000 the
score is an integer between 0 and 100, so it satisfies the CHECK constraint of
column urgency_score. -/
theorem urgency_score_in_range (p t : String) (n : Int)
    (hp : p ∈ validPriorities) (ht : t ∈ validIssueTypes) (h0 : 0 ≤ n) (hmax : n ≤ 10000) :
    0 ≤ calculateUrgencyScore (reportData p n t)
      ∧ calculateUrgencyScore (reportData p n t) ≤ 100
      ∧ urgencyScoreCheck (calculateUrgencyScore (reportData p n t)) := by
  have h := score_valid p t n hp ht
  have hb := specBase_bounds p
  have hs := specSeverity_bounds t
  have hc := codeBonus_bounds n
  have hle : calculateUrgencyScore (reportData p n t) ≤ 100 := by
    rw [h]; exact min_le_right _ _
  have hge : 0 ≤ calculateUrgencyScore (reportData p n t) := by
    rw [h]; exact le_min (by omega) (by omega)
  exact ⟨hge, hle, hge, hle⟩

/-- C3 at priority high, 250 students affected, issue type furniture. -/
theorem urgency_score_in_range_witness :
    0 ≤ calculateUrgencyScore (reportData "high" 250 "furniture")
      ∧ calculateUrgencyScore (reportData "high" 250 "furniture") ≤ 100
      ∧ urgencyScoreCheck (calculateUrgencyScore (reportData "high" 250 "furniture")) :=
  urgency_score_in_range "high" "furniture" 250 (by decide) (by decide) (by decide)
    (by decide)

/-! ## Theorems: recalculation on update -/

/-- The recalculation reads `studentsAffected` and `issueType`, which a stored
row (whose columns are `students_affected` and `issue_type`) does not have: the
score it writes is the base of the new priority plus the default severity 5,
whatever the row stores. -/
theorem recalculate_ignores_row (r : Report) (p : String) (hp : p ∈ validPriorities) :
    recalculateUrgencyScore r.toObj (JSVal.str p) = min (specBase p + 5) 100 := by
  unfold recalculateUrgencyScore calculateUrgencyScore
  have h1 : (r.toObj.spreadWith "priority" (JSVal.str p)).get "priority" = JSVal.str p := by
    simp [JSObj.spreadWith, JSObj.get, List.lookup]
  have h2 : (r.toObj.spreadWith "priority" (JSVal.str p)).get "studentsAffected"
      = JSVal.undefined := by
    simp [JSObj.spreadWith, JSObj.get, List.lookup, Report.toObj, List.filter]
  have h3 : (r.toObj.spreadWith "priority" (JSVal.str p)).get "issueType"
      = JSVal.undefined := by
    simp [JSObj.spreadWith, JSObj.get, List.lookup, Report.toObj, List.filter]
  rw [h1, h2, h3, lookupOr_priority p hp]
  simp [studentsPoints, JSVal.truthy, lookupOr, tableLookup]

/-- C4, the code at the failing input: for the stored report (600 students
affected, issue type safety) and new priority low, the update writes
urgency_score 15, while the score of the updated report is 50. -/
theorem update_writes_wrong_urgency_score :
    (buildUpdate (sampleReport (some "public")).toObj officerA (priorityOnly "low")).updateFields
        = ["priority = $1", "urgency_score = $2"]
      ∧ (buildUpdate (sampleReport (some "public")).toObj officerA
          (priorityOnly "low")).updateValues = [JSVal.str "low", JSVal.num 15]
      ∧ scoreOfUpdatedReport (sampleReport (some "public")) "low" = 50 := by
  refine ⟨by decide, by decide, by decide⟩

/-! ## Theorems: visibility filter of the report list -/

set_option maxRecDepth 8000 in
/-- The text and the parameters the model builds for teacher A with every
optional filter supplied, as the handler concatenates them. -/
theorem whereClause_teacher_all_filters :
    (buildWhere (some teacherA) allFilters).whereClause
        = "1 = 1 AND (r.visibility = \x27public\x27 OR r.visibility = \x27government\x27)"
          ++ " AND (r.school_id = $1 OR r.visibility = \x27public\x27)"
          ++ " AND r.status = $2 AND r.priority = $3 AND r.issue_type = $4"
          ++ " AND s.lga ILIKE $5 AND r.school_id = $6"
          ++ " AND (r.title ILIKE $7 OR r.description ILIKE $7 OR s.name ILIKE $7)"
      ∧ (buildWhere (some teacherA) allFilters).queryParams
        = [JSVal.str schoolA.text, JSVal.str "reported", JSVal.str "high", JSVal.str "safety",
           JSVal.str "%Dala%", JSVal.str schoolA.text, JSVal.str "%roof%"]
      ∧ (buildWhere (some teacherA) allFilters).paramCount = 8 := by
  refine ⟨by rfl, by decide, by decide⟩

theorem Uuid.eq_of_text_eq {a b : Uuid} (h : a.text = b.text) : a = b := by
  cases a; cases b; cases h; rfl

theorem and3_eq_true (a b : Option Bool) :
    and3 a b = some true ↔ a = some true ∧ b = some true := by
  rcases a with _ | _ | _ <;> rcases b with _ | _ | _ <;> simp [and3]

theorem or3_eq_true (a b : Option Bool) :
    or3 a b = some true ↔ a = some true ∨ b = some true := by
  rcases a with _ | _ | _ <;> rcases b with _ | _ | _ <;> simp [or3]

theorem foldl_and3_eq_true {α : Type} (f : α → Option Bool) (l : List α) (init : Option Bool) :
    l.foldl (fun acc c => and3 acc (f c)) init = some true
      ↔ init = some true ∧ ∀ c ∈ l, f c = some true := by
  induction l generalizing init with
  | nil => simp
  | cons x xs ih =>
    rw [List.foldl_cons, ih, and3_eq_true]
    simp only [List.mem_cons, forall_eq_or_imp]
    tauto

theorem foldl_or3_eq_true {α : Type} (f : α → Option Bool) (l : List α) (init : Option Bool) :
    l.foldl (fun acc c => or3 acc (f c)) init = some true
      ↔ init = some true ∨ ∃ c ∈ l, f c = some true := by
  induction l generalizing init with
  | nil => simp
  | cons x xs ih =>
    rw [List.foldl_cons, ih, or3_eq_true]
    simp only [List.mem_cons, exists_eq_or_imp]
    tauto

/-- A row is admitted exactly when every conjunct of the clause has a
comparison that is true on it. -/
theorem admits_iff (ilike : String → String → Bool) (st : WhereState) (row : ListRow) :
    st.admits ilike row = true
      ↔ ∀ c ∈ st.conds, ∃ a ∈ c, a.eval ilike st.queryParams row = some true := by
  unfold WhereState.admits WhereState.eval
  rw [beq_iff_eq, foldl_and3_eq_true]
  simp only [true_and, Conjunct.eval, foldl_or3_eq_true]
  simp

theorem WhereState.Extends.refl (st : WhereState) : st.Extends st :=
  ⟨[], [], by simp, by simp⟩

theorem WhereState.Extends.trans {a b c : WhereState} (h1 : a.Extends b) (h2 : b.Extends c) :
    a.Extends c := by
  obtain ⟨cs1, ps1, hc1, hp1⟩ := h1
  obtain ⟨cs2, ps2, hc2, hp2⟩ := h2
  exact ⟨cs1 ++ cs2, ps1 ++ ps2, by rw [hc2, hc1, List.append_assoc],
    by rw [hp2, hp1, List.append_assoc]⟩

theorem WhereState.extends_filter (st : WhereState) (x : Option String) (mk : Nat → Conjunct)
    (val : String → String) : st.Extends (st.filter x mk val) := by
  unfold WhereState.filter
  cases x with
  | none => exact WhereState.Extends.refl st
  | some s =>
    dsimp only
    split_ifs
    · exact ⟨[mk st.paramCount], [JSVal.str (val s)], rfl, rfl⟩
    · exact WhereState.Extends.refl st

theorem extends_optionalFilters (st : WhereState) (q : ListQuery) :
    st.Extends (optionalFilters st q) := by
  unfold optionalFilters
  dsimp only
  refine WhereState.Extends.trans ?_ (WhereState.extends_filter _ _ _ _)
  refine WhereState.Extends.trans ?_ (WhereState.extends_filter _ _ _ _)
  refine WhereState.Extends.trans ?_ (WhereState.extends_filter _ _ _ _)
  refine WhereState.Extends.trans ?_ (WhereState.extends_filter _ _ _ _)
  refine WhereState.Extends.trans ?_ (WhereState.extends_filter _ _ _ _)
  exact WhereState.extends_filter _ _ _ _

/-- The clause for a caller and a query has the visibility conditions in
front, whatever the optional filters. -/
theorem buildWhere_extends (user : Option User) (q : ListQuery) :
    (visibilityFilters user).Extends (buildWhere user q) :=
  extends_optionalFilters _ q

theorem visibilityFilters_none :
    visibilityFilters Option.none
      = { conds := [[Atom.eqLit Col.visibility "public",
            Atom.eqLit Col.visibility "government"]],
          queryParams := [], paramCount := 1 } := rfl

theorem visibilityFilters_teacher_school (u : User) (S : Uuid) (hrole : u.role = "teacher")
    (hS : u.schoolId = some S) :
    visibilityFilters (some u)
      = { conds := [[Atom.eqLit Col.visibility "public",
            Atom.eqLit Col.visibility "government"],
            [Atom.eqParam Col.school_id 1, Atom.eqLit Col.visibility "public"]],
          queryParams := [JSVal.str S.text], paramCount := 2 } := by
  have ht : (JSVal.str S.text).truthy = true := by
    simp [JSVal.truthy, S.nonempty]
  simp [visibilityFilters, hrole, hS, uuidOrNull, Uuid.toJS, ht, WhereState.addLit,
    WhereState.addParam]

theorem visibilityFilters_teacher_no_school (u : User) (hrole : u.role = "teacher")
    (hS : u.schoolId = Option.none) :
    visibilityFilters (some u)
      = { conds := [[Atom.eqLit Col.visibility "public",
            Atom.eqLit Col.visibility "government"]],
          queryParams := [], paramCount := 1 } := by
  simp [visibilityFilters, hrole, hS, uuidOrNull, JSVal.truthy, WhereState.addLit]

theorem visibilityFilters_other (u : User) (hrole : u.role ≠ "teacher") :
    visibilityFilters (some u) = { conds := [], queryParams := [], paramCount := 1 } := by
  simp [visibilityFilters, hrole]

theorem eval_eqLit_visibility (ilike : String → String → Bool) (params : List JSVal)
    (row : ListRow) (lit : String) :
    (Atom.eqLit Col.visibility lit).eval ilike params row = some true
      ↔ row.r.visibility = some lit := by
  cases h : row.r.visibility <;> simp [Atom.eval, Col.value, h]

theorem eval_eqParam_school (ilike : String → String → Bool) (S : Uuid) (ps : List JSVal)
    (row : ListRow) :
    (Atom.eqParam Col.school_id 1).eval ilike (JSVal.str S.text :: ps) row = some true
      ↔ row.r.school_id = S := by
  simp only [Atom.eval, paramText, Col.value]
  simp only [one_ne_zero, if_false, Nat.sub_self, List.getElem?_cons_zero, Option.map_some',
    Option.some.injEq, beq_iff_eq]
  constructor
  · intro h; exact Uuid.eq_of_text_eq h
  · intro h; rw [h]

/-- C5: for a teacher whose school is S, a row that is not public and is not
of school S is rejected by the WHERE clause of the list, whatever optional
filters are supplied. -/
theorem teacher_other_school_nonpublic_rejected (ilike : String → String → Bool) (u : User)
    (S : Uuid) (q : ListQuery) (row : ListRow)
    (hrole : u.role = "teacher") (hS : u.schoolId = some S)
    (hvis : row.r.visibility ≠ some "public") (hschool : row.r.school_id ≠ S) :
    (buildWhere (some u) q).admits ilike row = false := by
  rw [Bool.eq_false_iff]
  intro hadm
  rw [admits_iff] at hadm
  obtain ⟨cs, ps, hc, hp⟩ := buildWhere_extends (some u) q
  rw [visibilityFilters_teacher_school u S hrole hS] at hc hp
  have h2 := hadm [Atom.eqParam Col.school_id 1, Atom.eqLit Col.visibility "public"]
    (by rw [hc]; simp)
  obtain ⟨a, ha, hev⟩ := h2
  rw [hp] at hev
  simp only [List.mem_cons, List.mem_singleton, List.not_mem_nil, or_false] at ha
  rcases ha with rfl | rfl
  · exact hschool ((eval_eqParam_school ilike S _ row).mp hev)
  · exact hvis ((eval_eqLit_visibility ilike _ row "public").mp hev)

/-- C5 at teacher A of school A and a government-visible report of school B. -/
theorem teacher_other_school_nonpublic_rejected_witness :
    (buildWhere (some teacherA) ListQuery.none).admits (fun _ _ => true)
      { r := { sampleReport (some "government") with school_id := schoolB },
        s_lga := "Kano Municipal", s_name := "School B" } = false :=
  teacher_other_school_nonpublic_rejected (fun _ _ => true) teacherA schoolA ListQuery.none
    { r := { sampleReport (some "government") with school_id := schoolB },
      s_lga := "Kano Municipal", s_name := "School B" }
    rfl rfl (by decide) (by decide)

/-- The clause with no optional filter is the role-based part alone. -/
theorem buildWhere_no_filters (user : Option User) :
    buildWhere user ListQuery.none = visibilityFilters user := rfl

/-- For a teacher whose school is S and a report of school S, with no optional
filter: the row is admitted exactly when its visibility is public or
government. -/
theorem own_school_admits_iff (ilike : String → String → Bool) (u : User)
    (S : Uuid) (row : ListRow)
    (hrole : u.role = "teacher") (hS : u.schoolId = some S) (hschool : row.r.school_id = S) :
    (buildWhere (some u) ListQuery.none).admits ilike row = true
      ↔ row.r.visibility = some "public" ∨ row.r.visibility = some "government" := by
  rw [buildWhere_no_filters, admits_iff, visibilityFilters_teacher_school u S hrole hS]
  simp only [List.mem_cons, List.mem_singleton, List.not_mem_nil, or_false,
    forall_eq_or_imp, forall_eq, exists_eq_or_imp, exists_eq_left,
    eval_eqLit_visibility, eval_eqParam_school]
  constructor
  · intro h; exact h.1
  · intro h; exact ⟨h, Or.inl hschool⟩

/-- C6, as the code has it: for a teacher whose school is S and a report of
school S, the role-based condition admits the report exactly when its
visibility is public or government; a private report of the own school is
rejected. -/
theorem teacher_own_school_admitted_iff (ilike : String → String → Bool) (u : User)
    (S : Uuid) (row : ListRow)
    (hrole : u.role = "teacher") (hS : u.schoolId = some S) (hschool : row.r.school_id = S) :
    ((buildWhere (some u) ListQuery.none).admits ilike row = true
        ↔ row.r.visibility = some "public" ∨ row.r.visibility = some "government")
      ∧ (row.r.visibility = some "private" →
          (buildWhere (some u) ListQuery.none).admits ilike row = false) := by
  have key := own_school_admits_iff ilike u S row hrole hS hschool
  refine ⟨key, ?_⟩
  intro hpriv
  rw [Bool.eq_false_iff]
  intro hadm
  rcases key.mp hadm with h | h <;> rw [hpriv] at h <;> exact absurd h (by decide)

/-- The amended C6 at teacher A and a government-visible report of school A. -/
theorem teacher_own_school_admitted_iff_witness :
    ((buildWhere (some teacherA) ListQuery.none).admits (fun _ _ => false)
          { r := sampleReport (some "government"), s_lga := "Nassarawa", s_name := "School A" }
          = true
        ↔ (sampleReport (some "government")).visibility = some "public"
          ∨ (sampleReport (some "government")).visibility = some "government")
      ∧ ((sampleReport (some "government")).visibility = some "private" →
          (buildWhere (some teacherA) ListQuery.none).admits (fun _ _ => false)
            { r := sampleReport (some "government"), s_lga := "Nassarawa",
              s_name := "School A" } = false) :=
  teacher_own_school_admitted_iff (fun _ _ => false) teacherA schoolA
    { r := sampleReport (some "government"), s_lga := "Nassarawa", s_name := "School A" }
    rfl rfl rfl

/-- C6 as stated fails: teacher A of school A is refused the private report of
school A. -/
theorem teacher_own_school_private_counterexample :
    ¬ (∀ (ilike : String → String → Bool) (u : User) (S : Uuid) (row : ListRow),
        u.role = "teacher" → u.schoolId = some S → row.r.school_id = S →
        (buildWhere (some u) ListQuery.none).admits ilike row = true) := by
  intro h
  have h1 := h (fun _ _ => true) teacherA schoolA
    { r := sampleReport (some "private"), s_lga := "Nassarawa", s_name := "School A" }
    rfl rfl rfl
  revert h1
  decide

/-- C7: for an unauthenticated caller and for a teacher, with or without a
school, every row the WHERE clause admits has visibility public or government,
whatever optional filters are supplied; no private row is admitted. -/
theorem anonymous_or_teacher_sees_public_or_government (ilike : String → String → Bool)
    (user : Option User) (q : ListQuery) (row : ListRow)
    (hcaller : user = Option.none ∨ ∃ u, user = some u ∧ u.role = "teacher")
    (hadm : (buildWhere user q).admits ilike row = true) :
    (row.r.visibility = some "public" ∨ row.r.visibility = some "government")
      ∧ row.r.visibility ≠ some "private" := by
  have hfirst : [Atom.eqLit Col.visibility "public", Atom.eqLit Col.visibility "government"]
      ∈ (visibilityFilters user).conds := by
    rcases hcaller with rfl | ⟨u, rfl, hrole⟩
    · rw [visibilityFilters_none]; simp
    · cases hS : u.schoolId with
      | none => rw [visibilityFilters_teacher_no_school u hrole hS]; simp
      | some S => rw [visibilityFilters_teacher_school u S hrole hS]; simp
  rw [admits_iff] at hadm
  obtain ⟨cs, ps, hc, _⟩ := buildWhere_extends user q
  obtain ⟨a, ha, hev⟩ := hadm _ (by rw [hc]; exact List.mem_append_left _ hfirst)
  simp only [List.mem_cons, List.mem_singleton, List.not_mem_nil, or_false] at ha
  have hv : row.r.visibility = some "public" ∨ row.r.visibility = some "government" := by
    rcases ha with rfl | rfl
    · exact Or.inl ((eval_eqLit_visibility ilike _ row "public").mp hev)
    · exact Or.inr ((eval_eqLit_visibility ilike _ row "government").mp hev)
  refine ⟨hv, ?_⟩
  intro hpriv
  rcases hv with h | h <;> rw [hpriv] at h <;> exact absurd h (by decide)

/-- C7 at an unauthenticated caller and a government-visible report. -/
theorem anonymous_or_teacher_sees_public_or_government_witness :
    ((sampleReport (some "government")).visibility = some "public"
        ∨ (sampleReport (some "government")).visibility = some "government")
      ∧ (sampleReport (some "government")).visibility ≠ some "private" :=
  anonymous_or_teacher_sees_public_or_government (fun _ _ => true) Option.none ListQuery.none
    { r := sampleReport (some "government"), s_lga := "Nassarawa", s_name := "School A" }
    (Or.inl rfl) (by decide)

/-- C8: for an authenticated caller whose role is not teacher no visibility
condition is added: with no optional filter the clause is the text 1 = 1 with
no parameter, and it admits every row, private ones included. -/
theorem non_teacher_unfiltered (ilike : String → String → Bool) (u : User) (row : ListRow)
    (hrole : u.role ≠ "teacher") :
    (buildWhere (some u) ListQuery.none).whereClause = "1 = 1"
      ∧ (buildWhere (some u) ListQuery.none).queryParams = []
      ∧ (buildWhere (some u) ListQuery.none).admits ilike row = true := by
  rw [buildWhere_no_filters, visibilityFilters_other u hrole]
  refine ⟨rfl, rfl, ?_⟩
  rw [admits_iff]
  simp

/-- C8 at a government user and a private report. -/
theorem non_teacher_unfiltered_witness :
    (buildWhere (some officerA) ListQuery.none).whereClause = "1 = 1"
      ∧ (buildWhere (some officerA) ListQuery.none).queryParams = []
      ∧ (buildWhere (some officerA) ListQuery.none).admits (fun _ _ => false)
          { r := sampleReport (some "private"), s_lga := "Nassarawa", s_name := "School A" }
          = true :=
  non_teacher_unfiltered (fun _ _ => false) officerA
    { r := sampleReport (some "private"), s_lga := "Nassarawa", s_name := "School A" }
    (by decide)

/-! ## Theorems: modification window -/

/-- More than 24 hours have elapsed exactly when the two instants are more
than 86,400,000 ms apart. -/
theorem hoursDiff_gt_iff (now createdAt : Int) :
    hoursDiff now createdAt > 24 ↔ windowMs < now - createdAt := by
  unfold hoursDiff windowMs
  rw [gt_iff_lt, lt_div_iff₀ (by norm_num)]
  have h : (24 : ℚ) * (1000 * 60 * 60) = ((86400000 : Int) : ℚ) := by norm_num
  rw [h, Int.cast_lt]

/-- The middleware on an existing report and an authenticated caller reduces
to the decision on the row. -/
theorem canModifyReport_existing (db : Database) (params : Params) (u : User)
    (report : Report) (rest : List Report) (reportId : String) (now : Int)
    (hid : params.pick = JSVal.str reportId)
    (hrow : db.reportById reportId = QueryResult.rows (report :: rest)) :
    canModifyReport db params (some u) now = decideModify u report now := by
  simp [canModifyReport, hid, hrow]

theorem decideModify_next_iff (u : User) (report : Report) (now : Int) :
    decideModify u report now = Outcome.next
      ↔ (u.role = "admin" ∨ u.role = "government"
          ∨ (report.reporter_id = some u.id ∧ report.status = "reported"
              ∧ now - report.created_at ≤ windowMs)) := by
  unfold decideModify
  by_cases h1 : u.role = "admin"
  · simp [h1]
  by_cases h2 : u.role = "government"
  · simp [h2]
  by_cases h3 : report.reporter_id = some u.id
  · by_cases h4 : report.status = "reported"
    · by_cases h5 : hoursDiff now report.created_at > 24
      · have h6 := (hoursDiff_gt_iff now report.created_at).mp h5
        simp [h1, h2, h3, h4, h5]
        omega
      · have h6 : ¬ windowMs < now - report.created_at :=
          fun h => h5 ((hoursDiff_gt_iff now report.created_at).mpr h)
        simp [h1, h2, h3, h4, h5]
        omega
    · simp [h1, h2, h3, h4]
  · simp [h1, h2, h3]

theorem decideModify_next_or_403 (u : User) (report : Report) (now : Int) :
    decideModify u report now = Outcome.next
      ∨ ∃ body, decideModify u report now = Outcome.respond 403 body := by
  unfold decideModify
  split_ifs <;> simp

/-- C9: for an authenticated user and an existing report, canModifyReport
calls next exactly when the role is admin or government, or the user is the
recorded reporter, the status is reported and at most 24 hours (86,400,000 ms)
have elapsed since creation; in every other case it answers 403 and does not
call next. -/
theorem canModifyReport_next_iff (db : Database) (params : Params) (u : User)
    (report : Report) (rest : List Report) (reportId : String) (now : Int)
    (hid : params.pick = JSVal.str reportId)
    (hrow : db.reportById reportId = QueryResult.rows (report :: rest)) :
    (canModifyReport db params (some u) now = Outcome.next
        ↔ (u.role = "admin" ∨ u.role = "government"
            ∨ (report.reporter_id = some u.id ∧ report.status = "reported"
                ∧ now - report.created_at ≤ 86400000)))
      ∧ (¬ (u.role = "admin" ∨ u.role = "government"
            ∨ (report.reporter_id = some u.id ∧ report.status = "reported"
                ∧ now - report.created_at ≤ 86400000))
          → ∃ body, canModifyReport db params (some u) now = Outcome.respond 403 body) := by
  rw [canModifyReport_existing db params u report rest reportId now hid hrow]
  have hiff := decideModify_next_iff u report now
  unfold windowMs at hiff
  refine ⟨hiff, ?_⟩
  intro hno
  rcases decideModify_next_or_403 u report now with h | h
  · exact absurd (hiff.mp h) hno
  · exact h

/-- C9 at teacher A, the reporter of the sample report, one hour after its
creation. -/
theorem canModifyReport_next_iff_witness :
    (canModifyReport { reports := [sampleReport (some "public")], available := true }
          { id := some reportA.text, reportId := Option.none } (some teacherA) 3600000
          = Outcome.next
        ↔ (teacherA.role = "admin" ∨ teacherA.role = "government"
            ∨ ((sampleReport (some "public")).reporter_id = some teacherA.id
                ∧ (sampleReport (some "public")).status = "reported"
                ∧ 3600000 - (sampleReport (some "public")).created_at ≤ 86400000)))
      ∧ (¬ (teacherA.role = "admin" ∨ teacherA.role = "government"
            ∨ ((sampleReport (some "public")).reporter_id = some teacherA.id
                ∧ (sampleReport (some "public")).status = "reported"
                ∧ 3600000 - (sampleReport (some "public")).created_at ≤ 86400000))
          → ∃ body, canModifyReport
              { reports := [sampleReport (some "public")], available := true }
              { id := some reportA.text, reportId := Option.none } (some teacherA) 3600000
              = Outcome.respond 403 body) :=
  canModifyReport_next_iff { reports := [sampleReport (some "public")], available := true }
    { id := some reportA.text, reportId := Option.none } teacherA
    (sampleReport (some "public")) [] reportA.text 3600000 (by decide) (by rfl)

/-- The statuses of a report that has been processed. -/
theorem processed_status_ne_reported (s : String)
    (hs : s ∈ ["acknowledged", "in-progress", "resolved", "rejected"]) : s ≠ "reported" := by
  simp only [List.mem_cons, List.mem_singleton, List.not_mem_nil, or_false] at hs
  rcases hs with h | h | h | h <;> subst h <;> decide

/-- C10: for a user who is neither admin nor government and is the recorded
reporter, a report whose status is acknowledged, in-progress, resolved or
rejected is refused with 403, next is not called, whatever the current time. -/
theorem processed_report_rejected (db : Database) (params : Params) (u : User)
    (report : Report) (rest : List Report) (reportId : String) (now : Int)
    (hid : params.pick = JSVal.str reportId)
    (hrow : db.reportById reportId = QueryResult.rows (report :: rest))
    (hadmin : u.role ≠ "admin") (hgov : u.role ≠ "government")
    (hrep : report.reporter_id = some u.id)
    (hstatus : report.status ∈ ["acknowledged", "in-progress", "resolved", "rejected"]) :
    canModifyReport db params (some u) now
        = Outcome.respond 403 (failure "Cannot modify report that has been processed")
      ∧ canModifyReport db params (some u) now ≠ Outcome.next := by
  have hne := processed_status_ne_reported report.status hstatus
  have h : canModifyReport db params (some u) now
      = Outcome.respond 403 (failure "Cannot modify report that has been processed") := by
    rw [canModifyReport_existing db params u report rest reportId now hid hrow]
    simp [decideModify, hadmin, hgov, hrep, hne]
  refine ⟨h, ?_⟩
  rw [h]
  exact fun hc => Outcome.noConfusion hc

/-- C10 at teacher A and the sample report once resolved, one second after its
creation. -/
theorem processed_report_rejected_witness :
    canModifyReport
        { reports := [{ sampleReport (some "public") with status := "resolved" }],
          available := true }
        { id := some reportA.text, reportId := Option.none } (some teacherA) 1000
        = Outcome.respond 403 (failure "Cannot modify report that has been processed")
      ∧ canModifyReport
        { reports := [{ sampleReport (some "public") with status := "resolved" }],
          available := true }
        { id := some reportA.text, reportId := Option.none } (some teacherA) 1000
        ≠ Outcome.next :=
  processed_report_rejected
    { reports := [{ sampleReport (some "public") with status := "resolved" }],
      available := true }
    { id := some reportA.text, reportId := Option.none } teacherA
    { sampleReport (some "public") with status := "resolved" } [] reportA.text 1000
    (by decide) (by rfl) (by decide) (by decide) (by rfl) (by decide)

/-! ## Theorems: modification window, continued -/

/-- C11: for a user who is neither admin nor government and is the recorded
reporter, a report whose status is reported but which was created more than 24
hours (86,400,000 ms) before the current time is refused with 403, and next is
not called. -/
theorem stale_report_rejected (db : Database) (params : Params) (u : User)
    (report : Report) (rest : List Report) (reportId : String) (now : Int)
    (hid : params.pick = JSVal.str reportId)
    (hrow : db.reportById reportId = QueryResult.rows (report :: rest))
    (hadmin : u.role ≠ "admin") (hgov : u.role ≠ "government")
    (hrep : report.reporter_id = some u.id) (hstatus : report.status = "reported")
    (hold : now - report.created_at > 86400000) :
    canModifyReport db params (some u) now
        = Outcome.respond 403 (failure "Cannot modify report after 24 hours")
      ∧ canModifyReport db params (some u) now ≠ Outcome.next := by
  have hgt : hoursDiff now report.created_at > 24 :=
    (hoursDiff_gt_iff now report.created_at).mpr (by unfold windowMs; omega)
  have h : canModifyReport db params (some u) now
      = Outcome.respond 403 (failure "Cannot modify report after 24 hours") := by
    rw [canModifyReport_existing db params u report rest reportId now hid hrow]
    simp [decideModify, hadmin, hgov, hrep, hstatus, hgt]
  refine ⟨h, ?_⟩
  rw [h]
  exact fun hc => Outcome.noConfusion hc

/-- C11 at teacher A and the sample report, one millisecond after the window
closed. -/
theorem stale_report_rejected_witness :
    canModifyReport sampleDb sampleParams (some teacherA) 86400001
        = Outcome.respond 403 (failure "Cannot modify report after 24 hours")
      ∧ canModifyReport sampleDb sampleParams (some teacherA) 86400001 ≠ Outcome.next :=
  stale_report_rejected sampleDb sampleParams teacherA (sampleReport (some "public")) []
    reportA.text 86400001 (by decide) (by rfl) (by decide) (by decide) (by rfl) (by rfl)
    (by decide)

/-! ## Theorems: registration -/

theorem existing_length_pos (st : AuthStore) (username email : String)
    (hdup : ∃ u ∈ st.users, u.username = username ∨ u.email = email) :
    (st.existing username email).length > 0 := by
  obtain ⟨u, hu, h⟩ := hdup
  apply List.length_pos_of_mem (a := u)
  unfold AuthStore.existing
  rw [List.mem_filter]
  refine ⟨hu, ?_⟩
  rcases h with h | h <;> simp [h]

/-- C12: for an input that passes the validators and a store that already
holds a user with the same username or the same email, the registration
answers 409 and leaves the store as it was: no user and no session is
inserted. The lookup query is taken to be answered. -/
theorem register_duplicate_conflict (nodeEnv : Option String) (env : RegisterEnv)
    (body : RegisterBody) (st : AuthStore)
    (hlookup : env.failLookup = Option.none)
    (hdup : ∃ u ∈ st.users, u.username = body.username ∨ u.email = body.email) :
    (register nodeEnv env [] body st).2 = RegisterReply.conflict
      ∧ (register nodeEnv env [] body st).2.status = 409
      ∧ (register nodeEnv env [] body st).1 = st := by
  have hlen := existing_length_pos st body.username body.email hdup
  have h : register nodeEnv env [] body st = (st, RegisterReply.conflict) := by
    simp [register, hlookup, hlen]
  rw [h]
  exact ⟨rfl, rfl, rfl⟩

/-- C12 at the sample store and a second registration of Ada's username. -/
theorem register_duplicate_conflict_witness :
    (register Option.none workingEnv [] { belloBody with username := "ada_obi" } sampleStore).2
        = RegisterReply.conflict
      ∧ (register Option.none workingEnv [] { belloBody with username := "ada_obi" }
          sampleStore).2.status = 409
      ∧ (register Option.none workingEnv [] { belloBody with username := "ada_obi" }
          sampleStore).1 = sampleStore :=
  register_duplicate_conflict Option.none workingEnv { belloBody with username := "ada_obi" }
    sampleStore rfl ⟨adaRow, by decide, Or.inl rfl⟩

/-- The registration when the lookup finds nobody, the school check passes,
the user insert succeeds and the session insert fails: the store keeps the new
user. -/
theorem register_session_failure (nodeEnv : Option String) (env : RegisterEnv)
    (body : RegisterBody) (st : AuthStore) (e : JsError)
    (hlookup : env.failLookup = Option.none)
    (hnew : st.existing body.username body.email = [])
    (hschool : schoolAccepted env body st)
    (huser : env.failInsertUser = Option.none)
    (hsession : env.failInsertSession = some e) :
    register nodeEnv env [] body st
      = ({ st with users := st.users ++ [newUserRow env body] },
          RegisterReply.failed (catchBody "Registration failed" nodeEnv e)) := by
  rcases hschool with h | ⟨hf, hex⟩
  · simp [register, hlookup, hnew, h, huser, hsession]
  · by_cases ht : (textOrUndefined body.schoolId).truthy = true
    · simp [register, hlookup, hnew, ht, hf, hex, huser, hsession]
    · simp [register, hlookup, hnew, ht, huser, hsession]

/-- C13, as the code has it: the two writes are separate statements; when the
user insert succeeds and the session insert fails, the request ends in the 500
answer, no session is stored, and the inserted user stays in the store. -/
theorem register_not_atomic (nodeEnv : Option String) (env : RegisterEnv)
    (body : RegisterBody) (st : AuthStore) (e : JsError)
    (hlookup : env.failLookup = Option.none)
    (hnew : st.existing body.username body.email = [])
    (hschool : schoolAccepted env body st)
    (huser : env.failInsertUser = Option.none)
    (hsession : env.failInsertSession = some e) :
    (register nodeEnv env [] body st).2.status = 500
      ∧ (register nodeEnv env [] body st).1.users = st.users ++ [newUserRow env body]
      ∧ (register nodeEnv env [] body st).1.sessions = st.sessions := by
  rw [register_session_failure nodeEnv env body st e hlookup hnew hschool huser hsession]
  exact ⟨rfl, rfl, rfl⟩

/-- The amended C13 at the sample store, Bello's registration and a failing
session insert. -/
theorem register_not_atomic_witness :
    (register Option.none sessionFailsEnv [] belloBody sampleStore).2.status = 500
      ∧ (register Option.none sessionFailsEnv [] belloBody sampleStore).1.users
          = sampleStore.users ++ [newUserRow sessionFailsEnv belloBody]
      ∧ (register Option.none sessionFailsEnv [] belloBody sampleStore).1.sessions
          = sampleStore.sessions :=
  register_not_atomic Option.none sessionFailsEnv belloBody sampleStore sampleError rfl
    (by decide) (Or.inl rfl) rfl rfl

/-- C13 as stated fails: at the sample store, for Bello's registration with a
failing session insert, the user store is not what it was. -/
theorem register_atomic_counterexample :
    ¬ (∀ (nodeEnv : Option String) (env : RegisterEnv) (body : RegisterBody) (st : AuthStore)
        (e : JsError), env.failLookup = Option.none →
        st.existing body.username body.email = [] → schoolAccepted env body st →
        env.failInsertUser = Option.none → env.failInsertSession = some e →
        (register nodeEnv env [] body st).2.status = 500
          ∧ (register nodeEnv env [] body st).1.users = st.users) := by
  intro h
  have h1 := (h Option.none sessionFailsEnv belloBody sampleStore sampleError rfl
    (by decide) (Or.inl rfl) rfl rfl).2
  rw [register_session_failure Option.none sessionFailsEnv belloBody sampleStore sampleError
    rfl (by decide) (Or.inl rfl) rfl rfl] at h1
  have h2 := congrArg List.length h1
  simp [sampleStore] at h2

/-! ## Theorems: middleware answers -/

/-- With no Authorization header `optionalAuth` leaves `req.user` null. -/
theorem optionalAuth_no_header (verify : String → Except JsError String)
    (users : String → QueryResult UserRow) :
    optionalAuth verify users Option.none = Option.none := rfl

/-- For a caller without user and an existing report, `requireReportAccess`
answers 500. -/
theorem requireReportAccess_anonymous (db : Database) (params : Params) (report : Report)
    (rest : List Report) (reportId : String)
    (hid : params.pick = JSVal.str reportId)
    (hrow : db.reportById reportId = QueryResult.rows (report :: rest)) :
    requireReportAccess db params Option.none
      = Outcome.respond 500 (failureCode "Authorization failed" "AUTHORIZATION_ERROR") := by
  simp [requireReportAccess, hid, hrow]

/-- C14, the code at the failing input: a request for the sample report with no
Authorization header leaves `req.user` null, the database answers the query
with the report, and `requireReportAccess` answers 500. -/
theorem requireReportAccess_anonymous_answers_500 :
    optionalAuth (fun _ => Except.error sampleError) (fun _ => QueryResult.rows [])
        Option.none = Option.none
      ∧ sampleDb.reportById reportA.text = QueryResult.rows [sampleReport (some "public")]
      ∧ requireReportAccess sampleDb sampleParams Option.none
        = Outcome.respond 500 (failureCode "Authorization failed" "AUTHORIZATION_ERROR") :=
  ⟨rfl, by rfl, by decide⟩

theorem hasCode_failureCode (message code : String) (h : code ≠ "") :
    hasCode (failureCode message code) = true := by
  simp [hasCode, failureCode, JSObj.get, List.lookup, h]

/-- The 401 and 403 answers of `requireRole` carry a code. -/
theorem requireRole_refusalHasCode (roles : Roles) (user : Option User) :
    (requireRole roles user).refusalHasCode = true := by
  unfold requireRole
  cases user with
  | none => simp [Outcome.refusalHasCode, hasCode, failureCode, JSObj.get, List.lookup]
  | some u =>
    dsimp only
    split_ifs
    · rfl
    · simp [Outcome.refusalHasCode, hasCode, JSObj.get, List.lookup]

/-- The 401 and 403 answers of `requireReportAccess` carry a code. -/
theorem requireReportAccess_refusalHasCode (db : Database) (params : Params)
    (user : Option User) : (requireReportAccess db params user).refusalHasCode = true := by
  unfold requireReportAccess
  split
  · split
    · rfl
    · rfl
    · cases user with
      | none => rfl
      | some u =>
        dsimp only
        unfold decideReportAccess
        split_ifs <;> rfl
  · rfl

/-- The 401 and 403 answers of `requireSchoolAccess` carry a code. -/
theorem requireSchoolAccess_refusalHasCode (paramSchoolId bodySchoolId : Option String)
    (user : Option User) :
    (requireSchoolAccess paramSchoolId bodySchoolId user).refusalHasCode = true := by
  unfold requireSchoolAccess
  dsimp only
  cases user with
  | none => split_ifs <;> rfl
  | some u =>
    dsimp only
    split_ifs <;> rfl

/-- The 401 answers of `requireApiKey` carry a code. -/
theorem requireApiKey_refusalHasCode (headerKey queryKey validKeys : Option String) :
    (requireApiKey headerKey queryKey validKeys).refusalHasCode = true := by
  unfold requireApiKey
  dsimp only
  split
  · split_ifs <;> rfl
  · decide

/-- The 401 and 403 answers of `authMiddleware` carry a code. -/
theorem authMiddleware_refusalHasCode (verify : String → Except JsError String)
    (users : String → QueryResult UserRow) (authHeader : Option String) :
    (authMiddleware verify users authHeader).1.refusalHasCode = true := by
  unfold authMiddleware
  split
  · split_ifs
    · decide
    · split
      · split_ifs <;> decide
      · split
        · decide
        · decide
        · split_ifs <;> rfl
  · decide

/-- C15, the code at the failing input: teacher B, who did not report the
sample report, asks to modify it; `canModifyReport` answers 403 with the body
of success and message only, which has no `code` property. -/
theorem canModifyReport_refusal_without_code :
    canModifyReport sampleDb sampleParams (some teacherB) 1000
        = Outcome.respond 403
            [("success", JSVal.bool false), ("message", JSVal.str "Permission denied")]
      ∧ (canModifyReport sampleDb sampleParams (some teacherB) 1000).isAuthRefusal = true
      ∧ JSObj.get [("success", JSVal.bool false), ("message", JSVal.str "Permission denied")]
          "code" = JSVal.undefined
      ∧ (canModifyReport sampleDb sampleParams (some teacherB) 1000).refusalHasCode = false := by
  have h : canModifyReport sampleDb sampleParams (some teacherB) 1000
      = Outcome.respond 403
          [("success", JSVal.bool false), ("message", JSVal.str "Permission denied")] := by
    rw [canModifyReport_existing sampleDb sampleParams teacherB (sampleReport (some "public"))
      [] reportA.text 1000 (by decide) (by rfl)]
    simp [decideModify, teacherB, sampleReport, failure, userA, userB]
  rw [h]
  exact ⟨rfl, by decide, by decide, by decide⟩

/-- No 403 answer of `canModifyReport` carries a code, whatever the request. -/
theorem canModifyReport_never_has_code (db : Database) (params : Params)
    (user : Option User) (now : Int) (status : Nat) (body : JSObj)
    (h : canModifyReport db params user now = Outcome.respond status body) :
    hasCode body = false := by
  unfold canModifyReport at h
  split at h
  · split at h
    · cases h; decide
    · cases h; decide
    · cases user with
      | none => cases h; decide
      | some u =>
        dsimp only at h
        unfold decideModify at h
        split_ifs at h <;> cases h <;> decide
  · cases h; decide

/-! ## Theorems: recent activity -/

/-- The validation result has no effect on the feed handler. -/
theorem recent_ignores_errors (db : RecentQuery → QueryResult Activity)
    (errors1 errors2 : List String) (user : Option User) (limitParam typeParam : Option String) :
    recent db errors1 user limitParam typeParam = recent db errors2 user limitParam typeParam :=
  rfl

/-- C16, the code at the failing input: for limit 1000 and type all the
validators report the limit, yet the handler runs its three queries with the
limit 1000 and answers 200. -/
theorem recent_invalid_limit_runs_queries :
    recentErrors (some "1000") (some "all") = ["limit"]
      ∧ (recent feedDb (recentErrors (some "1000") (some "all")) Option.none (some "1000")
          (some "all")).1
        = [RecentQuery.reports (JSVal.str "1000"), RecentQuery.resolutions (JSVal.str "1000"),
           RecentQuery.comments (JSVal.str "1000") JSVal.null]
      ∧ (recent feedDb (recentErrors (some "1000") (some "all")) Option.none (some "1000")
          (some "all")).2.status = 200 := by
  refine ⟨by decide, by decide, by decide⟩

/-- An unknown type is reported by the validators too, and the handler still
answers 200, with an empty feed. -/
theorem recent_invalid_type_answers_200 :
    recentErrors Option.none (some "everything") = ["type"]
      ∧ recent feedDb (recentErrors Option.none (some "everything")) Option.none Option.none
          (some "everything") = ([], RecentReply.ok [] "everything") := by
  refine ⟨by decide, by decide⟩

/-! ## Theorems: answers of the catch blocks -/

/-- C17: outside development mode the 500 answer of the register and login
catch blocks does not depend on the caught error: two errors give the same
answer, whose error property is the fixed text and whose other properties are
constants. -/
theorem catch_answer_independent_of_error (nodeEnv : Option String) (e1 e2 : JsError)
    (hmode : nodeEnv ≠ some "development") :
    registerCatch nodeEnv e1 = registerCatch nodeEnv e2
      ∧ loginCatch nodeEnv e1 = loginCatch nodeEnv e2
      ∧ registerCatch nodeEnv e1
        = Outcome.respond 500
            [("success", JSVal.bool false), ("message", JSVal.str "Registration failed"),
             ("error", JSVal.str "Internal server error")]
      ∧ loginCatch nodeEnv e1
        = Outcome.respond 500
            [("success", JSVal.bool false), ("message", JSVal.str "Login failed"),
             ("error", JSVal.str "Internal server error")]
      ∧ (catchBody "Registration failed" nodeEnv e1).get "error"
        = JSVal.str "Internal server error"
      ∧ (catchBody "Login failed" nodeEnv e1).get "error"
        = JSVal.str "Internal server error" := by
  have hb : ∀ (m : String) (e : JsError), catchBody m nodeEnv e
      = [("success", JSVal.bool false), ("message", JSVal.str m),
         ("error", JSVal.str "Internal server error")] := by
    intro m e
    simp [catchBody, hmode]
  refine ⟨?_, ?_, ?_, ?_, ?_, ?_⟩
  · simp [registerCatch, hb]
  · simp [loginCatch, hb]
  · simp [registerCatch, hb]
  · simp [loginCatch, hb]
  · rw [hb]; decide
  · rw [hb]; decide

/-- C17 in production mode, at two errors with different messages. -/
theorem catch_answer_independent_of_error_witness :
    registerCatch (some "production") sampleError = registerCatch (some "production") otherError
      ∧ loginCatch (some "production") sampleError = loginCatch (some "production") otherError
      ∧ registerCatch (some "production") sampleError
        = Outcome.respond 500
            [("success", JSVal.bool false), ("message", JSVal.str "Registration failed"),
             ("error", JSVal.str "Internal server error")]
      ∧ loginCatch (some "production") sampleError
        = Outcome.respond 500
            [("success", JSVal.bool false), ("message", JSVal.str "Login failed"),
             ("error", JSVal.str "Internal server error")]
      ∧ (catchBody "Registration failed" (some "production") sampleError).get "error"
        = JSVal.str "Internal server error"
      ∧ (catchBody "Login failed" (some "production") sampleError).get "error"
        = JSVal.str "Internal server error" :=
  catch_answer_independent_of_error (some "production") sampleError otherError (by decide)

/-- The 500 answer of the registration handler itself is the answer of its
catch block: whenever the handler fails, its body is the catch body of some
error. -/
theorem register_failed_body (nodeEnv : Option String) (env : RegisterEnv)
    (errors : List String) (body : RegisterBody) (st : AuthStore) (b : JSObj)
    (h : (register nodeEnv env errors body st).2 = RegisterReply.failed b) :
    ∃ e, b = catchBody "Registration failed" nodeEnv e := by
  unfold register at h
  by_cases he : errors = [] <;>
  cases hl : env.failLookup <;>
  by_cases hx : (st.existing body.username body.email).length > 0 <;>
  by_cases ht : (textOrUndefined body.schoolId).truthy = true <;>
  cases hs : env.failSchool <;>
  by_cases hd : (∃ sc ∈ st.schools, some sc.text = body.schoolId) <;>
  cases hu : env.failInsertUser <;>
  cases hss : env.failInsertSession <;>
  simp [he, hl, hx, ht, hs, hd, hu, hss] at h <;>
  exact ⟨_, h.symm⟩

/-! ## Theorems: role checks -/

/-- C18: for every list of allowed roles, the middleware of requireRole answers
401 with code AUTH_REQUIRED when there is no user, answers 403 with code
INSUFFICIENT_PERMISSIONS when the role of the user is not in the list, and
otherwise calls next; requireAdmin lets through exactly role admin and
requireGovernment exactly roles admin and government. -/
theorem requireRole_answers (rs : List String) (u : User) :
    requireRole (Roles.many rs) Option.none
        = Outcome.respond 401 (failureCode "Authentication required" "AUTH_REQUIRED")
      ∧ (failureCode "Authentication required" "AUTH_REQUIRED").get "code"
        = JSVal.str "AUTH_REQUIRED"
      ∧ (u.role ∉ rs → ∃ body, requireRole (Roles.many rs) (some u) = Outcome.respond 403 body
          ∧ body.get "code" = JSVal.str "INSUFFICIENT_PERMISSIONS")
      ∧ (u.role ∈ rs → requireRole (Roles.many rs) (some u) = Outcome.next)
      ∧ (requireRole (Roles.many rs) (some u) = Outcome.next ↔ u.role ∈ rs)
      ∧ (requireAdmin (some u) = Outcome.next ↔ u.role = "admin")
      ∧ (requireGovernment (some u) = Outcome.next
          ↔ u.role = "admin" ∨ u.role = "government") := by
  have hiff : ∀ l : List String,
      requireRole (Roles.many l) (some u) = Outcome.next ↔ u.role ∈ l := by
    intro l
    unfold requireRole
    by_cases h : u.role ∈ l <;> simp [Roles.allowed, h]
  refine ⟨rfl, by decide, ?_, ?_, hiff rs, ?_, ?_⟩
  · intro h
    refine ⟨[("success", JSVal.bool false), ("message", JSVal.str "Insufficient permissions"),
      ("code", JSVal.str "INSUFFICIENT_PERMISSIONS"), ("required", JSVal.strs rs),
      ("current", JSVal.str u.role)], ?_, by simp [JSObj.get, List.lookup]⟩
    simp only [requireRole, Roles.allowed, h, if_false]
  · intro h
    exact (hiff rs).mpr h
  · rw [requireAdmin, hiff]; simp
  · rw [requireGovernment, hiff]; simp

/-! ## Theorems: query texts -/

set_option maxRecDepth 20000 in
/-- C19, the code at the failing inputs: an export filtered by status builds
the condition with the bare number 1 in place of a placeholder, and a profile
update of the full name builds the SET item and the WHERE clause with bare
numbers; neither text references its parameters by placeholder. -/
theorem export_and_profile_texts_lack_placeholders :
    exportWhere statusOnly
        = { text := "1 = 1 AND r.status = 1", params := [JSVal.str "reported"], paramCount := 2 }
      ∧ ¬ Parameterized "1 = 1 AND r.status = 1" [JSVal.str "reported"]
      ∧ profileUpdate nameOnly userA
        = some ("UPDATE users SET full_name = 1, updated_at = NOW() WHERE id = 2"
            ++ " RETURNING id, username, email, full_name, role, phone, lga, updated_at",
          [JSVal.str "Ada Obi", userA.toJS])
      ∧ ¬ Parameterized ("UPDATE users SET full_name = 1, updated_at = NOW() WHERE id = 2"
            ++ " RETURNING id, username, email, full_name, role, phone, lga, updated_at")
          [JSVal.str "Ada Obi", userA.toJS] := by
  refine ⟨by decide, ?_, by rfl, ?_⟩
  · intro h
    have h1 := h 1 (by decide) (by decide)
    revert h1
    unfold mentionsPlaceholder
    decide
  · intro h
    have h1 := h 1 (by decide) (by decide)
    revert h1
    unfold mentionsPlaceholder
    decide

/-! ## Theorems: comments of the report detail -/

/-- For an authenticated caller who is neither admin nor government the filter
keeps no internal comment. -/
theorem filterComments_restricted (u : User) (comments : List Comment)
    (hrole : u.role ∉ ["admin", "government"]) :
    ∀ c ∈ filterComments (some u) comments, c.is_internal ≠ some true := by
  intro c hc hint
  unfold filterComments at hc
  rw [List.mem_filter] at hc
  have := hc.2
  simp [hint, restrictedCaller, hrole] at this

/-- For an authenticated caller who is neither admin nor government the filter
keeps exactly the comments that are not internal. -/
theorem filterComments_restricted_eq (u : User) (comments : List Comment)
    (hrole : u.role ∉ ["admin", "government"]) :
    filterComments (some u) comments
      = comments.filter (fun c => decide (c.is_internal ≠ some true)) := by
  unfold filterComments
  apply List.filter_congr
  intro c _
  by_cases h : c.is_internal = some true <;> simp [h, restrictedCaller, hrole]

/-- For an admin or government caller the filter keeps every comment. -/
theorem filterComments_privileged (u : User) (comments : List Comment)
    (hrole : u.role ∈ ["admin", "government"]) :
    filterComments (some u) comments = comments := by
  unfold filterComments
  rw [List.filter_eq_self]
  intro c _
  simp [restrictedCaller, hrole]

/-- For a caller without user the filter keeps every comment, internal ones
included. -/
theorem filterComments_anonymous (comments : List Comment) :
    filterComments Option.none comments = comments := by
  unfold filterComments
  rw [List.filter_eq_self]
  intro c _
  simp [restrictedCaller]

/-- A request without user never reaches the detail handler: whatever the
parameter and the database, `requireReportAccess` answers and does not call
`next()`. -/
theorem requireReportAccess_anonymous_never_next (db : Database) (params : Params) :
    requireReportAccess db params Option.none ≠ Outcome.next := by
  unfold requireReportAccess
  split
  · split <;> simp
  · simp

/-- The detail endpoint answers the detail only to a caller with a user, and
the comments of the answer are the filter applied to the rows of the comments
statement. -/
theorem reportDetail_detail (uuidRegex : String → Bool) (db : Database) (q : DetailQueries)
    (id : String) (user : Option User) (report : Report) (comments : List Comment)
    (resources : List Resource)
    (h : reportDetail uuidRegex db q id user = DetailReply.detail report comments resources) :
    ∃ u rows, user = some u ∧ q.comments id = QueryResult.rows rows
      ∧ comments = filterComments (some u) rows := by
  unfold reportDetail at h
  split at h
  · cases h
  · split at h
    · cases h
    · rename_i hnext
      cases user with
      | none => exact absurd hnext (requireReportAccess_anonymous_never_next db _)
      | some u =>
        unfold detailHandler at h
        split at h
        · cases h
        · cases h
        · split at h
          · cases h
          · rename_i rows hrows
            dsimp only at h
            split at h
            · cases h
            · simp only [DetailReply.detail.injEq] at h
              exact ⟨u, rows, rfl, hrows, h.2.1.symm⟩

/-- C20: whenever the report-detail endpoint answers with the detail, the
comment list of the answer holds no internal comment if the caller is not an
admin or government user (a caller without user included, who is never
answered with a detail), and is the unfiltered list of the rows of the comments
statement if the caller is an admin or government user. -/
theorem detail_comments_hide_internal (uuidRegex : String → Bool) (db : Database)
    (q : DetailQueries) (id : String) (user : Option User) (report : Report)
    (comments : List Comment) (resources : List Resource)
    (h : reportDetail uuidRegex db q id user = DetailReply.detail report comments resources) :
    ((∀ u, user = some u → u.role ∉ ["admin", "government"]) →
        (∀ c ∈ comments, c.is_internal ≠ some true)
          ∧ ∃ rows, q.comments id = QueryResult.rows rows
              ∧ comments = rows.filter (fun c => decide (c.is_internal ≠ some true)))
      ∧ (∀ u, user = some u → u.role ∈ ["admin", "government"] →
          q.comments id = QueryResult.rows comments) := by
  obtain ⟨u, rows, hu, hrows, hc⟩ := reportDetail_detail uuidRegex db q id user report
    comments resources h
  subst hu
  constructor
  · intro hrole
    have hr := hrole u rfl
    refine ⟨?_, rows, hrows, ?_⟩
    · rw [hc]
      exact filterComments_restricted u rows hr
    · rw [hc]
      exact filterComments_restricted_eq u rows hr
  · intro v hv hrole
    cases hv
    rw [hc, filterComments_privileged u rows hrole]
    exact hrows

/-- C20 at a teacher of the school of the sample report, which has one public
and one internal comment: the answer is the detail with the public comment
only. -/
theorem detail_comments_hide_internal_witness :
    reportDetail (fun _ => true) sampleDb sampleQueries reportA.text (some teacherA)
        = DetailReply.detail (sampleReport (some "public")) [publicComment] []
      ∧ ((∀ u, some teacherA = some u → u.role ∉ ["admin", "government"]) →
          (∀ c ∈ [publicComment], c.is_internal ≠ some true)
            ∧ ∃ rows, sampleQueries.comments reportA.text = QueryResult.rows rows
                ∧ [publicComment] = rows.filter (fun c => decide (c.is_internal ≠ some true)))
      ∧ (∀ u, some teacherA = some u → u.role ∈ ["admin", "government"] →
          sampleQueries.comments reportA.text = QueryResult.rows [publicComment]) :=
  ⟨rfl,
    detail_comments_hide_internal (fun _ => true) sampleDb sampleQueries reportA.text
      (some teacherA) (sampleReport (some "public")) [publicComment] [] rfl⟩

/-- The detail endpoint answers an officer with every comment of the report,
the internal one included. -/
theorem reportDetail_officer :
    reportDetail (fun _ => true) sampleDb sampleQueries reportA.text (some officerA)
      = DetailReply.detail (sampleReport (some "public")) [publicComment, internalComment]
          [] := by
  rfl

/-! ## Theorems: internal flag of a posted comment -/

/-- For a user who is neither admin nor government the flag passed to the
INSERT is falsy, whatever the body carried. -/
theorem finalIsInternal_restricted (u : User) (v : JSVal)
    (hrole : u.role ∉ ["admin", "government"]) :
    (finalIsInternal u v).truthy = false := by
  unfold finalIsInternal jsAnd
  have hc : canMakeInternal u = false := by simp [canMakeInternal, hrole]
  rw [hc]
  by_cases h : (orDefault v (JSVal.bool false)).truthy = true
  · rw [if_pos h]; rfl
  · rw [if_neg h]; simpa using h

/-- For an admin or government user and a boolean flag the value passed to the
INSERT is the requested one; an absent flag gives false. -/
theorem finalIsInternal_privileged_bool (u : User) (b : Bool)
    (hrole : u.role ∈ ["admin", "government"]) :
    finalIsInternal u (JSVal.bool b) = JSVal.bool b
      ∧ finalIsInternal u JSVal.undefined = JSVal.bool false := by
  unfold finalIsInternal jsAnd canMakeInternal orDefault
  cases b <;> simp [hrole, JSVal.truthy]

/-- C21, the code at the failing input: a government user posts a comment
whose body carries isInternal as the text false, which the validator isBoolean
admits; the text is truthy, so the flag passed to the INSERT is true. -/
theorem finalIsInternal_text_false_gives_true :
    passesIsBoolean (JSVal.str "false") = true
      ∧ finalIsInternal officerA (JSVal.str "false") = JSVal.bool true
      ∧ commentInsertParams reportA.text officerA (JSVal.str "Budget pending")
          JSVal.undefined (JSVal.str "false")
        = [JSVal.str reportA.text, userA.toJS, JSVal.str "Budget pending",
           JSVal.str "comment", JSVal.bool true]
      ∧ passesIsBoolean (JSVal.str "0") = true
      ∧ finalIsInternal officerA (JSVal.str "0") = JSVal.bool true := by
  refine ⟨by decide, by decide, by decide, by decide, by decide⟩

/-! ## Theorems: sessions -/

/-- When no stored digest of the user equals the digest of the current token,
the password change leaves no session of the user active. -/
theorem deactivateOthers_all (userId : Uuid) (tokenHash : String) (sessions : List SessionRow)
    (hno : ∀ s ∈ sessions, s.user_id = userId → s.token_hash ≠ tokenHash) :
    deactivateOthers userId tokenHash sessions = deactivateAll userId sessions := by
  unfold deactivateOthers deactivateAll
  apply List.map_congr_left
  intro s hs
  by_cases h : s.user_id = userId
  · simp [h, hno s hs h]
  · simp [h]

/-- C22, the code at the failing input: Ada logs in, which stores a session
with the digest of her refresh token, and changes her password with the access
token of that login as bearer token; the handler answers 200 and the session of
that login is inactive. -/
theorem change_password_deactivates_current_session :
    (login sampleSessionEnv noLoginFaults [] "ada_obi" "1" sampleStore).2
        = { status := 200, accessToken := some "access:ada_obi",
            refreshToken := some "refresh:ada_obi" }
      ∧ storeAfterLogin.sessions
        = [{ user_id := userA, token_hash := "digest:refresh:ada_obi", is_active := true }]
      ∧ (changePassword sampleSessionEnv noChangeFaults [] (some "Bearer access:ada_obi")
          adaUser "1" "N3w-Passw0rd!" storeAfterLogin).2 = 200
      ∧ (changePassword sampleSessionEnv noChangeFaults [] (some "Bearer access:ada_obi")
          adaUser "1" "N3w-Passw0rd!" storeAfterLogin).1.sessions
        = [{ user_id := userA, token_hash := "digest:refresh:ada_obi", is_active := false }] := by
  refine ⟨by decide, by decide, by decide, by decide⟩

/-- A request that passed `authMiddleware` carries a non-empty bearer token. -/
theorem authMiddleware_next_token (verify : String → Except JsError String)
    (users : String → QueryResult UserRow) (authHeader : Option String) (u : Option User)
    (h : authMiddleware verify users authHeader = (Outcome.next, u)) :
    (bearerToken authHeader).truthy = true := by
  unfold authMiddleware at h
  split at h
  · rename_i token htok
    rw [htok]
    by_cases ht : token = ""
    · simp [ht] at h
    · simp [JSVal.truthy, ht]
  · simp at h

theorem mem_deactivateAll (userId : Uuid) (sessions : List SessionRow) (s : SessionRow)
    (hs : s ∈ deactivateAll userId sessions) :
    (s.user_id = userId → s.is_active = false)
      ∧ ∃ s0 ∈ sessions, s0.user_id = s.user_id ∧ s0.token_hash = s.token_hash := by
  unfold deactivateAll at hs
  rw [List.mem_map] at hs
  obtain ⟨s0, hs0, rfl⟩ := hs
  by_cases h : s0.user_id = userId
  · simp [h]
    exact ⟨s0, hs0, h, rfl⟩
  · simp [h]
    exact ⟨s0, hs0, rfl, rfl⟩

theorem deactivateAll_others (userId : Uuid) (sessions : List SessionRow) :
    (deactivateAll userId sessions).filter (fun s => decide (s.user_id ≠ userId))
      = sessions.filter (fun s => decide (s.user_id ≠ userId)) := by
  induction sessions with
  | nil => rfl
  | cons s rest ih =>
    unfold deactivateAll at ih ⊢
    by_cases h : s.user_id = userId
    · simp [h, List.filter_cons]
      simpa using ih
    · simp [h, List.filter_cons]
      simpa using ih

/-- After a logout every session of the user is inactive, so a refresh with a
token whose sessions are the user's finds no active session. -/
theorem refresh_after_deactivateAll (env : SessionEnv) (fail : Option JsError)
    (live : SessionRow → Bool) (token : String) (userId : Uuid) (st : AuthStore)
    (hown : ∀ s ∈ st.sessions, s.token_hash = env.sha256 token → s.user_id = userId) :
    refresh env fail live (JSVal.str token)
      { st with sessions := deactivateAll userId st.sessions } = 401 := by
  unfold refresh
  by_cases ht : token = ""
  · simp [ht]
  · simp only [ht, if_false]
    split
    · rfl
    · split
      · rfl
      · have hempty : (List.filter (fun s =>
            s.token_hash == env.sha256 token && s.is_active && live s
              && st.users.any (fun u => u.id == s.user_id))
            (deactivateAll userId st.sessions)) = [] := by
          rw [List.filter_eq_nil_iff]
          intro s hs
          obtain ⟨hinactive, s0, hs0, huid, hhash⟩ := mem_deactivateAll userId st.sessions s hs
          by_cases hh : s.token_hash = env.sha256 token
          · have hu : s.user_id = userId := by
              rw [← huid]; exact hown s0 hs0 (by rw [hhash]; exact hh)
            simp [hinactive hu]
          · simp [hh]
        simp only [hempty, List.length_nil, if_true]

/-- C23: after a logout by user u (a request that passed authMiddleware, the
update succeeding) every session of u is inactive, the sessions of every other
user are unchanged, and a later refresh with a refresh token of u (one whose
stored sessions are all sessions of u) is answered 401. -/
theorem logout_deactivates_sessions (env : SessionEnv)
    (verify : String → Except JsError String) (users : String → QueryResult UserRow)
    (authHeader : Option String) (u : User) (st : AuthStore) (fail : Option JsError)
    (live : SessionRow → Bool) (token : String)
    (hauth : authMiddleware verify users authHeader = (Outcome.next, some u))
    (hown : ∀ s ∈ st.sessions, s.token_hash = env.sha256 token → s.user_id = u.id) :
    (logout Option.none authHeader u st).2 = 200
      ∧ (∀ s ∈ (logout Option.none authHeader u st).1.sessions,
          s.user_id = u.id → s.is_active = false)
      ∧ (logout Option.none authHeader u st).1.sessions.filter
            (fun s => decide (s.user_id ≠ u.id))
          = st.sessions.filter (fun s => decide (s.user_id ≠ u.id))
      ∧ (logout Option.none authHeader u st).1.sessions.length = st.sessions.length
      ∧ refresh env fail live (JSVal.str token) (logout Option.none authHeader u st).1
          = 401 := by
  have htok := authMiddleware_next_token verify users authHeader (some u) hauth
  have hl : logout Option.none authHeader u st
      = ({ st with sessions := deactivateAll u.id st.sessions }, 200) := by
    simp [logout, htok]
  rw [hl]
  refine ⟨rfl, ?_, deactivateAll_others u.id st.sessions, ?_, ?_⟩
  · intro s hs
    exact (mem_deactivateAll u.id st.sessions s hs).1
  · simp [deactivateAll]
  · exact refresh_after_deactivateAll env fail live token u.id st hown

/-- C23 at the store with two sessions of Ada and one of user B, Ada logging
out and then refreshing with her refresh token. -/
theorem logout_deactivates_sessions_witness :
    (logout Option.none (some "Bearer access:ada_obi") adaUser threeSessions).2 = 200
      ∧ (∀ s ∈ (logout Option.none (some "Bearer access:ada_obi") adaUser threeSessions).1.sessions,
          s.user_id = adaUser.id → s.is_active = false)
      ∧ (logout Option.none (some "Bearer access:ada_obi") adaUser threeSessions).1.sessions.filter
            (fun s => decide (s.user_id ≠ adaUser.id))
          = threeSessions.sessions.filter (fun s => decide (s.user_id ≠ adaUser.id))
      ∧ (logout Option.none (some "Bearer access:ada_obi") adaUser threeSessions).1.sessions.length
          = threeSessions.sessions.length
      ∧ refresh sampleSessionEnv Option.none (fun _ => true) (JSVal.str "refresh:ada_obi")
          (logout Option.none (some "Bearer access:ada_obi") adaUser threeSessions).1 = 401 :=
  logout_deactivates_sessions sampleSessionEnv (fun _ => Except.ok userA.text)
    (fun _ => QueryResult.rows [adaRow]) (some "Bearer access:ada_obi") adaUser threeSessions
    Option.none (fun _ => true) "refresh:ada_obi" (by rfl) (by decide)

/-! ## Theorems: pagination -/

theorem toDouble_of_lt (n : Nat) (h : n < 2 ^ 53) : toDouble n = JSNumber.finite n := by
  unfold toDouble
  rw [if_pos h]

theorem scaleUp_spec (a b : Nat) (fuel : Nat) :
    ∀ k0 k1 : Nat, k0 ≤ k1 → k1 ≤ k0 + fuel → 2 ^ 52 * b ≤ a * 2 ^ k1 →
      2 ^ 52 * b ≤ a * 2 ^ (scaleUp a b fuel k0) := by
  induction fuel with
  | zero =>
    intro k0 k1 h0 h1 hP
    have : k1 = k0 := by omega
    subst this
    simpa [scaleUp] using hP
  | succ fuel ih =>
    intro k0 k1 h0 h1 hP
    unfold scaleUp
    split_ifs with h
    · exact h
    · have hne : k0 ≠ k1 := by
        rintro rfl
        exact h hP
      exact ih (k0 + 1) k1 (by omega) (by omega) hP

theorem roundHalfEven_bounds (x d : Nat) :
    x / d ≤ roundHalfEven x d ∧ roundHalfEven x d ≤ x / d + 1 := by
  unfold roundHalfEven
  dsimp only
  split_ifs <;> omega

theorem roundHalfEven_up (x d : Nat) (h : d < 2 * (x % d)) :
    roundHalfEven x d = x / d + 1 := by
  unfold roundHalfEven
  dsimp only
  rw [if_neg (by omega), if_pos h]

theorem roundHalfEven_exact (x d : Nat) (hd : 0 < d) (h : x % d = 0) :
    roundHalfEven x d = x / d := by
  unfold roundHalfEven
  dsimp only
  rw [if_pos (by omega)]

/-- Division rounded up, from bounds on the dividend. -/
theorem div_eq_of_bounds (m d q : Nat) (hlo : q * d ≤ m) (hhi : m < (q + 1) * d) :
    m / d = q := by
  have hd : 0 < d := by
    rcases Nat.eq_zero_or_pos d with h | h
    · subst h; simp at hhi
    · exact h
  apply Nat.le_antisymm
  · have := (Nat.div_lt_iff_lt_mul hd).2 hhi
    omega
  · exact (Nat.le_div_iff_mul_le hd).2 hlo

/-- The rounded quotient of a dividend below 2^53, scaled to 53 significant
bits, rounds up to the exact ceiling of the quotient. -/
theorem ceil_scaled (a b P : Nat) (hb : 0 < b) (ha : a < 2 ^ 53)
    (hP : 2 ^ 52 * b ≤ a * P) :
    (roundHalfEven (a * P) b + P - 1) / P = (a + b - 1) / b := by
  have hPpos : 0 < P := by
    rcases Nat.eq_zero_or_pos P with h | h
    · subst h
      simp at hP
      omega
    · exact h
  have haP : a * P < 2 ^ 53 * P := Nat.mul_lt_mul_of_pos_right ha hPpos
  have hbP : b < 2 * P := by omega
  have hdiv := Nat.div_add_mod a b
  have hr := Nat.mod_lt a hb
  obtain ⟨n, hn⟩ : ∃ n, n = a / b := ⟨_, rfl⟩
  obtain ⟨r, hr0⟩ : ∃ r, r = a % b := ⟨_, rfl⟩
  rw [← hn, ← hr0] at hdiv
  rw [← hr0] at hr
  have hx : a * P = b * (n * P) + r * P := by
    rw [← hdiv]; ring
  have hxdiv := Nat.div_add_mod (a * P) b
  have hxmod := Nat.mod_lt (a * P) hb
  have hM := roundHalfEven_bounds (a * P) b
  by_cases hzero : r = 0
  · subst hzero
    have hmod0 : (a * P) % b = 0 := by
      rw [hx]; simp
    have hquot : (a * P) / b = n * P := by
      rw [hx]; simp [Nat.mul_div_cancel_left _ hb]
    rw [roundHalfEven_exact _ _ hb hmod0, hquot]
    have h1 : (n * P + P - 1) / P = n :=
      div_eq_of_bounds _ _ _ (by omega) (by rw [Nat.add_mul]; omega)
    have h2 : (a + b - 1) / b = n :=
      div_eq_of_bounds _ _ _ (by rw [Nat.mul_comm]; omega)
        (by rw [Nat.add_mul, Nat.mul_comm n b]; omega)
    rw [h1, h2]
  · have hrpos : 1 ≤ r := Nat.one_le_iff_ne_zero.2 hzero
    have hrP : P ≤ r * P := Nat.le_mul_of_pos_left P hrpos
    have hrP2 : r * P < b * P := Nat.mul_lt_mul_of_pos_right hr hPpos
    -- the quotient of the scaled dividend lies in [n * P, (n + 1) * P)
    have hflo : n * P ≤ (a * P) / b := by
      apply (Nat.le_div_iff_mul_le hb).2
      rw [hx]
      have : n * P * b = b * (n * P) := by ring
      omega
    have hfhi : (a * P) / b < (n + 1) * P := by
      apply (Nat.div_lt_iff_lt_mul hb).2
      rw [hx]
      have : (n + 1) * P * b = b * (n * P) + b * P := by ring
      omega
    have hMlo : n * P + 1 ≤ roundHalfEven (a * P) b := by
      by_cases hf : (a * P) / b = n * P
      · have hs : (a * P) % b = r * P := by
          have := hxdiv
          rw [hf] at this
          omega
        rw [roundHalfEven_up _ _ (by rw [hs]; omega), hf]
      · omega
    have hMhi : roundHalfEven (a * P) b ≤ (n + 1) * P := by omega
    have h1 : (roundHalfEven (a * P) b + P - 1) / P = n + 1 :=
      div_eq_of_bounds _ _ _ (by rw [Nat.add_mul] at hMhi ⊢; omega)
        (by
          have : (n + 1 + 1) * P = (n + 1) * P + P := by ring
          omega)
    have h2 : (a + b - 1) / b = n + 1 :=
      div_eq_of_bounds _ _ _ (by rw [Nat.add_mul, Nat.mul_comm n b]; omega)
        (by
          have : (n + 1 + 1) * b = b * n + b + b := by ring
          omega)
    rw [h1, h2]

/-- For a dividend below 2^53 and a divisor from 1 to 100 the double arithmetic
of `Math.ceil(a / b)` gives the exact ceiling of the quotient. -/
theorem ceilOfQuotient_safe (a b : Nat) (ha : a < 2 ^ 53) (hb1 : 1 ≤ b) (hb : b ≤ 100) :
    ceilOfQuotient a b = (a + b - 1) / b := by
  unfold ceilOfQuotient
  by_cases h0 : a = 0
  · subst h0
    rw [if_pos rfl]
    symm
    apply (Nat.div_eq_zero_iff (by omega)).2
    omega
  · rw [if_neg h0, if_pos (by omega)]
    dsimp only
    apply ceil_scaled a b _ (by omega) ha
    apply scaleUp_spec a b 1074 0 59 (by omega) (by omega)
    have : 1 ≤ a := Nat.one_le_iff_ne_zero.2 h0
    calc 2 ^ 52 * b ≤ 2 ^ 52 * 128 := Nat.mul_le_mul_left _ (by omega)
      _ = 1 * 2 ^ 59 := by norm_num
      _ ≤ a * 2 ^ 59 := Nat.mul_le_mul_right _ this

/-- The ceiling of a quotient of natural numbers as an integer division. -/
theorem ceil_div_eq (a b : Nat) (hb : 0 < b) :
    ⌈(a : ℚ) / (b : ℚ)⌉ = (((a + b - 1) / b : Nat) : Int) := by
  rw [Int.ceil_eq_iff]
  have hbq : (0 : ℚ) < (b : ℚ) := by exact_mod_cast hb
  obtain ⟨t, ht⟩ : ∃ t, t = (a + b - 1) / b := ⟨_, rfl⟩
  rw [← ht]
  have hdm := Nat.div_add_mod (a + b - 1) b
  have hmod := Nat.mod_lt (a + b - 1) hb
  rw [← ht] at hdm
  have hlo : b * t + 1 ≤ a + b := by omega
  have hhi : a ≤ b * t := by omega
  have hloq : (b : ℚ) * (t : ℚ) + 1 ≤ (a : ℚ) + (b : ℚ) := by exact_mod_cast hlo
  have hhiq : (a : ℚ) ≤ (b : ℚ) * (t : ℚ) := by exact_mod_cast hhi
  constructor
  · rw [lt_div_iff₀ hbq]
    push_cast
    nlinarith
  · rw [div_le_iff₀ hbq]
    push_cast
    nlinarith

/-- A page lies below the ceiling of total / limit exactly when page * limit is
below the total. -/
theorem lt_ceil_div_iff (page a b : Nat) (hb : 0 < b) :
    page < (a + b - 1) / b ↔ page * b < a := by
  rw [Nat.lt_iff_add_one_le, Nat.le_div_iff_mul_le hb, Nat.add_mul]
  omega

/-- The figures of the list handler within the safe integers, in closed
form. -/
theorem paginate_safe (page limit total : Nat)
    (hpage : 1 ≤ page) (hlo : 1 ≤ limit) (hhi : limit ≤ 100)
    (hsafe : page * limit ≤ maxSafeInteger) (htotal : total ≤ maxSafeInteger) :
    paginate page limit total
      = some { offset := JSNumber.finite ((page - 1) * limit),
               totalPages := JSNumber.finite ((total + limit - 1) / limit),
               hasNextPage := decide (page < (total + limit - 1) / limit),
               hasPrevPage := decide (1 < page) } := by
  unfold maxSafeInteger at hsafe htotal
  have hp1 : page ≤ page * limit := Nat.le_mul_of_pos_right page hlo
  have hp2 : (page - 1) * limit ≤ page * limit := Nat.mul_le_mul_right _ (Nat.sub_le _ _)
  have e1 : toDouble page = JSNumber.finite page := toDouble_of_lt page (by omega)
  have e2 : toDouble (page - 1) = JSNumber.finite (page - 1) :=
    toDouble_of_lt (page - 1) (by omega)
  have e3 : toDouble ((page - 1) * limit) = JSNumber.finite ((page - 1) * limit) :=
    toDouble_of_lt _ (by omega)
  have e4 : toDouble total = JSNumber.finite total := toDouble_of_lt total (by omega)
  have e5 : ceilOfQuotient total limit = (total + limit - 1) / limit :=
    ceilOfQuotient_safe total limit (by omega) hlo hhi
  unfold paginate
  rw [if_neg (by omega)]
  simp only [e1, e4, JSNumber.minusOne, e2, JSNumber.times, e3, JSNumber.ceilDiv,
    if_neg (by omega : ¬ limit = 0), e5, JSNumber.lt]

/-- C26, as the code has it: for every integer page >= 1, limit in 1..100 and
total >= 0 with page * limit and total at most 2^53 - 1, the largest safe
integer, the list handler computes offset = (page - 1) * limit and totalPages =
ceil(total / limit), reports hasNextPage exactly when page * limit < total, and
hasPrevPage exactly when page > 1. -/
theorem pagination_figures (page limit total : Nat)
    (hpage : 1 ≤ page) (hlo : 1 ≤ limit) (hhi : limit ≤ 100)
    (hsafe : page * limit ≤ maxSafeInteger) (htotal : total ≤ maxSafeInteger) :
    ∃ p, paginate page limit total = some p
      ∧ p.offset = JSNumber.finite ((page - 1) * limit)
      ∧ (∃ t : Nat, p.totalPages = JSNumber.finite t
          ∧ (t : Int) = ⌈(total : ℚ) / (limit : ℚ)⌉)
      ∧ (p.hasNextPage = true ↔ page * limit < total)
      ∧ (p.hasPrevPage = true ↔ page > 1) := by
  refine ⟨_, paginate_safe page limit total hpage hlo hhi hsafe htotal, rfl,
    ⟨_, rfl, (ceil_div_eq total limit (by omega)).symm⟩, ?_, ?_⟩
  · simp only [decide_eq_true_eq]
    exact lt_ceil_div_iff page total limit (by omega)
  · simp only [decide_eq_true_eq, gt_iff_lt]

/-- C26 at page 2, limit 20 and 45 rows in all. -/
theorem pagination_figures_witness :
    ∃ p, paginate 2 20 45 = some p
      ∧ p.offset = JSNumber.finite ((2 - 1) * 20)
      ∧ (∃ t : Nat, p.totalPages = JSNumber.finite t
          ∧ (t : Int) = ⌈((45 : Nat) : ℚ) / ((20 : Nat) : ℚ)⌉)
      ∧ (p.hasNextPage = true ↔ 2 * 20 < 45)
      ∧ (p.hasPrevPage = true ↔ 2 > 1) :=
  pagination_figures 2 20 45 (by decide) (by decide) (by decide) (by decide) (by decide)

/-- C26 as the specification words it fails beyond the safe integers: for page
9007199254740993 (2^53 + 1, which the validator admits), limit 1 and no rows the
page converts to the double 9007199254740992 and the handler computes offset
9007199254740991, while (page - 1) * limit is 9007199254740992. -/
theorem pagination_large_page_counterexample :
    1 ≤ 9007199254740993
      ∧ paginate 9007199254740993 1 0
        = some { offset := JSNumber.finite 9007199254740991,
                 totalPages := JSNumber.finite 0,
                 hasNextPage := false, hasPrevPage := true }
      ∧ JSNumber.finite 9007199254740991 ≠ JSNumber.finite ((9007199254740993 - 1) * 1) := by
  decide

/-! ## Theorems: anonymous reports -/

/-- A report without recorded reporter is refused to every user who is neither
admin nor government. -/
theorem decideModify_no_reporter (u : User) (report : Report) (now : Int)
    (hnone : report.reporter_id = Option.none)
    (hadmin : u.role ≠ "admin") (hgov : u.role ≠ "government") :
    decideModify u report now = Outcome.respond 403 (failure "Permission denied") := by
  simp [decideModify, hadmin, hgov, hnone]

/-- C27: a report created with isAnonymous true is stored with a null
reporter_id and status reported, and canModifyReport answers 403 to every user
who is neither admin nor government, the submitting user included, whatever the
current time. -/
theorem anonymous_report_not_modifiable (newId : Uuid) (createdAt : Int) (creator : User)
    (body : CreateBody) (db : Database) (params : Params) (u : User) (rest : List Report)
    (reportId : String) (now : Int)
    (hanon : body.isAnonymous = JSVal.bool true)
    (hid : params.pick = JSVal.str reportId)
    (hrow : db.reportById reportId
      = QueryResult.rows (insertedReport newId createdAt creator body :: rest))
    (hadmin : u.role ≠ "admin") (hgov : u.role ≠ "government") :
    (insertedReport newId createdAt creator body).reporter_id = Option.none
      ∧ (insertedReport newId createdAt creator body).status = "reported"
      ∧ canModifyReport db params (some u) now
        = Outcome.respond 403 (failure "Permission denied")
      ∧ (creator.role ≠ "admin" → creator.role ≠ "government" →
          canModifyReport db params (some creator) now
            = Outcome.respond 403 (failure "Permission denied")) := by
  have hnone : (insertedReport newId createdAt creator body).reporter_id = Option.none := by
    simp [insertedReport, hanon, orDefault, JSVal.truthy]
  refine ⟨hnone, rfl, ?_, ?_⟩
  · rw [canModifyReport_existing db params u _ rest reportId now hid hrow]
    exact decideModify_no_reporter u _ now hnone hadmin hgov
  · intro h1 h2
    rw [canModifyReport_existing db params creator _ rest reportId now hid hrow]
    exact decideModify_no_reporter creator _ now hnone h1 h2

/-- C27 at teacher A submitting the anonymous sample body and asking to modify
the report one second later. -/
theorem anonymous_report_not_modifiable_witness :
    (insertedReport reportA 0 teacherA anonymousBody).reporter_id = Option.none
      ∧ (insertedReport reportA 0 teacherA anonymousBody).status = "reported"
      ∧ canModifyReport
          { reports := [insertedReport reportA 0 teacherA anonymousBody], available := true }
          sampleParams (some teacherA) 1000
        = Outcome.respond 403 (failure "Permission denied")
      ∧ (teacherA.role ≠ "admin" → teacherA.role ≠ "government" →
          canModifyReport
            { reports := [insertedReport reportA 0 teacherA anonymousBody], available := true }
            sampleParams (some teacherA) 1000
            = Outcome.respond 403 (failure "Permission denied")) :=
  anonymous_report_not_modifiable reportA 0 teacherA anonymousBody
    { reports := [insertedReport reportA 0 teacherA anonymousBody], available := true }
    sampleParams teacherA [] reportA.text 1000 rfl (by decide) (by rfl) (by decide) (by decide)

/-! ## Theorems: score of low and medium priority -/

/-- C28: for every validated priority and issue type and every students-affected
count, a report whose priority is low or medium gets a score of at most 70,
both from the create handler and from the recalculation of the update handler;
hence a score of at least 80 can only belong to a report whose priority is high
or urgent. -/
theorem low_medium_score_at_most_70 (p t : String) (n : Int) (row : Report)
    (hp : p ∈ validPriorities) (ht : t ∈ validIssueTypes) :
    ((p = "low" ∨ p = "medium") →
        calculateUrgencyScore (reportData p n t) ≤ 70
          ∧ recalculateUrgencyScore row.toObj (JSVal.str p) ≤ 70)
      ∧ (80 ≤ calculateUrgencyScore (reportData p n t) → p = "high" ∨ p = "urgent")
      ∧ (80 ≤ recalculateUrgencyScore row.toObj (JSVal.str p) → p = "high" ∨ p = "urgent") := by
  rw [score_valid p t n hp ht, recalculate_ignores_row row p hp]
  have hb := codeBonus_bounds n
  have hs := specSeverity_bounds t
  have h1 := min_le_left (specBase p + codeBonus n + specSeverity t) 100
  have h2 := min_le_left (specBase p + 5) 100
  simp only [validPriorities, List.mem_cons, List.mem_singleton, List.not_mem_nil,
    or_false] at hp
  have hlow : specBase "low" = 10 := by decide
  have hmed : specBase "medium" = 30 := by decide
  refine ⟨?_, ?_, ?_⟩
  · rintro (rfl | rfl)
    · constructor <;> omega
    · constructor <;> omega
  · intro h80
    rcases hp with rfl | rfl | rfl | rfl
    · omega
    · omega
    · exact Or.inl rfl
    · exact Or.inr rfl
  · intro h80
    rcases hp with rfl | rfl | rfl | rfl
    · omega
    · omega
    · exact Or.inl rfl
    · exact Or.inr rfl

/-- C28 at the largest score of a medium report: 600 students affected and a
safety issue give exactly 70. -/
theorem low_medium_score_at_most_70_witness :
    calculateUrgencyScore (reportData "medium" 600 "safety") = 70
      ∧ (("medium" = "low" ∨ "medium" = "medium") →
        calculateUrgencyScore (reportData "medium" 600 "safety") ≤ 70
          ∧ recalculateUrgencyScore (sampleReport (some "public")).toObj
              (JSVal.str "medium") ≤ 70)
      ∧ (80 ≤ calculateUrgencyScore (reportData "medium" 600 "safety") →
          "medium" = "high" ∨ "medium" = "urgent")
      ∧ (80 ≤ recalculateUrgencyScore (sampleReport (some "public")).toObj
            (JSVal.str "medium") → "medium" = "high" ∨ "medium" = "urgent") :=
  ⟨by decide,
    low_medium_score_at_most_70 "medium" "safety" 600 (sampleReport (some "public"))
      (by decide) (by decide)⟩

/-! ## Theorems: merging the three categories of the feed -/

theorem sortDesc_sorted (l : List Int) : List.Sorted (fun a b => a ≥ b) (sortDesc l) :=
  List.sorted_insertionSort (fun a b : Int => a ≥ b) l

theorem sortDesc_perm (l : List Int) : (sortDesc l).Perm l :=
  List.perm_insertionSort (fun a b : Int => a ≥ b) l

theorem sortDesc_eq_of_perm {l1 l2 : List Int} (h : l1.Perm l2) : sortDesc l1 = sortDesc l2 :=
  List.eq_of_perm_of_sorted ((sortDesc_perm l1).trans (h.trans (sortDesc_perm l2).symm))
    (sortDesc_sorted l1) (sortDesc_sorted l2)

theorem sortDesc_cons (b : Int) (l : List Int) :
    sortDesc (b :: l) = List.orderedInsert (fun a b => a ≥ b) b (sortDesc l) := rfl

theorem sortDesc_length (l : List Int) : (sortDesc l).length = l.length :=
  List.length_insertionSort (fun a b : Int => a ≥ b) l

/-- Inserting into a list keeps its first `k` entries at or above a bound they
all meet. -/
theorem take_orderedInsert_ge (b c : Int) :
    ∀ (m : List Int) (k : Nat), k ≤ m.length → (∀ x ∈ m.take k, x ≥ b) →
      ∀ x ∈ (List.orderedInsert (fun a b => a ≥ b) c m).take k, x ≥ b := by
  intro m
  induction m with
  | nil =>
    intro k hk _ x hx
    have : k = 0 := by simpa using hk
    subst this
    simp at hx
  | cons d m ih =>
    intro k hk hall x hx
    cases k with
    | zero => simp at hx
    | succ k =>
      have hd : d ≥ b := hall d (by simp)
      have htail : ∀ y ∈ m.take k, y ≥ b := fun y hy => hall y (by simp [hy])
      rw [List.orderedInsert] at hx
      split_ifs at hx with hcd
      · rw [List.take_succ_cons, List.mem_cons] at hx
        rcases hx with rfl | hx
        · exact le_trans hd hcd
        · exact hall x (List.take_subset_take_left _ (Nat.le_succ k) hx)
      · rw [List.take_succ_cons, List.mem_cons] at hx
        rcases hx with rfl | hx
        · exact hd
        · exact ih k (by simpa using hk) htail x hx

theorem take_cons_of_all_eq (c : Int) :
    ∀ (l : List Int) (n : Nat), n ≤ l.length → (∀ x ∈ l.take n, x = c) →
      (c :: l).take n = l.take n := by
  intro l
  induction l with
  | nil =>
    intro n hn _
    have : n = 0 := by simpa using hn
    subst this
    rfl
  | cons d l ih =>
    intro n hn hall
    cases n with
    | zero => rfl
    | succ n =>
      have hd : d = c := hall d (by simp)
      subst hd
      rw [List.take_succ_cons, List.take_succ_cons]
      congr 1
      exact ih n (by simpa using hn) (fun x hx => hall x (by simp [hx]))

/-- An instant that is at most each of the first `k` entries of a sorted list
does not change those entries when it is inserted. -/
theorem take_orderedInsert_small (b : Int) :
    ∀ (m : List Int) (k : Nat), List.Sorted (fun a b => a ≥ b) m → k ≤ m.length →
      (∀ x ∈ m.take k, x ≥ b) →
      (List.orderedInsert (fun a b => a ≥ b) b m).take k = m.take k := by
  intro m
  induction m with
  | nil =>
    intro k _ hk _
    have : k = 0 := by simpa using hk
    subst this
    rfl
  | cons d m ih =>
    intro k hs hk hall
    cases k with
    | zero => rfl
    | succ k =>
      have hd : d ≥ b := hall d (by simp)
      have htail : ∀ y ∈ m.take k, y ≥ b := fun y hy => hall y (by simp [hy])
      have hsm : List.Sorted (fun a b => a ≥ b) m := hs.of_cons
      have hk' : k ≤ m.length := by simpa using hk
      rw [List.orderedInsert]
      split_ifs with hbd
      · have hbd' : b = d := le_antisymm hd hbd
        subst hbd'
        rw [List.take_succ_cons, List.take_succ_cons]
        congr 1
        have hle : ∀ y ∈ m, b ≥ y := fun y hy => List.rel_of_sorted_cons hs y hy
        exact take_cons_of_all_eq b m k hk'
          (fun y hy => le_antisymm (hle y (List.mem_of_mem_take hy)) (htail y hy))
      · rw [List.take_succ_cons, List.take_succ_cons]
        congr 1
        exact ih k hsm hk' htail

/-- Instants that are at most each of the `k` latest of a list do not change
the `k` latest when they are added. -/
theorem take_sortDesc_append_small (k : Nat) (l : List Int) (hk : k ≤ l.length) :
    ∀ d : List Int, (∀ b ∈ d, ∀ x ∈ (sortDesc l).take k, x ≥ b) →
      (sortDesc (d ++ l)).take k = (sortDesc l).take k := by
  intro d
  induction d with
  | nil => intro _; rfl
  | cons b d ih =>
    intro hall
    have ih' := ih (fun c hc => hall c (List.mem_cons_of_mem _ hc))
    rw [List.cons_append, sortDesc_cons]
    rw [take_orderedInsert_small b (sortDesc (d ++ l)) k (sortDesc_sorted _)
      (by rw [sortDesc_length, List.length_append]; omega)
      (by rw [ih']; exact hall b (List.mem_cons_self _ _))]
    exact ih'

/-- The `k` latest of a list that holds `k` instants at or above a bound are all
at or above it. -/
theorem take_sortDesc_ge (k : Nat) (b : Int) (p : List Int) (hk : k ≤ p.length)
    (hp : ∀ x ∈ p, x ≥ b) :
    ∀ y : List Int, ∀ x ∈ (sortDesc (p ++ y)).take k, x ≥ b := by
  intro y
  induction y with
  | nil =>
    intro x hx
    have hx' := List.mem_of_mem_take hx
    rw [List.append_nil] at hx'
    exact hp x ((sortDesc_perm p).mem_iff.mp hx')
  | cons c y ih =>
    have hperm : (p ++ c :: y).Perm (c :: (p ++ y)) := List.perm_middle
    rw [sortDesc_eq_of_perm hperm, sortDesc_cons]
    exact take_orderedInsert_ge b c (sortDesc (p ++ y)) k
      (by rw [sortDesc_length, List.length_append]; omega) ih

/-- The `k` latest of two lists together are the `k` latest of the `k` latest of
the first together with the second. -/
theorem take_sortDesc_append (k : Nat) (x y : List Int) :
    (sortDesc (x ++ y)).take k = (sortDesc ((sortDesc x).take k ++ y)).take k := by
  have hsplit : (x ++ y).Perm ((sortDesc x).drop k ++ ((sortDesc x).take k ++ y)) := by
    have h1 : x.Perm ((sortDesc x).drop k ++ (sortDesc x).take k) := by
      have h2 : ((sortDesc x).take k ++ (sortDesc x).drop k).Perm x := by
        rw [List.take_append_drop]; exact sortDesc_perm x
      exact h2.symm.trans List.perm_append_comm
    rw [← List.append_assoc]
    exact h1.append_right y
  rw [sortDesc_eq_of_perm hsplit]
  by_cases hlen : (sortDesc x).length ≤ k
  · rw [List.drop_eq_nil_of_le hlen, List.nil_append]
  · have hlen' : k ≤ (sortDesc x).length := by omega
    have htake : ((sortDesc x).take k).length = k := by
      rw [List.length_take]; omega
    apply take_sortDesc_append_small k _ (by rw [List.length_append, htake]; omega)
    intro b hb
    apply take_sortDesc_ge k b ((sortDesc x).take k) (by rw [htake])
    intro z hz
    have hs : List.Sorted (fun a b => a ≥ b) ((sortDesc x).take k ++ (sortDesc x).drop k) := by
      rw [List.take_append_drop]; exact sortDesc_sorted x
    exact (List.pairwise_append.mp hs).2.2 z hz b hb

/-- Merging the `k` latest of each of three categories and keeping the `k`
latest gives the `k` latest of all rows. -/
theorem take_sortDesc_three (k : Nat) (a b c : List Int) :
    (sortDesc ((sortDesc a).take k ++ (sortDesc b).take k ++ (sortDesc c).take k)).take k
      = (sortDesc (a ++ b ++ c)).take k := by
  symm
  calc (sortDesc (a ++ b ++ c)).take k
      = (sortDesc (a ++ (b ++ c))).take k := by rw [List.append_assoc]
    _ = (sortDesc ((sortDesc a).take k ++ (b ++ c))).take k := take_sortDesc_append k a _
    _ = (sortDesc (b ++ (c ++ (sortDesc a).take k))).take k := by
        rw [← List.append_assoc b c]
        exact congrArg (List.take k) (sortDesc_eq_of_perm List.perm_append_comm)
    _ = (sortDesc ((sortDesc b).take k ++ (c ++ (sortDesc a).take k))).take k :=
        take_sortDesc_append k b _
    _ = (sortDesc (c ++ ((sortDesc a).take k ++ (sortDesc b).take k))).take k := by
        rw [← List.append_assoc c]
        exact congrArg (List.take k) (sortDesc_eq_of_perm List.perm_append_comm)
    _ = (sortDesc ((sortDesc c).take k ++ ((sortDesc a).take k ++ (sortDesc b).take k))).take k :=
        take_sortDesc_append k c _
    _ = (sortDesc ((sortDesc a).take k ++ (sortDesc b).take k ++ (sortDesc c).take k)).take k :=
        congrArg (List.take k) (sortDesc_eq_of_perm List.perm_append_comm)

/-- The times of the sorted rows are the sorted times. -/
theorem timesOf_sortByTimeDesc (xs : List Activity) :
    timesOf (sortByTimeDesc xs) = sortDesc (timesOf xs) := by
  unfold timesOf sortByTimeDesc sortDesc
  exact List.map_insertionSort (fun a b : Activity => a.activity_time ≥ b.activity_time)
    (fun a b : Int => a ≥ b) (fun a => a.activity_time) xs (fun _ _ _ _ => Iff.rfl)

theorem sliceTo_of_toNumber {α : Type} (xs : List α) (limit : JSVal) (k : Nat)
    (hk : limit.toNumber = some (k : Int)) : sliceTo xs limit = xs.take k := by
  unfold sliceTo
  rw [hk]
  simp

/-- C24: for type all and a numeric limit k, when each of the three category
queries returns the k latest rows of its category, latest first, the feed
handler returns activities whose times are in non-increasing order, at most k
in number, and exactly the first k entries of the descending-sorted list of all
activity times of the three categories. -/
theorem recent_all_is_global_top_k (db : RecentQuery → QueryResult Activity)
    (errors : List String) (user : Option User) (limitParam typeParam : Option String)
    (k : Nat) (rr rs rc : List Activity) (ta tb tc : List Int)
    (htype : typeParam.getD "all" = "all")
    (hk : (recentLimit limitParam).toNumber = some (k : Int))
    (hr : db (RecentQuery.reports (recentLimit limitParam)) = QueryResult.rows rr)
    (hs : db (RecentQuery.resolutions (recentLimit limitParam)) = QueryResult.rows rs)
    (hc : db (RecentQuery.comments (recentLimit limitParam) (hasGovernmentAccess user))
      = QueryResult.rows rc)
    (hrt : timesOf rr = (sortDesc ta).take k)
    (hst : timesOf rs = (sortDesc tb).take k)
    (hct : timesOf rc = (sortDesc tc).take k) :
    ∃ acts, (recent db errors user limitParam typeParam).2 = RecentReply.ok acts "all"
      ∧ List.Sorted (fun a b => a ≥ b) (timesOf acts)
      ∧ acts.length ≤ k
      ∧ timesOf acts = (sortDesc (ta ++ tb ++ tc)).take k := by
  have hrun : (recent db errors user limitParam typeParam).2
      = RecentReply.ok (sliceTo (sortByTimeDesc (rr ++ rs ++ rc)) (recentLimit limitParam))
          "all" := by
    simp [recent, htype, recentStep, hr, hs, hc]
  have htimes : timesOf (sliceTo (sortByTimeDesc (rr ++ rs ++ rc)) (recentLimit limitParam))
      = (sortDesc (ta ++ tb ++ tc)).take k := by
    rw [sliceTo_of_toNumber _ _ k hk]
    have h1 : timesOf ((sortByTimeDesc (rr ++ rs ++ rc)).take k)
        = (timesOf (sortByTimeDesc (rr ++ rs ++ rc))).take k := by
      unfold timesOf; rw [List.map_take]
    have h2 : timesOf (rr ++ rs ++ rc) = timesOf rr ++ timesOf rs ++ timesOf rc := by
      unfold timesOf; simp
    rw [h1, timesOf_sortByTimeDesc, h2, hrt, hst, hct]
    exact take_sortDesc_three k ta tb tc
  refine ⟨_, hrun, ?_, ?_, htimes⟩
  · rw [htimes]
    exact (sortDesc_sorted _).sublist (List.take_sublist _ _)
  · rw [sliceTo_of_toNumber _ _ k hk]
    rw [List.length_take]
    exact Nat.min_le_left _ _

/-- C24 at the default limit 20 and the sample rows of the three categories. -/
theorem recent_all_is_global_top_k_witness :
    ∃ acts, (recent (topTwentyDb sampleReportsFeed sampleResolutionsFeed sampleCommentsFeed)
        [] Option.none Option.none Option.none).2 = RecentReply.ok acts "all"
      ∧ List.Sorted (fun a b => a ≥ b) (timesOf acts)
      ∧ acts.length ≤ 20
      ∧ timesOf acts
        = (sortDesc (timesOf sampleReportsFeed ++ timesOf sampleResolutionsFeed
            ++ timesOf sampleCommentsFeed)).take 20 :=
  recent_all_is_global_top_k
    (topTwentyDb sampleReportsFeed sampleResolutionsFeed sampleCommentsFeed) []
    Option.none Option.none Option.none 20
    ((sortByTimeDesc sampleReportsFeed).take 20) ((sortByTimeDesc sampleResolutionsFeed).take 20)
    ((sortByTimeDesc sampleCommentsFeed).take 20)
    (timesOf sampleReportsFeed) (timesOf sampleResolutionsFeed) (timesOf sampleCommentsFeed)
    rfl rfl rfl rfl rfl (by decide) (by decide) (by decide)

/-! ## Theorems: placeholders in a text -/

theorem toList_append (a b : String) : (a ++ b).toList = a.toList ++ b.toList := by
  cases a; cases b; rfl

theorem startsWithDigit_append (a b : List Char) (ha : startsWithDigit a = false)
    (hb : startsWithDigit b = false) : startsWithDigit (a ++ b) = false := by
  cases a with
  | nil => simpa using hb
  | cons c cs => simpa [startsWithDigit] using ha

theorem leadingDigits_of_no_digit (b : List Char) (hb : startsWithDigit b = false) :
    leadingDigits b = [] := by
  cases b with
  | nil => rfl
  | cons c cs =>
    have : c.isDigit = false := hb
    simp [leadingDigits, this]

theorem leadingDigits_cons (c : Char) (cs : List Char) :
    leadingDigits (c :: cs) = if c.isDigit then c :: leadingDigits cs else [] := rfl

theorem scanPlaceholders_cons (c : Char) (cs : List Char) :
    scanPlaceholders (c :: cs)
      = if c = '$' then
          match leadingDigits cs with
          | [] => scanPlaceholders cs
          | d :: ds => digitsValue (d :: ds) :: scanPlaceholders cs
        else scanPlaceholders cs := rfl

theorem leadingDigits_append (a b : List Char) (hb : startsWithDigit b = false) :
    leadingDigits (a ++ b) = leadingDigits a := by
  induction a with
  | nil => simpa [leadingDigits] using leadingDigits_of_no_digit b hb
  | cons c cs ih =>
    rw [List.cons_append, leadingDigits_cons, leadingDigits_cons, ih]

theorem leadingDigits_all (a b : List Char) (ha : ∀ c ∈ a, c.isDigit = true)
    (hb : startsWithDigit b = false) : leadingDigits (a ++ b) = a := by
  induction a with
  | nil => simpa using leadingDigits_of_no_digit b hb
  | cons c cs ih =>
    have hc := ha c (List.mem_cons_self _ _)
    rw [List.cons_append, leadingDigits_cons, if_pos hc,
      ih (fun d hd => ha d (List.mem_cons_of_mem _ hd))]

/-- Scanning a text in two parts: the placeholders of the parts, when the second
part does not start with a digit. -/
theorem scanPlaceholders_append (a b : List Char) (hb : startsWithDigit b = false) :
    scanPlaceholders (a ++ b) = scanPlaceholders a ++ scanPlaceholders b := by
  induction a with
  | nil => rfl
  | cons c cs ih =>
    rw [List.cons_append, scanPlaceholders_cons, scanPlaceholders_cons,
      leadingDigits_append cs b hb, ih]
    split_ifs
    · split <;> simp
    · rfl

theorem scanPlaceholders_of_no_dollar (a : List Char) (h : '$' ∉ a) :
    scanPlaceholders a = [] := by
  induction a with
  | nil => rfl
  | cons c cs ih =>
    have hc : c ≠ '$' := fun e => h (e ▸ List.mem_cons_self _ _)
    rw [scanPlaceholders_cons, if_neg hc]
    exact ih (fun hm => h (List.mem_cons_of_mem _ hm))

/-! ### The decimal text of a number -/

theorem digitChar_isDigit (m : Nat) (h : m < 10) : (Nat.digitChar m).isDigit = true := by
  interval_cases m <;> decide

theorem digitChar_value (m : Nat) (h : m < 10) : (Nat.digitChar m).toNat - 48 = m := by
  interval_cases m <;> decide

theorem digitChar_ne_dollar (m : Nat) (h : m < 10) : Nat.digitChar m ≠ '$' := by
  interval_cases m <;> decide

theorem toDigitsCore_append (fuel : Nat) :
    ∀ (n : Nat) (ds : List Char),
      Nat.toDigitsCore 10 fuel n ds = Nat.toDigitsCore 10 fuel n [] ++ ds := by
  induction fuel with
  | zero => intro n ds; simp [Nat.toDigitsCore]
  | succ fuel ih =>
    intro n ds
    simp only [Nat.toDigitsCore]
    split_ifs
    · simp
    · rw [ih (n / 10) (Nat.digitChar (n % 10) :: ds), ih (n / 10) [Nat.digitChar (n % 10)]]
      simp

theorem digitsValue_append_one (xs : List Char) (d : Char) :
    digitsValue (xs ++ [d]) = 10 * digitsValue xs + (d.toNat - 48) := by
  simp [digitsValue, List.foldl_append]

theorem toDigitsCore_props (fuel : Nat) :
    ∀ n : Nat, n < fuel →
      digitsValue (Nat.toDigitsCore 10 fuel n []) = n
        ∧ (∀ c ∈ Nat.toDigitsCore 10 fuel n [], c.isDigit = true ∧ c ≠ '$')
        ∧ Nat.toDigitsCore 10 fuel n [] ≠ [] := by
  induction fuel with
  | zero => intro n h; omega
  | succ fuel ih =>
    intro n hn
    have hmod : n % 10 < 10 := Nat.mod_lt _ (by omega)
    simp only [Nat.toDigitsCore]
    split_ifs with h0
    · refine ⟨?_, ?_, by simp⟩
      · have : n < 10 := by omega
        simp [digitsValue, digitChar_value _ hmod]
        omega
      · intro c hc
        simp at hc
        subst hc
        exact ⟨digitChar_isDigit _ hmod, digitChar_ne_dollar _ hmod⟩
    · have hlt : n / 10 < fuel := by omega
      obtain ⟨hv, hall, hne⟩ := ih (n / 10) hlt
      rw [toDigitsCore_append fuel (n / 10) [Nat.digitChar (n % 10)]]
      refine ⟨?_, ?_, by simp [hne]⟩
      · rw [digitsValue_append_one, hv, digitChar_value _ hmod]
        omega
      · intro c hc
        rw [List.mem_append] at hc
        rcases hc with hc | hc
        · exact hall c hc
        · simp at hc
          subst hc
          exact ⟨digitChar_isDigit _ hmod, digitChar_ne_dollar _ hmod⟩

theorem toString_toList (k : Nat) : (toString k).toList = Nat.toDigits 10 k := rfl

/-- The decimal text of a number consists of digits and writes that number. -/
theorem decimal_text (k : Nat) :
    digitsValue (toString k).toList = k
      ∧ (∀ c ∈ (toString k).toList, c.isDigit = true ∧ c ≠ '$')
      ∧ (toString k).toList ≠ [] := by
  rw [toString_toList]
  exact toDigitsCore_props (k + 1) k (by omega)

/-- Scanning a placeholder: a dollar sign and the decimal text of `k`, followed
by a text that does not start with a digit. -/
theorem scanPlaceholders_dollar (k : Nat) (rest : List Char)
    (hrest : startsWithDigit rest = false) :
    scanPlaceholders ('$' :: ((toString k).toList ++ rest)) = k :: scanPlaceholders rest := by
  obtain ⟨hv, hall, hne⟩ := decimal_text k
  have hlead : leadingDigits ((toString k).toList ++ rest) = (toString k).toList :=
    leadingDigits_all _ _ (fun c hc => (hall c hc).1) hrest
  have hscan : scanPlaceholders ((toString k).toList ++ rest) = scanPlaceholders rest := by
    rw [scanPlaceholders_append _ _ hrest,
      scanPlaceholders_of_no_dollar _ (fun hm => (hall _ hm).2 rfl)]
    rfl
  rw [scanPlaceholders_cons, if_pos rfl, hlead, hscan]
  cases hd : (toString k).toList with
  | nil => exact absurd hd hne
  | cons d ds =>
    simp only
    rw [← hd, hv]

/-- The placeholders of two texts put together, when the second does not start
with a digit. -/
theorem placeholdersIn_append (a b : String) (hb : startsWithDigit b.toList = false) :
    placeholdersIn (a ++ b) = placeholdersIn a ++ placeholdersIn b := by
  unfold placeholdersIn
  rw [toList_append, scanPlaceholders_append _ _ hb]

/-- A text that ends with its only dollar sign, followed by the decimal text of
`k`, holds the placeholder `$k` and no other. -/
theorem placeholdersIn_param (x : String) (p : List Char) (hx : x.toList = p ++ ['$'])
    (hp : '$' ∉ p) (k : Nat) : placeholdersIn (x ++ toString k) = [k] := by
  unfold placeholdersIn
  have hd : startsWithDigit ('$' :: (toString k).toList) = false := by
    show Char.isDigit '$' = false
    decide
  have := scanPlaceholders_dollar k [] rfl
  rw [List.append_nil] at this
  rw [toList_append, hx, List.append_assoc, List.singleton_append,
    scanPlaceholders_append _ _ hd, scanPlaceholders_of_no_dollar p hp, this]
  rfl

theorem startsWithDigit_toList_append (a b : String) (ha : startsWithDigit a.toList = false)
    (hb : startsWithDigit b.toList = false) : startsWithDigit (a ++ b).toList = false := by
  rw [toList_append]
  exact startsWithDigit_append _ _ ha hb

/-! ## Theorems: numbering of placeholders -/

theorem col_sql_clean (c : Col) :
    startsWithDigit c.sql.toList = false ∧ '$' ∉ c.sql.toList ∧ c.sql.toList ≠ [] := by
  cases c <;> decide

theorem startsWithDigit_col_append (c : Col) (rest : String) :
    startsWithDigit (c.sql ++ rest).toList = false := by
  rw [toList_append]
  obtain ⟨h1, _, h3⟩ := col_sql_clean c
  cases h : c.sql.toList with
  | nil => exact absurd h h3
  | cons d ds =>
    rw [h] at h1
    exact h1

theorem atom_sql_head (a : Atom) : startsWithDigit a.sql.toList = false := by
  cases a with
  | eqLit c lit =>
    show startsWithDigit (c.sql ++ " = \x27" ++ lit ++ "\x27").toList = false
    rw [String.append_assoc, String.append_assoc]
    exact startsWithDigit_col_append c _
  | eqParam c k =>
    show startsWithDigit (c.sql ++ " = $" ++ toString k).toList = false
    rw [String.append_assoc]
    exact startsWithDigit_col_append c _
  | ilikeParam c k =>
    show startsWithDigit (c.sql ++ " ILIKE $" ++ toString k).toList = false
    rw [String.append_assoc]
    exact startsWithDigit_col_append c _

theorem placeholdersIn_eqParam (c : Col) (k : Nat) :
    placeholdersIn (Atom.eqParam c k).sql = [k] := by
  show placeholdersIn (c.sql ++ " = $" ++ toString k) = [k]
  apply placeholdersIn_param _ (c.sql.toList ++ [' ', '=', ' '])
  · rw [toList_append, List.append_assoc]; rfl
  · intro h
    rw [List.mem_append] at h
    rcases h with h | h
    · exact (col_sql_clean c).2.1 h
    · revert h; decide

theorem placeholdersIn_ilikeParam (c : Col) (k : Nat) :
    placeholdersIn (Atom.ilikeParam c k).sql = [k] := by
  show placeholdersIn (c.sql ++ " ILIKE $" ++ toString k) = [k]
  apply placeholdersIn_param _ (c.sql.toList ++ [' ', 'I', 'L', 'I', 'K', 'E', ' '])
  · rw [toList_append, List.append_assoc]; rfl
  · intro h
    rw [List.mem_append] at h
    rcases h with h | h
    · exact (col_sql_clean c).2.1 h
    · revert h; decide

theorem placeholdersIn_eqLit (c : Col) (lit : String) (hlit : '$' ∉ lit.toList) :
    placeholdersIn (Atom.eqLit c lit).sql = [] := by
  show placeholdersIn (c.sql ++ " = \x27" ++ lit ++ "\x27") = []
  unfold placeholdersIn
  apply scanPlaceholders_of_no_dollar
  simp only [toList_append, List.mem_append, not_or]
  exact ⟨⟨⟨(col_sql_clean c).2.1, by decide⟩, hlit⟩, by decide⟩

theorem conjunct_sql_head (c : Conjunct) : startsWithDigit c.sql.toList = false := by
  match c with
  | [] => decide
  | [a] => exact atom_sql_head a
  | a :: b :: rest =>
    show startsWithDigit ("(" ++ " OR ".intercalate ((a :: b :: rest).map Atom.sql) ++ ")").toList
      = false
    rw [String.append_assoc, toList_append]
    rfl

theorem placeholdersIn_or2 (a b : Atom) :
    placeholdersIn (Conjunct.sql [a, b]) = placeholdersIn a.sql ++ placeholdersIn b.sql := by
  show placeholdersIn ("(" ++ (a.sql ++ " OR " ++ b.sql) ++ ")") = _
  rw [placeholdersIn_append _ _ (by decide),
    placeholdersIn_append _ _
      (startsWithDigit_toList_append _ _
        (startsWithDigit_toList_append _ _ (atom_sql_head a) (by decide)) (atom_sql_head b)),
    placeholdersIn_append _ _ (atom_sql_head b), placeholdersIn_append _ _ (by decide)]
  have h1 : placeholdersIn "(" = [] := by decide
  have h2 : placeholdersIn " OR " = [] := by decide
  have h3 : placeholdersIn ")" = [] := by decide
  rw [h1, h2, h3]
  simp

theorem placeholdersIn_or3 (a b c : Atom) :
    placeholdersIn (Conjunct.sql [a, b, c])
      = placeholdersIn a.sql ++ placeholdersIn b.sql ++ placeholdersIn c.sql := by
  show placeholdersIn ("(" ++ (a.sql ++ " OR " ++ b.sql ++ " OR " ++ c.sql) ++ ")") = _
  have hab : startsWithDigit (a.sql ++ " OR " ++ b.sql).toList = false :=
    startsWithDigit_toList_append _ _
      (startsWithDigit_toList_append _ _ (atom_sql_head a) (by decide)) (atom_sql_head b)
  rw [placeholdersIn_append _ _ (by decide),
    placeholdersIn_append _ _
      (startsWithDigit_toList_append _ _
        (startsWithDigit_toList_append _ _ hab (by decide)) (atom_sql_head c)),
    placeholdersIn_append _ _ (atom_sql_head c), placeholdersIn_append _ _ (by decide),
    placeholdersIn_append _ _ (atom_sql_head b), placeholdersIn_append _ _ (by decide)]
  have h1 : placeholdersIn "(" = [] := by decide
  have h2 : placeholdersIn " OR " = [] := by decide
  have h3 : placeholdersIn ")" = [] := by decide
  rw [h1, h2, h3]
  simp

theorem usesOnly_eq (c : Col) : UsesOnly (fun n => [Atom.eqParam c n]) := by
  intro n k
  show k ∈ placeholdersIn (Atom.eqParam c n).sql ↔ k = n
  rw [placeholdersIn_eqParam]; simp

theorem usesOnly_ilike (c : Col) : UsesOnly (fun n => [Atom.ilikeParam c n]) := by
  intro n k
  show k ∈ placeholdersIn (Atom.ilikeParam c n).sql ↔ k = n
  rw [placeholdersIn_ilikeParam]; simp

theorem usesOnly_school : UsesOnly
    (fun n => [Atom.eqParam Col.school_id n, Atom.eqLit Col.visibility "public"]) := by
  intro n k
  show k ∈ placeholdersIn
    (Conjunct.sql [Atom.eqParam Col.school_id n, Atom.eqLit Col.visibility "public"]) ↔ k = n
  rw [placeholdersIn_or2, placeholdersIn_eqParam, placeholdersIn_eqLit _ _ (by decide)]
  simp

theorem usesOnly_search : UsesOnly
    (fun n => [Atom.ilikeParam Col.title n, Atom.ilikeParam Col.description n,
      Atom.ilikeParam Col.school_name n]) := by
  intro n k
  show k ∈ placeholdersIn
    (Conjunct.sql [Atom.ilikeParam Col.title n, Atom.ilikeParam Col.description n,
      Atom.ilikeParam Col.school_name n]) ↔ k = n
  rw [placeholdersIn_or3, placeholdersIn_ilikeParam, placeholdersIn_ilikeParam,
    placeholdersIn_ilikeParam]
  simp

/-- The text of a clause with one more conjunct. -/
theorem whereClause_snoc (cs : List Conjunct) (c : Conjunct) (ps : List JSVal) (n : Nat) :
    WhereState.whereClause { conds := cs ++ [c], queryParams := ps, paramCount := n }
      = WhereState.whereClause { conds := cs, queryParams := ps, paramCount := n }
        ++ " AND " ++ c.sql := by
  simp [WhereState.whereClause, List.foldl_append]

theorem placeholdersIn_and (w : String) (c : Conjunct) :
    placeholdersIn (w ++ " AND " ++ c.sql) = placeholdersIn w ++ placeholdersIn c.sql := by
  rw [placeholdersIn_append _ _ (conjunct_sql_head c), placeholdersIn_append _ _ (by decide)]
  have h : placeholdersIn " AND " = [] := by decide
  rw [h]
  simp

theorem WhereState.numbered_addLit (st : WhereState) (c : Conjunct)
    (hc : placeholdersIn c.sql = []) (h : st.Numbered) : (st.addLit c).Numbered := by
  obtain ⟨h1, h2⟩ := h
  refine ⟨h1, ?_⟩
  intro k
  show k ∈ placeholdersIn (WhereState.whereClause
    { conds := st.conds ++ [c], queryParams := st.queryParams, paramCount := st.paramCount })
      ↔ _
  rw [whereClause_snoc, placeholdersIn_and, hc, List.append_nil]
  exact h2 k

theorem WhereState.numbered_addParam (st : WhereState) (mk : Nat → Conjunct) (v : JSVal)
    (hmk : UsesOnly mk) (h : st.Numbered) : (st.addParam mk v).Numbered := by
  obtain ⟨h1, h2⟩ := h
  refine ⟨by simp [WhereState.addParam, h1], ?_⟩
  intro k
  show k ∈ placeholdersIn (WhereState.whereClause
    { conds := st.conds ++ [mk st.paramCount], queryParams := st.queryParams ++ [v],
      paramCount := st.paramCount + 1 }) ↔ 1 ≤ k ∧ k ≤ (st.queryParams ++ [v]).length
  rw [whereClause_snoc, placeholdersIn_and, List.mem_append, hmk st.paramCount k]
  have h2k : k ∈ placeholdersIn (WhereState.whereClause
      { conds := st.conds, queryParams := st.queryParams ++ [v],
        paramCount := st.paramCount + 1 }) ↔ 1 ≤ k ∧ k ≤ st.queryParams.length := h2 k
  rw [h2k, List.length_append, List.length_singleton, h1]
  omega

theorem WhereState.numbered_filter (st : WhereState) (x : Option String) (mk : Nat → Conjunct)
    (val : String → String) (hmk : UsesOnly mk) (h : st.Numbered) :
    (st.filter x mk val).Numbered := by
  unfold WhereState.filter
  cases x with
  | none => exact h
  | some s =>
    dsimp only
    split_ifs
    · exact WhereState.numbered_addParam st mk _ hmk h
    · exact h

theorem visibilityFilters_numbered (user : Option User) : (visibilityFilters user).Numbered := by
  have h0 : WhereState.Numbered { conds := [], queryParams := [], paramCount := 1 } := by
    refine ⟨rfl, ?_⟩
    intro k
    have : placeholdersIn (WhereState.whereClause
        { conds := [], queryParams := [], paramCount := 1 }) = [] := by decide
    rw [this]
    simp
    omega
  have hlit : placeholdersIn (Conjunct.sql
      [Atom.eqLit Col.visibility "public", Atom.eqLit Col.visibility "government"]) = [] := by
    decide
  unfold visibilityFilters
  cases user with
  | none => exact WhereState.numbered_addLit _ _ hlit h0
  | some u =>
    dsimp only
    split_ifs
    all_goals
      first
        | exact WhereState.numbered_addParam _ _ _ usesOnly_school
            (WhereState.numbered_addLit _ _ hlit h0)
        | exact WhereState.numbered_addLit _ _ hlit h0

theorem buildWhere_numbered (user : Option User) (q : ListQuery) :
    (buildWhere user q).Numbered := by
  unfold buildWhere optionalFilters
  dsimp only
  exact WhereState.numbered_filter _ _ _ _ usesOnly_search
    (WhereState.numbered_filter _ _ _ _ (usesOnly_eq _)
      (WhereState.numbered_filter _ _ _ _ (usesOnly_ilike _)
        (WhereState.numbered_filter _ _ _ _ (usesOnly_eq _)
          (WhereState.numbered_filter _ _ _ _ (usesOnly_eq _)
            (WhereState.numbered_filter _ _ _ _ (usesOnly_eq _)
              (visibilityFilters_numbered user))))))

theorem WhereState.guards_filter (st : WhereState) (mk : Nat → Conjunct)
    (val : String → String) (s : String) (hs : s ≠ "")
    (hcount : st.paramCount = st.queryParams.length + 1) :
    (st.filter (some s) mk val).Guards mk (JSVal.str (val s)) := by
  have ht : (JSVal.str s).truthy = true := by simp [JSVal.truthy, hs]
  refine ⟨st.paramCount, by omega, ?_, ?_, ?_⟩
  · simp [WhereState.filter, ht, WhereState.addParam, hcount]
  · simp [WhereState.filter, ht, WhereState.addParam]
  · simp [WhereState.filter, ht, WhereState.addParam, hcount]

theorem WhereState.Guards.of_extends {st st2 : WhereState} {mk : Nat → Conjunct} {v : JSVal}
    (h : st.Guards mk v) (hext : st.Extends st2) : st2.Guards mk v := by
  obtain ⟨k, h1, h2, h3, h4⟩ := h
  obtain ⟨cs, ps, hc, hp⟩ := hext
  refine ⟨k, h1, ?_, ?_, ?_⟩
  · rw [hp, List.length_append]; omega
  · rw [hc]; exact List.mem_append_left _ h3
  · rw [hp, List.getElem?_append_left (by omega)]
    exact h4

/-- The text that a list of conjuncts adds to a clause. -/
theorem foldl_and_text (l : List Conjunct) :
    ∀ text : String,
      l.foldl (fun text c => text ++ " AND " ++ c.sql) text
        = text ++ l.foldl (fun text c => text ++ " AND " ++ c.sql) "" := by
  induction l with
  | nil => intro text; simp
  | cons c rest ih =>
    intro text
    simp only [List.foldl_cons]
    rw [ih (text ++ " AND " ++ c.sql), ih ("" ++ " AND " ++ c.sql)]
    simp [String.append_assoc]

/-- A conjunct of the clause stands in its text behind an AND and before the
end or the next AND. -/
theorem WhereState.hasCondition_of_mem (st : WhereState) (c : Conjunct) (h : c ∈ st.conds) :
    HasCondition st.whereClause c.sql := by
  obtain ⟨l1, l2, hl⟩ := List.append_of_mem h
  refine ⟨l1.foldl (fun text c => text ++ " AND " ++ c.sql) "1 = 1",
    l2.foldl (fun text c => text ++ " AND " ++ c.sql) "", ?_, ?_⟩
  · unfold WhereState.whereClause
    rw [hl, List.foldl_append, List.foldl_cons, foldl_and_text l2]
  · cases l2 with
    | nil => exact Or.inl rfl
    | cons c2 rest =>
      right
      refine ⟨c2.sql ++ rest.foldl (fun text c => text ++ " AND " ++ c.sql) "", ?_⟩
      simp only [List.foldl_cons]
      rw [foldl_and_text rest]
      simp [String.append_assoc]

/-- From the conjunct to its text: a guarded condition of the clause is guarded
in the text of the clause. -/
theorem WhereState.Guards.guardedBy {st : WhereState} {mk : Nat → Conjunct} {v : JSVal}
    (h : st.Guards mk v) (condition : Nat → String)
    (hc : ∀ k, Conjunct.sql (mk k) = condition k) :
    GuardedBy st.whereClause st.queryParams condition v := by
  obtain ⟨k, h1, h2, h3, h4⟩ := h
  exact ⟨k, h1, h2, h4, hc k ▸ WhereState.hasCondition_of_mem st (mk k) h3⟩

theorem sql_eqParam (c : Col) (k : Nat) :
    Conjunct.sql [Atom.eqParam c k] = c.sql ++ " = $" ++ toString k := rfl

theorem sql_lga (k : Nat) :
    Conjunct.sql [Atom.ilikeParam Col.lga k] = "s.lga ILIKE $" ++ toString k := rfl

theorem sql_search (k : Nat) :
    Conjunct.sql [Atom.ilikeParam Col.title k, Atom.ilikeParam Col.description k,
        Atom.ilikeParam Col.school_name k]
      = "(r.title ILIKE $" ++ toString k ++ " OR r.description ILIKE $" ++ toString k
          ++ " OR s.name ILIKE $" ++ toString k ++ ")" := by
  show "(" ++ (("r.title" ++ " ILIKE $" ++ toString k ++ " OR "
      ++ ("r.description" ++ " ILIKE $" ++ toString k)) ++ " OR "
      ++ ("s.name" ++ " ILIKE $" ++ toString k)) ++ ")" = _
  simp only [String.append_assoc]
  rfl

theorem sql_school (k : Nat) :
    Conjunct.sql [Atom.eqParam Col.school_id k, Atom.eqLit Col.visibility "public"]
      = "(r.school_id = $" ++ toString k ++ " OR r.visibility = \x27public\x27)" := by
  show "(" ++ ("r.school_id" ++ " = $" ++ toString k ++ " OR "
      ++ ("r.visibility" ++ " = \x27" ++ "public" ++ "\x27")) ++ ")" = _
  simp only [String.append_assoc]
  rfl

/-- The placeholders of the end of the list query. -/
theorem placeholdersIn_tail (n : Nat) :
    placeholdersIn (" LIMIT $" ++ toString n ++ " OFFSET $" ++ toString (n + 1))
      = [n, n + 1] := by
  rw [String.append_assoc, placeholdersIn_append _ _ (by rw [toList_append]; rfl),
    placeholdersIn_param " LIMIT $" [' ', 'L', 'I', 'M', 'I', 'T', ' '] rfl (by decide),
    placeholdersIn_param " OFFSET $" [' ', 'O', 'F', 'F', 'S', 'E', 'T', ' '] rfl (by decide)]
  rfl

theorem UpdateState.extends_refl (st : UpdateState) : st.Extends st :=
  ⟨[], [], by simp, by simp⟩

theorem UpdateState.extends_trans {a b c : UpdateState} (h1 : a.Extends b)
    (h2 : b.Extends c) : a.Extends c := by
  obtain ⟨f1, v1, hf1, hv1⟩ := h1
  obtain ⟨f2, v2, hf2, hv2⟩ := h2
  exact ⟨f1 ++ f2, v1 ++ v2, by rw [hf2, hf1, List.append_assoc],
    by rw [hv2, hv1, List.append_assoc]⟩

theorem UpdateState.extends_set (st : UpdateState) (col : String) (v : JSVal) :
    st.Extends (st.set col v) :=
  ⟨_, [v], rfl, rfl⟩

theorem UpdateState.extends_setRaw (st : UpdateState) (text : String) :
    st.Extends (st.setRaw text) :=
  ⟨[text], [], rfl, by simp [UpdateState.setRaw]⟩

theorem UpdateState.extends_ite (st : UpdateState) (c : Prop) [Decidable c] (col : String)
    (v : JSVal) : st.Extends (if c then st.set col v else st) := by
  split_ifs
  · exact UpdateState.extends_set st col v
  · exact UpdateState.extends_refl st

theorem UpdateState.binds_of_extends {st st2 : UpdateState} {col : String} {v : JSVal}
    (h : st.Binds col v) (hext : st.Extends st2) : st2.Binds col v := by
  obtain ⟨k, h1, h2, h3, h4⟩ := h
  obtain ⟨fs, vs, hf, hv⟩ := hext
  refine ⟨k, h1, ?_, ?_, ?_⟩
  · rw [hv, List.length_append]; omega
  · rw [hf]; exact List.mem_append_left _ h3
  · rw [hv, List.getElem?_append_left (by omega)]
    exact h4

theorem UpdateState.binds_set (st : UpdateState) (col : String) (v : JSVal)
    (hcount : st.paramCount = st.updateValues.length + 1) : (st.set col v).Binds col v := by
  refine ⟨st.paramCount, by omega, ?_, ?_, ?_⟩
  · simp [UpdateState.set, hcount]
  · simp [UpdateState.set]
  · simp [UpdateState.set, hcount]

theorem placeholdersIn_set_item (col : String) (n : Nat) (hcol : '$' ∉ col.toList) :
    placeholdersIn (col ++ " = $" ++ toString n) = [n] := by
  apply placeholdersIn_param _ (col.toList ++ [' ', '=', ' '])
  · rw [toList_append, List.append_assoc]; rfl
  · intro h
    rw [List.mem_append] at h
    rcases h with h | h
    · exact hcol h
    · revert h; decide

theorem UpdateState.numbered_set (st : UpdateState) (col : String) (v : JSVal)
    (hcol : '$' ∉ col.toList) (hhead : startsWithDigit col.toList = false)
    (h : st.Numbered) : (st.set col v).Numbered := by
  obtain ⟨h1, h2, h3⟩ := h
  refine ⟨by simp [UpdateState.set, h1], ?_, ?_⟩
  · show (st.updateFields ++ [col ++ " = $" ++ toString st.paramCount]).flatMap placeholdersIn
      = List.range' 1 (st.updateValues ++ [v]).length
    rw [List.flatMap_append, h2, List.length_append, List.length_singleton,
      List.range'_concat, h1]
    simp [placeholdersIn_set_item col _ hcol, Nat.add_comm]
  · intro f hf
    simp only [UpdateState.set, List.mem_append, List.mem_singleton] at hf
    rcases hf with hf | rfl
    · exact h3 f hf
    · rw [String.append_assoc]
      exact startsWithDigit_toList_append _ _ hhead (by rw [toList_append]; rfl)

theorem UpdateState.numbered_setRaw (st : UpdateState) (text : String)
    (htext : placeholdersIn text = []) (hhead : startsWithDigit text.toList = false)
    (h : st.Numbered) : (st.setRaw text).Numbered := by
  obtain ⟨h1, h2, h3⟩ := h
  refine ⟨h1, ?_, ?_⟩
  · show (st.updateFields ++ [text]).flatMap placeholdersIn = _
    rw [List.flatMap_append, h2]
    simp [htext, UpdateState.setRaw]
  · intro f hf
    simp only [UpdateState.setRaw, List.mem_append, List.mem_singleton] at hf
    rcases hf with hf | rfl
    · exact h3 f hf
    · exact hhead

theorem UpdateState.numbered_ite (st : UpdateState) (c : Prop) [Decidable c] (col : String)
    (v : JSVal) (hcol : '$' ∉ col.toList) (hhead : startsWithDigit col.toList = false)
    (h : st.Numbered) : (if c then st.set col v else st).Numbered := by
  split_ifs
  · exact UpdateState.numbered_set st col v hcol hhead h
  · exact h

/-- The placeholders of texts joined by a separator that holds none. -/
theorem placeholdersIn_intercalate_go (sep : String) (hsep : placeholdersIn sep = [])
    (hhead : startsWithDigit sep.toList = false) (ts : List String) :
    (∀ t ∈ ts, startsWithDigit t.toList = false) →
    ∀ acc : String, startsWithDigit acc.toList = false →
      placeholdersIn (String.intercalate.go acc sep ts)
          = placeholdersIn acc ++ ts.flatMap placeholdersIn
        ∧ startsWithDigit (String.intercalate.go acc sep ts).toList = false := by
  induction ts with
  | nil =>
    intro _ acc hacc
    exact ⟨by simp [String.intercalate.go], hacc⟩
  | cons t rest ih =>
    intro hts acc hacc
    have ht := hts t (List.mem_cons_self _ _)
    have hrest : ∀ t ∈ rest, startsWithDigit t.toList = false :=
      fun t' h' => hts t' (List.mem_cons_of_mem _ h')
    have hnew : startsWithDigit (acc ++ sep ++ t).toList = false :=
      startsWithDigit_toList_append _ _ (startsWithDigit_toList_append _ _ hacc hhead) ht
    obtain ⟨e1, e2⟩ := ih hrest (acc ++ sep ++ t) hnew
    refine ⟨?_, e2⟩
    show placeholdersIn (String.intercalate.go (acc ++ sep ++ t) sep rest) = _
    rw [e1, placeholdersIn_append _ _ ht, placeholdersIn_append _ _ hhead, hsep]
    simp

theorem placeholdersIn_intercalate (sep : String) (hsep : placeholdersIn sep = [])
    (hhead : startsWithDigit sep.toList = false) (ts : List String)
    (hts : ∀ t ∈ ts, startsWithDigit t.toList = false) :
    placeholdersIn (sep.intercalate ts) = ts.flatMap placeholdersIn
      ∧ startsWithDigit (sep.intercalate ts).toList = false := by
  cases ts with
  | nil => exact ⟨rfl, rfl⟩
  | cons t rest =>
    have := placeholdersIn_intercalate_go sep hsep hhead rest
      (fun t' h' => hts t' (List.mem_cons_of_mem _ h')) t (hts t (List.mem_cons_self _ _))
    simpa [String.intercalate] using this

/-- The placeholders of the statement of the report update: those of the SET
items, then the one of WHERE id. -/
theorem placeholdersIn_update (fields : List String) (n : Nat)
    (hfields : ∀ f ∈ fields, startsWithDigit f.toList = false) :
    placeholdersIn ("UPDATE reports SET "
        ++ ", ".intercalate (fields ++ ["updated_at = NOW()"])
        ++ " WHERE id = $" ++ toString n ++ " RETURNING *")
      = fields.flatMap placeholdersIn ++ [n] := by
  have hall : ∀ f ∈ fields ++ ["updated_at = NOW()"], startsWithDigit f.toList = false := by
    intro f hf
    rw [List.mem_append, List.mem_singleton] at hf
    rcases hf with hf | rfl
    · exact hfields f hf
    · decide
  obtain ⟨e1, e2⟩ := placeholdersIn_intercalate ", " (by decide) (by decide) _ hall
  have hw : placeholdersIn (" WHERE id = $" ++ toString n) = [n] :=
    placeholdersIn_param " WHERE id = $"
      [' ', 'W', 'H', 'E', 'R', 'E', ' ', 'i', 'd', ' ', '=', ' '] rfl (by decide) n
  have h0 : placeholdersIn "UPDATE reports SET " = [] := by decide
  have h9 : placeholdersIn " RETURNING *" = [] := by decide
  have hu : placeholdersIn "updated_at = NOW()" = [] := by decide
  rw [placeholdersIn_append _ _ (by decide), String.append_assoc _ " WHERE id = $",
    placeholdersIn_append _ _ (by rw [toList_append]; rfl),
    placeholdersIn_append _ _ e2, e1, hw, h0, h9, List.flatMap_append]
  simp [hu]

theorem buildUpdate_chain (report : JSObj) (user : User) (body : UpdateBody) :
    ∃ s1 s2 s3 s4 : UpdateState,
      s1 = (if body.status ≠ JSVal.undefined then
          (if body.status = JSVal.str "resolved" then
            (((({ updateFields := [], updateValues := [], paramCount := 1 } : UpdateState).set
              "status" body.status).setRaw "resolved_at = NOW()").set "resolved_by"
                user.id.toJS)
          else ({ updateFields := [], updateValues := [], paramCount := 1 } : UpdateState).set
            "status" body.status)
          else { updateFields := [], updateValues := [], paramCount := 1 })
      ∧ s2 = (if body.priority ≠ JSVal.undefined then
          (s1.set "priority" body.priority).set "urgency_score"
            (JSVal.num (recalculateUrgencyScore report body.priority)) else s1)
      ∧ s3 = (if body.resolutionNotes ≠ JSVal.undefined then
          s2.set "resolution_notes" body.resolutionNotes else s2)
      ∧ s4 = (if body.resolutionCost ≠ JSVal.undefined then
          s3.set "resolution_cost" body.resolutionCost else s3)
      ∧ buildUpdate report user body = (if body.fundingSource ≠ JSVal.undefined then
          s4.set "funding_source" body.fundingSource else s4) :=
  ⟨_, _, _, _, rfl, rfl, rfl, rfl, rfl⟩

/-- The facts about a built update: it is numbered, and every supplied field is
bound to its column. -/
theorem buildUpdate_facts (report : JSObj) (user : User) (body : UpdateBody) :
    (buildUpdate report user body).Numbered
      ∧ (body.status ≠ JSVal.undefined →
          (buildUpdate report user body).Binds "status" body.status)
      ∧ (body.status = JSVal.str "resolved" →
          (buildUpdate report user body).Binds "resolved_by" user.id.toJS
            ∧ "resolved_at = NOW()" ∈ (buildUpdate report user body).updateFields)
      ∧ (body.priority ≠ JSVal.undefined →
          (buildUpdate report user body).Binds "priority" body.priority
            ∧ (buildUpdate report user body).Binds "urgency_score"
                (JSVal.num (recalculateUrgencyScore report body.priority)))
      ∧ (body.resolutionNotes ≠ JSVal.undefined →
          (buildUpdate report user body).Binds "resolution_notes" body.resolutionNotes)
      ∧ (body.resolutionCost ≠ JSVal.undefined →
          (buildUpdate report user body).Binds "resolution_cost" body.resolutionCost)
      ∧ (body.fundingSource ≠ JSVal.undefined →
          (buildUpdate report user body).Binds "funding_source" body.fundingSource) := by
  obtain ⟨s1, s2, s3, s4, hs1, hs2, hs3, hs4, hfinal⟩ := buildUpdate_chain report user body
  have n0 : UpdateState.Numbered { updateFields := [], updateValues := [], paramCount := 1 } :=
    ⟨rfl, rfl, by simp⟩
  have na : (({ updateFields := [], updateValues := [], paramCount := 1 } : UpdateState).set
      "status" body.status).Numbered := UpdateState.numbered_set _ _ _ (by decide) (by decide) n0
  have nb := UpdateState.numbered_setRaw _ "resolved_at = NOW()" (by decide) (by decide) na
  have nc := UpdateState.numbered_set _ "resolved_by" user.id.toJS (by decide) (by decide) nb
  have n1 : s1.Numbered := by
    rw [hs1]; split_ifs
    · exact nc
    · exact na
    · exact n0
  have np := UpdateState.numbered_set s1 "priority" body.priority (by decide) (by decide) n1
  have n2 : s2.Numbered := by
    rw [hs2]; split_ifs
    · exact UpdateState.numbered_set _ _ _ (by decide) (by decide) np
    · exact n1
  have n3 : s3.Numbered := hs3 ▸ UpdateState.numbered_ite _ _ _ _ (by decide) (by decide) n2
  have n4 : s4.Numbered := hs4 ▸ UpdateState.numbered_ite _ _ _ _ (by decide) (by decide) n3
  have n5 : (buildUpdate report user body).Numbered :=
    hfinal ▸ UpdateState.numbered_ite _ _ _ _ (by decide) (by decide) n4
  have e12 : s1.Extends s2 := by
    rw [hs2]; split_ifs
    · exact UpdateState.extends_trans (UpdateState.extends_set _ _ _)
        (UpdateState.extends_set _ _ _)
    · exact UpdateState.extends_refl _
  have e23 : s2.Extends s3 := hs3 ▸ UpdateState.extends_ite _ _ _ _
  have e34 : s3.Extends s4 := hs4 ▸ UpdateState.extends_ite _ _ _ _
  have e45 : s4.Extends (buildUpdate report user body) :=
    hfinal ▸ UpdateState.extends_ite _ _ _ _
  have e35 := UpdateState.extends_trans e34 e45
  have e25 := UpdateState.extends_trans e23 e35
  have e15 := UpdateState.extends_trans e12 e25
  refine ⟨n5, ?_, ?_, ?_, ?_, ?_, ?_⟩
  · intro h
    refine UpdateState.binds_of_extends ?_ e15
    rw [hs1, if_pos h]
    have hb := UpdateState.binds_set
      ({ updateFields := [], updateValues := [], paramCount := 1 } : UpdateState)
      "status" body.status rfl
    split_ifs
    · exact UpdateState.binds_of_extends hb
        (UpdateState.extends_trans (UpdateState.extends_setRaw _ _)
          (UpdateState.extends_set _ _ _))
    · exact hb
  · intro h
    have hne : body.status ≠ JSVal.undefined := by rw [h]; decide
    have hs1' : s1 = ((({ updateFields := [], updateValues := [], paramCount := 1 } :
        UpdateState).set "status" body.status).setRaw "resolved_at = NOW()").set
          "resolved_by" user.id.toJS := by
      rw [hs1, if_pos hne, if_pos h]
    constructor
    · refine UpdateState.binds_of_extends ?_ e15
      rw [hs1']
      exact UpdateState.binds_set _ _ _ nb.1
    · obtain ⟨fs, _, hf, _⟩ := e15
      rw [hf, hs1']
      simp [UpdateState.set, UpdateState.setRaw]
  · intro h
    have hs2' : s2 = (s1.set "priority" body.priority).set "urgency_score"
        (JSVal.num (recalculateUrgencyScore report body.priority)) := by
      rw [hs2, if_pos h]
    constructor
    · refine UpdateState.binds_of_extends ?_ e25
      rw [hs2']
      exact UpdateState.binds_of_extends (UpdateState.binds_set s1 _ _ n1.1)
        (UpdateState.extends_set _ _ _)
    · refine UpdateState.binds_of_extends ?_ e25
      rw [hs2']
      exact UpdateState.binds_set _ _ _ np.1
  · intro h
    refine UpdateState.binds_of_extends ?_ e35
    rw [hs3, if_pos h]
    exact UpdateState.binds_set s2 _ _ n2.1
  · intro h
    refine UpdateState.binds_of_extends ?_ e45
    rw [hs4, if_pos h]
    exact UpdateState.binds_set s3 _ _ n3.1
  · intro h
    rw [hfinal, if_pos h]
    exact UpdateState.binds_set s4 _ _ n4.1

/-- A built update has no SET item exactly when the body supplies none of the
five fields. -/
theorem buildUpdate_empty_iff (report : JSObj) (user : User) (body : UpdateBody) :
    (buildUpdate report user body).updateFields = []
      ↔ body.status = JSVal.undefined ∧ body.priority = JSVal.undefined
        ∧ body.resolutionNotes = JSVal.undefined ∧ body.resolutionCost = JSVal.undefined
        ∧ body.fundingSource = JSVal.undefined := by
  obtain ⟨_, h1, _, h3, h4, h5, h6⟩ := buildUpdate_facts report user body
  have mem : ∀ col v, (buildUpdate report user body).Binds col v →
      (buildUpdate report user body).updateFields ≠ [] := by
    intro col v ⟨k, _, _, hk, _⟩ he
    rw [he] at hk
    simp at hk
  constructor
  · intro he
    refine ⟨?_, ?_, ?_, ?_, ?_⟩
    · by_contra h; exact mem _ _ (h1 h) he
    · by_contra h; exact mem _ _ (h3 h).1 he
    · by_contra h; exact mem _ _ (h4 h) he
    · by_contra h; exact mem _ _ (h5 h) he
    · by_contra h; exact mem _ _ (h6 h) he
  · rintro ⟨a, b, c, d, e⟩
    simp [buildUpdate, a, b, c, d, e]

/-- The guards of the clause of the list: the school of a teacher and every
supplied filter are guarded by the conjunct the handler appends for them. -/
theorem buildWhere_guards (user : Option User) (q : ListQuery) :
    (∀ u S, user = some u → u.role = "teacher" → u.schoolId = some S →
        (buildWhere user q).Guards
          (fun n => [Atom.eqParam Col.school_id n, Atom.eqLit Col.visibility "public"])
          (JSVal.str S.text))
      ∧ (∀ s, q.status = some s → s ≠ "" →
          (buildWhere user q).Guards (fun n => [Atom.eqParam Col.status n]) (JSVal.str s))
      ∧ (∀ s, q.priority = some s → s ≠ "" →
          (buildWhere user q).Guards (fun n => [Atom.eqParam Col.priority n]) (JSVal.str s))
      ∧ (∀ s, q.issueType = some s → s ≠ "" →
          (buildWhere user q).Guards (fun n => [Atom.eqParam Col.issue_type n]) (JSVal.str s))
      ∧ (∀ s, q.lga = some s → s ≠ "" →
          (buildWhere user q).Guards (fun n => [Atom.ilikeParam Col.lga n])
            (JSVal.str ("%" ++ s ++ "%")))
      ∧ (∀ s, q.schoolId = some s → s ≠ "" →
          (buildWhere user q).Guards (fun n => [Atom.eqParam Col.school_id n]) (JSVal.str s))
      ∧ (∀ s, q.search = some s → s ≠ "" →
          (buildWhere user q).Guards
            (fun n => [Atom.ilikeParam Col.title n, Atom.ilikeParam Col.description n,
              Atom.ilikeParam Col.school_name n])
            (JSVal.str ("%" ++ s ++ "%"))) := by
  obtain ⟨s0, hs0⟩ : ∃ s, s = visibilityFilters user := ⟨_, rfl⟩
  obtain ⟨s1, hs1⟩ : ∃ s, s = s0.filter q.status (fun n => [Atom.eqParam Col.status n]) id :=
    ⟨_, rfl⟩
  obtain ⟨s2, hs2⟩ : ∃ s, s = s1.filter q.priority (fun n => [Atom.eqParam Col.priority n]) id :=
    ⟨_, rfl⟩
  obtain ⟨s3, hs3⟩ : ∃ s,
      s = s2.filter q.issueType (fun n => [Atom.eqParam Col.issue_type n]) id := ⟨_, rfl⟩
  obtain ⟨s4, hs4⟩ : ∃ s, s = s3.filter q.lga (fun n => [Atom.ilikeParam Col.lga n])
      (fun s => "%" ++ s ++ "%") := ⟨_, rfl⟩
  obtain ⟨s5, hs5⟩ : ∃ s,
      s = s4.filter q.schoolId (fun n => [Atom.eqParam Col.school_id n]) id := ⟨_, rfl⟩
  obtain ⟨s6, hs6⟩ : ∃ s, s = s5.filter q.search
      (fun n => [Atom.ilikeParam Col.title n, Atom.ilikeParam Col.description n,
        Atom.ilikeParam Col.school_name n]) (fun s => "%" ++ s ++ "%") := ⟨_, rfl⟩
  have hfinal : buildWhere user q = s6 := by
    rw [hs6, hs5, hs4, hs3, hs2, hs1, hs0]; rfl
  have n0 : s0.Numbered := hs0 ▸ visibilityFilters_numbered user
  have n1 : s1.Numbered := hs1 ▸ WhereState.numbered_filter _ _ _ _ (usesOnly_eq _) n0
  have n2 : s2.Numbered := hs2 ▸ WhereState.numbered_filter _ _ _ _ (usesOnly_eq _) n1
  have n3 : s3.Numbered := hs3 ▸ WhereState.numbered_filter _ _ _ _ (usesOnly_eq _) n2
  have n4 : s4.Numbered := hs4 ▸ WhereState.numbered_filter _ _ _ _ (usesOnly_ilike _) n3
  have n5 : s5.Numbered := hs5 ▸ WhereState.numbered_filter _ _ _ _ (usesOnly_eq _) n4
  have e01 : s0.Extends s1 := hs1 ▸ WhereState.extends_filter _ _ _ _
  have e12 : s1.Extends s2 := hs2 ▸ WhereState.extends_filter _ _ _ _
  have e23 : s2.Extends s3 := hs3 ▸ WhereState.extends_filter _ _ _ _
  have e34 : s3.Extends s4 := hs4 ▸ WhereState.extends_filter _ _ _ _
  have e45 : s4.Extends s5 := hs5 ▸ WhereState.extends_filter _ _ _ _
  have e56 : s5.Extends s6 := hs6 ▸ WhereState.extends_filter _ _ _ _
  have e46 := e45.trans e56
  have e36 := e34.trans e46
  have e26 := e23.trans e36
  have e16 := e12.trans e26
  have e06 := e01.trans e16
  refine ⟨?_, ?_, ?_, ?_, ?_, ?_, ?_⟩
  · intro u S hu hrole hS
    subst hu
    rw [hfinal]
    refine WhereState.Guards.of_extends ?_ e06
    rw [hs0, visibilityFilters_teacher_school u S hrole hS]
    exact ⟨1, le_refl 1, by simp, by simp, by simp⟩
  · intro s hq hne
    rw [hfinal]
    refine WhereState.Guards.of_extends ?_ e16
    rw [hs1, hq]
    exact WhereState.guards_filter s0 _ id s hne n0.1
  · intro s hq hne
    rw [hfinal]
    refine WhereState.Guards.of_extends ?_ e26
    rw [hs2, hq]
    exact WhereState.guards_filter s1 _ id s hne n1.1
  · intro s hq hne
    rw [hfinal]
    refine WhereState.Guards.of_extends ?_ e36
    rw [hs3, hq]
    exact WhereState.guards_filter s2 _ id s hne n2.1
  · intro s hq hne
    rw [hfinal]
    refine WhereState.Guards.of_extends ?_ e46
    rw [hs4, hq]
    exact WhereState.guards_filter s3 _ _ s hne n3.1
  · intro s hq hne
    rw [hfinal]
    refine WhereState.Guards.of_extends ?_ e56
    rw [hs5, hq]
    exact WhereState.guards_filter s4 _ id s hne n4.1
  · intro s hq hne
    rw [hfinal, hs6, hq]
    exact WhereState.guards_filter s5 _ _ s hne n5.1

/-- C25: for every caller and every combination of the optional filters of the
list, the placeholders that occur in the text of the WHERE clause are exactly
$1..$n with n the number of parameters; each supplied condition stands in the
text with the placeholder $k whose position in queryParams holds its value; LIMIT
and OFFSET use $n+1 and $n+2, bound to limit and offset. For every combination of
fields of the report update a statement is built unless no field is supplied;
the placeholders of its SET items are $1..$m in the order of the pushed values,
each supplied field stands as `column = $k` with its value at position k, and
WHERE id uses $m+1, bound to the report id. -/
theorem placeholders_match_parameters (user : Option User) (q : ListQuery)
    (limit offset : JSVal) (report : JSObj) (editor : User) (body : UpdateBody)
    (targetId : String) :
    (buildWhere user q).paramCount = (buildWhere user q).queryParams.length + 1
      ∧ (∀ k, k ∈ placeholdersIn (buildWhere user q).whereClause
          ↔ 1 ≤ k ∧ k ≤ (buildWhere user q).queryParams.length)
      ∧ (∀ u S, user = some u → u.role = "teacher" → u.schoolId = some S →
          GuardedBy (buildWhere user q).whereClause (buildWhere user q).queryParams
            (fun k => "(r.school_id = $" ++ toString k ++ " OR r.visibility = \x27public\x27)")
            (JSVal.str S.text))
      ∧ (∀ s, q.status = some s → s ≠ "" →
          GuardedBy (buildWhere user q).whereClause (buildWhere user q).queryParams
            (fun k => "r.status = $" ++ toString k) (JSVal.str s))
      ∧ (∀ s, q.priority = some s → s ≠ "" →
          GuardedBy (buildWhere user q).whereClause (buildWhere user q).queryParams
            (fun k => "r.priority = $" ++ toString k) (JSVal.str s))
      ∧ (∀ s, q.issueType = some s → s ≠ "" →
          GuardedBy (buildWhere user q).whereClause (buildWhere user q).queryParams
            (fun k => "r.issue_type = $" ++ toString k) (JSVal.str s))
      ∧ (∀ s, q.lga = some s → s ≠ "" →
          GuardedBy (buildWhere user q).whereClause (buildWhere user q).queryParams
            (fun k => "s.lga ILIKE $" ++ toString k) (JSVal.str ("%" ++ s ++ "%")))
      ∧ (∀ s, q.schoolId = some s → s ≠ "" →
          GuardedBy (buildWhere user q).whereClause (buildWhere user q).queryParams
            (fun k => "r.school_id = $" ++ toString k) (JSVal.str s))
      ∧ (∀ s, q.search = some s → s ≠ "" →
          GuardedBy (buildWhere user q).whereClause (buildWhere user q).queryParams
            (fun k => "(r.title ILIKE $" ++ toString k ++ " OR r.description ILIKE $"
              ++ toString k ++ " OR s.name ILIKE $" ++ toString k ++ ")")
            (JSVal.str ("%" ++ s ++ "%")))
      ∧ listQueryTail (buildWhere user q) limit offset
          = (" LIMIT $" ++ toString ((buildWhere user q).queryParams.length + 1)
              ++ " OFFSET $" ++ toString ((buildWhere user q).queryParams.length + 2),
            (buildWhere user q).queryParams ++ [limit, offset])
      ∧ placeholdersIn (listQueryTail (buildWhere user q) limit offset).1
          = [(buildWhere user q).queryParams.length + 1,
             (buildWhere user q).queryParams.length + 2]
      ∧ (listQueryTail (buildWhere user q) limit offset).2[
          (buildWhere user q).queryParams.length]? = some limit
      ∧ (listQueryTail (buildWhere user q) limit offset).2[
          (buildWhere user q).queryParams.length + 1]? = some offset
      ∧ (updateQuery report editor body targetId = Option.none
          ↔ body.status = JSVal.undefined ∧ body.priority = JSVal.undefined
            ∧ body.resolutionNotes = JSVal.undefined ∧ body.resolutionCost = JSVal.undefined
            ∧ body.fundingSource = JSVal.undefined)
      ∧ (∀ text values, updateQuery report editor body targetId = some (text, values) →
          text = "UPDATE reports SET "
              ++ ", ".intercalate
                  ((buildUpdate report editor body).updateFields ++ ["updated_at = NOW()"])
              ++ " WHERE id = $"
              ++ toString ((buildUpdate report editor body).updateValues.length + 1)
              ++ " RETURNING *"
            ∧ (buildUpdate report editor body).updateFields.flatMap placeholdersIn
                = List.range' 1 (buildUpdate report editor body).updateValues.length
            ∧ placeholdersIn text
                = List.range' 1 ((buildUpdate report editor body).updateValues.length + 1)
            ∧ values = (buildUpdate report editor body).updateValues ++ [JSVal.str targetId]
            ∧ values[(buildUpdate report editor body).updateValues.length]?
                = some (JSVal.str targetId))
      ∧ (body.status ≠ JSVal.undefined →
          (buildUpdate report editor body).Binds "status" body.status)
      ∧ (body.status = JSVal.str "resolved" →
          (buildUpdate report editor body).Binds "resolved_by" editor.id.toJS)
      ∧ (body.priority ≠ JSVal.undefined →
          (buildUpdate report editor body).Binds "priority" body.priority
            ∧ (buildUpdate report editor body).Binds "urgency_score"
                (JSVal.num (recalculateUrgencyScore report body.priority)))
      ∧ (body.resolutionNotes ≠ JSVal.undefined →
          (buildUpdate report editor body).Binds "resolution_notes" body.resolutionNotes)
      ∧ (body.resolutionCost ≠ JSVal.undefined →
          (buildUpdate report editor body).Binds "resolution_cost" body.resolutionCost)
      ∧ (body.fundingSource ≠ JSVal.undefined →
          (buildUpdate report editor body).Binds "funding_source" body.fundingSource) := by
  have hnum := buildWhere_numbered user q
  have hcount := hnum.1
  obtain ⟨g0, g1, g2, g3, g4, g5, g6⟩ := buildWhere_guards user q
  obtain ⟨unum, b1, b2, b3, b4, b5, b6⟩ := buildUpdate_facts report editor body
  refine ⟨hcount, hnum.2, ?_, ?_, ?_, ?_, ?_, ?_, ?_, ?_, ?_, ?_, ?_, ?_, ?_, b1,
    fun h => (b2 h).1, b3, b4, b5, b6⟩
  · intro u S hu hrole hS
    exact (g0 u S hu hrole hS).guardedBy _ sql_school
  · intro s hq hne
    exact (g1 s hq hne).guardedBy _ (fun k => sql_eqParam Col.status k)
  · intro s hq hne
    exact (g2 s hq hne).guardedBy _ (fun k => sql_eqParam Col.priority k)
  · intro s hq hne
    exact (g3 s hq hne).guardedBy _ (fun k => sql_eqParam Col.issue_type k)
  · intro s hq hne
    exact (g4 s hq hne).guardedBy _ sql_lga
  · intro s hq hne
    exact (g5 s hq hne).guardedBy _ (fun k => sql_eqParam Col.school_id k)
  · intro s hq hne
    exact (g6 s hq hne).guardedBy _ sql_search
  · simp only [listQueryTail, hcount]
  · show placeholdersIn (" LIMIT $" ++ toString (buildWhere user q).paramCount
      ++ " OFFSET $" ++ toString ((buildWhere user q).paramCount + 1)) = _
    rw [placeholdersIn_tail, hcount]
  · show ((buildWhere user q).queryParams ++ [limit, offset])[
      (buildWhere user q).queryParams.length]? = some limit
    rw [List.getElem?_append_right (le_refl _)]
    simp
  · show ((buildWhere user q).queryParams ++ [limit, offset])[
      (buildWhere user q).queryParams.length + 1]? = some offset
    rw [List.getElem?_append_right (Nat.le_add_right _ _)]
    simp
  · rw [← buildUpdate_empty_iff report editor body]
    unfold updateQuery
    dsimp only
    split_ifs with h
    · simp [List.length_eq_zero.1 h]
    · simp only [false_iff]
      exact fun he => h (by rw [he]; rfl)
  · intro text values h
    unfold updateQuery at h
    dsimp only at h
    split_ifs at h
    simp only [Option.some.injEq, Prod.mk.injEq] at h
    obtain ⟨ht, hv⟩ := h
    refine ⟨?_, unum.2.1, ?_, hv.symm, ?_⟩
    · rw [← ht, unum.1]
    · rw [← ht, placeholdersIn_update _ _ unum.2.2, unum.2.1, unum.1, List.range'_concat]
      simp [Nat.add_comm]
    · rw [← hv]; simp

/-- C25 at teacher A with every filter of the list supplied, and at the update
of the sample report that sets status, priority and funding source. -/
theorem placeholders_match_parameters_witness :
    (∀ k, k ∈ placeholdersIn (buildWhere (some teacherA) allFilters).whereClause
        ↔ 1 ≤ k ∧ k ≤ (buildWhere (some teacherA) allFilters).queryParams.length)
      ∧ GuardedBy (buildWhere (some teacherA) allFilters).whereClause
          (buildWhere (some teacherA) allFilters).queryParams
          (fun k => "(r.school_id = $" ++ toString k ++ " OR r.visibility = \x27public\x27)")
          (JSVal.str schoolA.text)
      ∧ GuardedBy (buildWhere (some teacherA) allFilters).whereClause
          (buildWhere (some teacherA) allFilters).queryParams
          (fun k => "s.lga ILIKE $" ++ toString k) (JSVal.str ("%" ++ "Dala" ++ "%"))
      ∧ (buildUpdate (sampleReport (some "public")).toObj officerA threeFields).Binds
          "resolved_by" officerA.id.toJS
      ∧ (buildUpdate (sampleReport (some "public")).toObj officerA threeFields).Binds
          "funding_source" threeFields.fundingSource :=
  have h := placeholders_match_parameters (some teacherA) allFilters (JSVal.num 20)
    (JSVal.num 0) (sampleReport (some "public")).toObj officerA threeFields reportA.text
  ⟨h.2.1, h.2.2.1 teacherA schoolA rfl rfl rfl, h.2.2.2.2.2.2.1 "Dala" rfl (by decide),
    h.2.2.2.2.2.2.2.2.2.2.2.2.2.2.2.2.1 rfl,
    h.2.2.2.2.2.2.2.2.2.2.2.2.2.2.2.2.2.2.2.2 (by decide)⟩

set_option maxRecDepth 20000 in
/-- The statement the update of the sample report builds for status resolved, a
new priority and a funding source: the SET items carry $1 to $5 in the order of
the values, and WHERE id carries $6. -/
theorem updateQuery_three_fields :
    updateQuery (sampleReport (some "public")).toObj officerA threeFields reportA.text
        = some ("UPDATE reports SET status = $1, resolved_at = NOW(), resolved_by = $2, "
            ++ "priority = $3, urgency_score = $4, funding_source = $5, updated_at = NOW()"
            ++ " WHERE id = $6 RETURNING *",
          [JSVal.str "resolved", userA.toJS, JSVal.str "high", JSVal.num 65,
           JSVal.str "State budget", JSVal.str reportA.text])
      ∧ placeholdersIn ("UPDATE reports SET status = $1, resolved_at = NOW(), "
            ++ "resolved_by = $2, priority = $3, urgency_score = $4, funding_source = $5, "
            ++ "updated_at = NOW() WHERE id = $6 RETURNING *") = [1, 2, 3, 4, 5, 6] := by
  exact ⟨rfl, by decide⟩

end EduTrack
